import Mathlib

/-!
# SPM sleep driver (arch/arm/mach-mt8127/mt_spm_sleep.c)

A shallow embedding of the software part of the MT8127 SPM sleep driver:
the wake-reason decoder, the wake-period policy, the register programming
sequence of the three transition entry points and the wake-event registry.

Conventions of the embedding.

* `u32` values are natural numbers; every register write truncates to 32 bits
  and the C complement `~x` is `not32 x`.
* The constants that the driver takes from `mach/mt_spm.h` and
  `mach/mt_spm_sleep.h` (bit masks, enumerators, the build switches) are
  declared outside this file; they are the fields of `SpmConsts` and every
  statement is made for an arbitrary value of that structure.
* Hardware and collaborators outside the file are the fields of `Hw`.
* The driver state is `SpmState`; every register access and collaborator call
  is appended to `SpmState.trace`.
-/

namespace Spm

/-! ## Types declared in the absent headers -/

/-- Modelled from the spec: the enumeration `wake_reason_t` is declared in the
header `mach/mt_spm_sleep.h`, outside the driver file.  The enumerators are the
ones the driver names; distinct enumerators are distinct values. -/
inductive wake_reason_t where
  | WR_NONE
  | WR_UART_BUSY
  | WR_PCM_ASSERT
  | WR_PCM_TIMER
  | WR_PCM_WDT
  | WR_WAKE_SRC
  | WR_PCM_ABORT
  | WR_UNKNOWN
  deriving DecidableEq, Repr

open wake_reason_t

/-- The SPM (and one PERI) registers the driver touches through
`spm_read` / `spm_write`. -/
inductive Reg where
  | SPM_CLK_SETTLE
  | SPM_PCM_CON0
  | SPM_PCM_CON1
  | SPM_PCM_IM_PTR
  | SPM_PCM_IM_LEN
  | SPM_POWER_ON_VAL0
  | SPM_POWER_ON_VAL1
  | SPM_PCM_REG13_DATA
  | SPM_PCM_REG_DATA_INI
  | SPM_PCM_PWR_IO_EN
  | SPM_PCM_EVENT_VECTOR0
  | SPM_PCM_EVENT_VECTOR1
  | SPM_PCM_EVENT_VECTOR2
  | SPM_PCM_EVENT_VECTOR3
  | SPM_PCM_EVENT_VECTOR4
  | SPM_PCM_EVENT_VECTOR5
  | SPM_PCM_EVENT_VECTOR6
  | SPM_PCM_EVENT_VECTOR7
  | SPM_APMCU_PWRCTL
  | SPM_AP_STANBY_CON
  | SPM_CORE0_WFI_SEL
  | SPM_CORE1_WFI_SEL
  | SPM_CORE2_WFI_SEL
  | SPM_CORE3_WFI_SEL
  | SPM_PCM_TIMER_VAL
  | SPM_SLEEP_WAKEUP_EVENT_MASK
  | SPM_SLEEP_ISR_MASK
  | SPM_CLK_CON
  | SPM_PCM_MAS_PAUSE_MASK
  | SPM_PCM_WDT_TIMER_VAL
  | SPM_PCM_REG9_DATA
  | SPM_SLEEP_ISR_RAW_STA
  | SPM_SLEEP_CPU_WAKEUP_EVENT
  | SPM_PCM_TIMER_OUT
  | SPM_PCM_EVENT_REG_STA
  | SPM_SLEEP_ISR_STATUS
  | SPM_PCM_SW_INT_CLEAR
  | PERI_PDN0_STA
  deriving DecidableEq, Repr

/-- The header constants and build switches the driver depends on.  All of
them are declared in headers outside the driver file, so they are parameters. -/
structure SpmConsts where
  /- build switches -/
  CONFIG_MTK_LDVT : Bool
  CONFIG_AMAZON_METRICS_LOG : Bool
  MTK_ALPS_BOX_SUPPORT : Bool
  /- wake sources -/
  WAKE_SRC_TS : Nat
  WAKE_SRC_KP : Nat
  WAKE_SRC_WDT : Nat
  WAKE_SRC_GPT : Nat
  WAKE_SRC_EINT : Nat
  WAKE_SRC_CONN_WDT : Nat
  WAKE_SRC_CEC : Nat
  WAKE_SRC_IRRX : Nat
  WAKE_SRC_LOW_BAT : Nat
  WAKE_SRC_CONN : Nat
  WAKE_SRC_USB_CD : Nat
  WAKE_SRC_USB_PDN : Nat
  WAKE_SRC_DBGSYS : Nat
  WAKE_SRC_UART0 : Nat
  WAKE_SRC_AFE : Nat
  WAKE_SRC_THERM : Nat
  WAKE_SRC_CIRQ : Nat
  WAKE_SRC_SYSPWREQ : Nat
  WAKE_SRC_ETHERNET : Nat
  WAKE_SRC_CPU0_IRQ : Nat
  WAKE_SRC_CPU1_IRQ : Nat
  WAKE_SRC_CPU2_IRQ : Nat
  WAKE_SRC_CPU3_IRQ : Nat
  /- SPM_PCM_CON0 / SPM_PCM_CON1 -/
  CON0_PCM_KICK : Nat
  CON0_IM_KICK : Nat
  CON0_IM_SLEEP_DVS : Nat
  CON0_PCM_SW_RESET : Nat
  CON0_CFG_KEY : Nat
  CON1_IM_SLAVE : Nat
  CON1_MIF_APBEN : Nat
  CON1_PCM_TIMER_EN : Nat
  CON1_IM_NONRP_EN : Nat
  CON1_PCM_WDT_EN : Nat
  CON1_PCM_WDT_WAKE_MODE : Nat
  CON1_SPM_SRAM_SLP_B : Nat
  CON1_SPM_SRAM_ISO_B : Nat
  CON1_CFG_KEY : Nat
  /- other register fields -/
  R7_UART_CLK_OFF_REQ : Nat
  R13_UART_CLK_OFF_ACK : Nat
  R13_CONN_SRCCLKENI : Nat
  PCM_RF_SYNC_R0 : Nat
  PCM_RF_SYNC_R7 : Nat
  PCM_PWRIO_EN_R0 : Nat
  PCM_PWRIO_EN_R7 : Nat
  CC_DISABLE_DORM_PWR : Nat
  CC_DISABLE_INFRA_PWR : Nat
  CC_LOCK_INFRA_DCM : Nat
  CC_SRCLKENA_MASK : Nat
  ISR_TWAM : Nat
  ISRM_PCM_IRQ_AUX : Nat
  ISRM_ALL_EXC_TWAM : Nat
  ISRC_ALL_EXC_TWAM : Nat
  PCM_SW_INT0 : Nat
  /- collaborator constants -/
  MT_SPM_IRQ_ID : Nat
  SHUTDOWN_MODE : Nat
  DORMANT_MODE : Nat
  GPT4 : Nat
  EBUSY : Int
  WEV_NONE : Int
  WEV_MAX : Int
  /- `EVENT_VEC(event, resume, imme, pc)` and `spm_get_base_phys(base)` -/
  EVENT_VEC : Nat → Nat → Nat → Nat → Nat
  spm_get_base_phys : Nat → Nat
  /- identities of the two microcode images -/
  __pcm_suspend : Nat
  __pcm_dpidle : Nat
  /- the deep-idle image selected by the PMIC build switches -/
  pcm_dpidle_mt6397 : Bool

/-! ## 32-bit helpers -/

/-- Truncation of a value to `u32`. -/
def u32 (x : Nat) : Nat := x % 2 ^ 32

/-- C bitwise complement `~x` of a `u32`. -/
def not32 (x : Nat) : Nat := (2 ^ 32 - 1) ^^^ (x % 2 ^ 32)

/-- Conversion of a C `int` to `u32` (two's complement). -/
def int_to_u32 (x : Int) : Nat := (x % (2 ^ 32 : Int)).toNat

/-! ## Build switches and driver-local macros (lines 23-31, 473-490) -/

def SPM_PWAKE_EN (K : SpmConsts) : Bool := !K.CONFIG_MTK_LDVT
def SPM_PCMWDT_EN (K : SpmConsts) : Bool := !K.CONFIG_MTK_LDVT
def SPM_BYPASS_SYSPWREQ (K : SpmConsts) : Bool := K.CONFIG_MTK_LDVT

def SPM_SYSCLK_SETTLE : Nat := 128
def WAIT_UART_ACK_TIMES : Nat := 10
def SPM_WAKE_PERIOD : Int := 600
def PCM_WDT_TIMEOUT : Nat := 30 * 32768
def PCM_TIMER_MAX_FOR_WDT : Nat := 0xffffffff - PCM_WDT_TIMEOUT

def WAKE_SRC_FOR_SUSPEND (K : SpmConsts) : Nat :=
  K.WAKE_SRC_KP ||| K.WAKE_SRC_EINT ||| K.WAKE_SRC_CONN_WDT ||| K.WAKE_SRC_IRRX |||
  K.WAKE_SRC_CONN ||| K.WAKE_SRC_USB_CD ||| K.WAKE_SRC_THERM ||| K.WAKE_SRC_SYSPWREQ |||
  K.WAKE_SRC_ETHERNET

def WAKE_SRC_FOR_DPIDLE (K : SpmConsts) : Nat :=
  K.WAKE_SRC_KP ||| K.WAKE_SRC_GPT ||| K.WAKE_SRC_EINT ||| K.WAKE_SRC_CONN_WDT |||
  K.WAKE_SRC_IRRX ||| K.WAKE_SRC_CONN ||| K.WAKE_SRC_USB_CD ||| K.WAKE_SRC_USB_PDN |||
  K.WAKE_SRC_AFE ||| K.WAKE_SRC_THERM ||| K.WAKE_SRC_SYSPWREQ ||| K.WAKE_SRC_ETHERNET

/-- The microcode descriptor `pcm_desc_t`; `base` identifies the image. -/
structure pcm_desc_t where
  base : Nat
  size : Nat
  sess : Nat
  vec0 : Nat
  vec1 : Nat
  vec2 : Nat
  vec3 : Nat
  vec4 : Nat
  vec5 : Nat
  vec6 : Nat
  vec7 : Nat

/-- The descriptor `pcm_suspend` (lines 153-161 and 268-276). -/
def pcm_suspend (K : SpmConsts) : pcm_desc_t :=
  if K.MTK_ALPS_BOX_SUPPORT then
    { base := K.__pcm_suspend, size := 597, sess := 3,
      vec0 := K.EVENT_VEC 11 1 0 0, vec1 := K.EVENT_VEC 12 1 0 29,
      vec2 := K.EVENT_VEC 30 1 0 63, vec3 := K.EVENT_VEC 31 1 0 107,
      vec4 := 0, vec5 := 0, vec6 := 0, vec7 := 0 }
  else
    { base := K.__pcm_suspend, size := 597, sess := 3,
      vec0 := K.EVENT_VEC 11 1 0 0, vec1 := K.EVENT_VEC 12 1 0 26,
      vec2 := K.EVENT_VEC 30 1 0 55, vec3 := K.EVENT_VEC 31 1 0 99,
      vec4 := 0, vec5 := 0, vec6 := 0, vec7 := 0 }

/-- The descriptor `pcm_dpidle` (lines 366-374 and 458-466). -/
def pcm_dpidle (K : SpmConsts) : pcm_desc_t :=
  if K.pcm_dpidle_mt6397 then
    { base := K.__pcm_dpidle, size := 486, sess := 2,
      vec0 := K.EVENT_VEC 11 1 0 0, vec1 := K.EVENT_VEC 12 1 0 12,
      vec2 := K.EVENT_VEC 30 1 0 34, vec3 := K.EVENT_VEC 31 1 0 74,
      vec4 := 0, vec5 := 0, vec6 := 0, vec7 := 0 }
  else
    { base := K.__pcm_dpidle, size := 480, sess := 2,
      vec0 := K.EVENT_VEC 11 1 0 0, vec1 := K.EVENT_VEC 12 1 0 9,
      vec2 := K.EVENT_VEC 30 1 0 28, vec3 := K.EVENT_VEC 31 1 0 68,
      vec4 := 0, vec5 := 0, vec6 := 0, vec7 := 0 }

/-- The snapshot `wake_status_t` (lines 511-520). -/
structure wake_status_t where
  debug_reg : Nat
  r12 : Nat
  raw_sta : Nat
  cpu_wake : Nat
  timer_out : Nat
  event_reg : Nat
  isr : Nat
  r13 : Nat
  deriving DecidableEq, Repr

/-! ## Observable events -/

/-- One observable action of the driver: a register access, a call of a
collaborator outside the file, or a diagnostic line. -/
inductive Ev where
  | spm_read (r : Reg) (v : Nat)
  | spm_write (r : Reg) (v : Nat)
  | spin_lock_irqsave
  | spin_unlock_irqrestore
  | mt_irq_mask_all (saved : Nat)
  | mt_irq_mask_restore (saved : Nat)
  | mt_irq_unmask_for_sleep (irq : Nat)
  | mt_cirq_clone_gic
  | mt_cirq_enable
  | mt_cirq_flush
  | mt_cirq_disable
  | udelay (us : Nat)
  | dump_uart_reg
  | mtk_uart_restore
  | cpu_power_down (mode : Nat)
  | switch_to_amp
  | wfi_with_sync
  | switch_to_smp
  | cpu_check_dormant_abort
  | get_wd_api
  | wd_suspend_notify
  | wd_resume_notify
  | get_dynamic_period (first_use : Int) (first_wakeup_time : Int) (battery_capacity_level : Int)
  | gpt_set_cmp (id : Nat) (val : Nat)
  | start_gpt (id : Nat)
  | gpt_check_and_ack_irq (id : Nat)
  | mt_eint_print_status
  | pm_report_resume_irq (irq : Int)
  | aee_rr_rec_deepidle_val (v : Nat)
  | spm_dpidle_before_wfi
  | spm_dpidle_after_wfi
  | log (fmt : String) (str : String) (args : List Int)
  deriving DecidableEq, Repr

/-! ## Wake-reason decoder (lines 836-980) -/

/-- Result of `spm_output_wake_reason`: the returned reason, the contents of
the local buffer `str` at the return, and the diagnostics emitted. -/
structure WakeOut where
  wr : wake_reason_t
  str : String
  evs : List Ev
  deriving DecidableEq, Repr

/-- The statement `if (cond) { strcat(str, name); wr = r; }` acting on the pair
of locals `(str, wr)`. -/
def strcat_if (cond : Bool) (name : String) (r : wake_reason_t)
    (s : String × wake_reason_t) : String × wake_reason_t :=
  if cond then (s.1 ++ name, r) else s

/-- The block of lines 850-864: the timer bit `1U << 0` of `r12`. -/
def scan_timer (K : SpmConsts) (wakesta : wake_status_t)
    (s : String × wake_reason_t) : String × wake_reason_t :=
  if wakesta.r12 &&& (1 <<< 0) ≠ 0 then
    if wakesta.isr &&& K.ISR_TWAM = 0 ∧ wakesta.cpu_wake = 0 then
      (s.1 ++ "PCM_TIMER ", WR_PCM_TIMER)
    else
      s |> strcat_if (wakesta.isr &&& K.ISR_TWAM ≠ 0) "TWAM " WR_WAKE_SRC
        |> strcat_if (wakesta.cpu_wake ≠ 0) "CPU " WR_WAKE_SRC
  else s

/-- The if-chain of lines 865-960 on the locals `(str, wr)`. -/
def scan_sources (K : SpmConsts) (wakesta : wake_status_t)
    (s : String × wake_reason_t) : String × wake_reason_t :=
  s |> strcat_if (wakesta.r12 &&& K.WAKE_SRC_TS ≠ 0) "TS " WR_WAKE_SRC
    |> strcat_if (wakesta.r12 &&& K.WAKE_SRC_KP ≠ 0) "KP " WR_WAKE_SRC
    |> strcat_if (wakesta.r12 &&& K.WAKE_SRC_WDT ≠ 0) "WDT " WR_WAKE_SRC
    |> strcat_if (wakesta.r12 &&& K.WAKE_SRC_GPT ≠ 0) "GPT " WR_WAKE_SRC
    |> strcat_if (wakesta.r12 &&& K.WAKE_SRC_EINT ≠ 0) "EINT " WR_WAKE_SRC
    |> strcat_if (wakesta.r12 &&& K.WAKE_SRC_CONN_WDT ≠ 0) "CONN_WDT " WR_WAKE_SRC
    |> strcat_if (wakesta.r12 &&& K.WAKE_SRC_CEC ≠ 0) "CEC " WR_WAKE_SRC
    |> strcat_if (wakesta.r12 &&& K.WAKE_SRC_IRRX ≠ 0) "IRRX " WR_WAKE_SRC
    |> strcat_if (wakesta.r12 &&& K.WAKE_SRC_LOW_BAT ≠ 0) "LOW_BAT " WR_WAKE_SRC
    |> strcat_if (wakesta.r12 &&& K.WAKE_SRC_CONN ≠ 0) "CONN " WR_WAKE_SRC
    |> strcat_if (wakesta.r12 &&& (1 <<< 13) ≠ 0) "PCM_WDT " WR_PCM_WDT
    |> strcat_if (wakesta.r12 &&& K.WAKE_SRC_USB_CD ≠ 0) "USB_CD " WR_WAKE_SRC
    |> strcat_if (wakesta.r12 &&& K.WAKE_SRC_USB_PDN ≠ 0) "USB_PDN " WR_WAKE_SRC
    |> strcat_if (wakesta.r12 &&& K.WAKE_SRC_DBGSYS ≠ 0) "DBGSYS " WR_WAKE_SRC
    |> strcat_if (wakesta.r12 &&& K.WAKE_SRC_UART0 ≠ 0) "UART0 " WR_WAKE_SRC
    |> strcat_if (wakesta.r12 &&& K.WAKE_SRC_AFE ≠ 0) "AFE " WR_WAKE_SRC
    |> strcat_if (wakesta.r12 &&& K.WAKE_SRC_THERM ≠ 0) "THERM " WR_WAKE_SRC
    |> strcat_if (wakesta.r12 &&& K.WAKE_SRC_CIRQ ≠ 0) "CIRQ " WR_WAKE_SRC
    |> strcat_if (wakesta.r12 &&& K.WAKE_SRC_SYSPWREQ ≠ 0) "SYSPWREQ " WR_WAKE_SRC
    |> strcat_if (wakesta.r12 &&& K.WAKE_SRC_ETHERNET ≠ 0) "ETHERNET " WR_WAKE_SRC
    |> strcat_if (wakesta.r12 &&& K.WAKE_SRC_CPU0_IRQ ≠ 0) "CPU0_IRQ " WR_WAKE_SRC
    |> strcat_if (wakesta.r12 &&& K.WAKE_SRC_CPU1_IRQ ≠ 0) "CPU1_IRQ " WR_WAKE_SRC
    |> strcat_if (wakesta.r12 &&& K.WAKE_SRC_CPU2_IRQ ≠ 0) "CPU2_IRQ " WR_WAKE_SRC
    |> strcat_if (wakesta.r12 &&& K.WAKE_SRC_CPU3_IRQ ≠ 0) "CPU3_IRQ " WR_WAKE_SRC

/-- The function `spm_output_wake_reason` (lines 836-980). -/
def spm_output_wake_reason (K : SpmConsts) (wakesta : wake_status_t) (dpidle : Bool) :
    WakeOut :=
  let str := ""
  let wr := WR_NONE
  if wakesta.debug_reg ≠ 0 then
    { wr := WR_PCM_ASSERT, str := str,
      evs := [Ev.log "PCM ASSERT AND PC = %u (0x%x)(0x%x)" ""
                [wakesta.debug_reg, wakesta.r13, wakesta.event_reg]] }
  else if dpidle then
    { wr := WR_WAKE_SRC, str := str, evs := [] }
  else
    let s := scan_sources K wakesta (scan_timer K wakesta (str, wr))
    let abort : Bool := wakesta.event_reg &&& 0x100000 = 0
    let s := if abort then (s.1, WR_PCM_ABORT) else s
    let s := strcat_if (s.2 = WR_NONE) "UNKNOWN " WR_UNKNOWN s
    { wr := s.2, str := s.1,
      evs := (if abort then [Ev.log "Sleep Abort!" "" []] else []) ++
        [Ev.log "wake up by %s(0x%x)(0x%x)(%u)" s.1
           [wakesta.r12, wakesta.raw_sta, wakesta.timer_out],
         Ev.log "event_reg = 0x%x, isr = 0x%x, r13 = 0x%x" ""
           [wakesta.event_reg, wakesta.isr, wakesta.r13]] ++
        (if wakesta.r12 &&& K.WAKE_SRC_EINT ≠ 0 then [Ev.mt_eint_print_status] else []) }

/-! ## State, hardware and collaborators -/

/-- The record `struct mt_wake_event`; `parent` is the address of the parent
record, `none` being `NULL`. -/
structure mt_wake_event where
  domain : String
  code : Int
  parent : Option Nat

/-- One row of `struct mt_wake_event_map`; a row whose `domain` is `none`
(`NULL`) terminates the table. -/
structure mt_wake_event_map where
  domain : Option String
  code : Int
  irq : Int
  we : Int
  deriving DecidableEq, Repr

/-- Responses of the hardware and of the collaborators outside the file during
one call of a driver entry point. -/
structure Hw where
  /-- value of `SPM_PCM_REG13_DATA` seen by the i-th poll (from 0) of
  `spm_request_uart_to_sleep` -/
  uart_ack : Nat → Nat
  /-- register file left behind by the sequencer when the CPU resumes -/
  wake : (Reg → Nat) → (Reg → Nat)
  /-- return value of `cpu_power_down(mode)` -/
  cpu_power_down : Nat → Int
  /-- return value of `get_wd_api` -/
  get_wd_api : Int
  /-- interrupt-mask state saved by `mt_irq_mask_all` -/
  irq_mask : Nat
  /-- the duration policy `get_dynamic_period` -/
  get_dynamic_period : Int → Int → Int → Int
  /-- return value of `gpt_check_and_ack_irq` -/
  gpt_check_and_ack_irq : Nat → Int

/-- The mutable state of the driver: the register file, the file-scope
variables, the function-scope statics and the trace of observable events. -/
structure SpmState where
  regs : Reg → Nat
  /-- `static u32 spm_sleep_wakesrc` -/
  spm_sleep_wakesrc : Nat
  /-- module parameter `force_gpt` -/
  force_gpt : Int
  /-- `static struct mt_wake_event *mt_wake_event_comm` -/
  mt_wake_event_comm : Option Nat
  /-- the wake-event records, by address -/
  mem : Nat → mt_wake_event
  /-- `static struct mt_wake_event_map *mt_wake_event_tbl` -/
  mt_wake_event_tbl : Option (List mt_wake_event_map)
  /-- `static wake_reason_t last_wr` of `spm_go_to_sleep` -/
  last_wr_sleep : wake_reason_t
  /-- `static wake_reason_t last_wr` of `spm_go_to_sleep_dpidle` -/
  last_wr_sleep_dpidle : wake_reason_t
  trace : List Ev

/-- Address of the file-scope record `spm_wake_event` (lines 40-42). -/
def spm_wake_event : Nat := 0

/-- The state after static initialisation, for a given register file. -/
def spm_boot (K : SpmConsts) (regs : Reg → Nat) : SpmState :=
  { regs := regs
    spm_sleep_wakesrc := WAKE_SRC_FOR_SUSPEND K
    force_gpt := 0
    mt_wake_event_comm := none
    mem := fun _ => { domain := "SPM", code := 0, parent := none }
    mt_wake_event_tbl := none
    last_wr_sleep := WR_NONE
    last_wr_sleep_dpidle := WR_NONE
    trace := [] }

/-- How a call ends: it returns, it stops in `BUG_ON`, or it reads a local
that was never initialised. -/
inductive Outcome (α : Type) where
  | ret (a : α) (s : SpmState)
  | bug (s : SpmState)
  | uninit (s : SpmState)

/-- Append one event to the trace. -/
def emit (e : Ev) (s : SpmState) : SpmState := { s with trace := s.trace ++ [e] }

/-- The events appended to the trace between state `s` and a later state. -/
def events_since (s later : SpmState) : List Ev := later.trace.drop s.trace.length

/-- The register write `spm_write(r, v)`. -/
def spm_write (r : Reg) (v : Nat) (s : SpmState) : SpmState :=
  { s with regs := fun x => if x = r then u32 v else s.regs x
           trace := s.trace ++ [Ev.spm_write r (u32 v)] }

/-- The register read `spm_read(r)`. -/
def spm_read (r : Reg) (s : SpmState) : Nat × SpmState :=
  (u32 (s.regs r), emit (Ev.spm_read r (u32 (s.regs r))) s)

/-- A read of `SPM_PCM_REG13_DATA` while the UART is being asked to sleep: the
hardware drives the register, the i-th poll sees `hw.uart_ack i`. -/
def spm_read_uart_ack (hw : Hw) (i : Nat) (s : SpmState) : Nat × SpmState :=
  (u32 (hw.uart_ack i),
   { s with regs := fun x => if x = Reg.SPM_PCM_REG13_DATA then u32 (hw.uart_ack i) else s.regs x
            trace := s.trace ++ [Ev.spm_read Reg.SPM_PCM_REG13_DATA (u32 (hw.uart_ack i))] })

/-- The sequencer runs while the CPU sleeps; `hw.wake` is the register file it
leaves. -/
def cpu_sleeps (hw : Hw) (s : SpmState) : SpmState := { s with regs := hw.wake s.regs }

/-! ## Register programming (lines 535-834) -/

def spm_set_sysclk_settle (s : SpmState) : SpmState :=
  let s := spm_write Reg.SPM_CLK_SETTLE SPM_SYSCLK_SETTLE s
  let (settle, s) := spm_read Reg.SPM_CLK_SETTLE s
  emit (Ev.log "settle = %u" "" [settle]) s

def spm_reset_and_init_pcm (K : SpmConsts) (s : SpmState) : SpmState :=
  let s := spm_write Reg.SPM_PCM_CON0 (K.CON0_CFG_KEY ||| K.CON0_PCM_SW_RESET) s
  let s := spm_write Reg.SPM_PCM_CON0 K.CON0_CFG_KEY s
  let s := spm_write Reg.SPM_PCM_CON0 (K.CON0_CFG_KEY ||| K.CON0_IM_SLEEP_DVS) s
  let (v, s) := spm_read Reg.SPM_PCM_CON1 s
  let con1 := v &&& (K.CON1_PCM_WDT_WAKE_MODE ||| K.CON1_PCM_WDT_EN)
  spm_write Reg.SPM_PCM_CON1
    (con1 ||| K.CON1_CFG_KEY ||| K.CON1_SPM_SRAM_ISO_B ||| K.CON1_SPM_SRAM_SLP_B |||
      K.CON1_IM_NONRP_EN ||| K.CON1_MIF_APBEN) s

/-- The two-write pulse on `SPM_PCM_CON0` that ends both kick routines
(lines 582-584 and 742-744), for the kick bit `kick`. -/
def kick_pulse (K : SpmConsts) (kick : Nat) (s : SpmState) : SpmState :=
  let (v, s) := spm_read Reg.SPM_PCM_CON0 s
  let con0 := v &&& not32 (K.CON0_IM_KICK ||| K.CON0_PCM_KICK)
  let s := spm_write Reg.SPM_PCM_CON0 (con0 ||| K.CON0_CFG_KEY ||| kick) s
  spm_write Reg.SPM_PCM_CON0 (con0 ||| K.CON0_CFG_KEY) s

def spm_kick_im_to_fetch (K : SpmConsts) (pcmdesc : pcm_desc_t) (s : SpmState) : SpmState :=
  let ptr := u32 (K.spm_get_base_phys pcmdesc.base)
  let len := int_to_u32 ((pcmdesc.size : Int) - 1)
  let rewrite (s : SpmState) : SpmState :=
    spm_write Reg.SPM_PCM_IM_LEN len (spm_write Reg.SPM_PCM_IM_PTR ptr s)
  let (p, s) := spm_read Reg.SPM_PCM_IM_PTR s
  let s :=
    if p ≠ ptr then rewrite s
    else
      let (l, s) := spm_read Reg.SPM_PCM_IM_LEN s
      if l ≠ len then rewrite s
      else if pcmdesc.sess > 2 then rewrite s
      else
        let (c, s) := spm_read Reg.SPM_PCM_CON1 s
        spm_write Reg.SPM_PCM_CON1 (c ||| K.CON1_CFG_KEY ||| K.CON1_IM_SLAVE) s
  kick_pulse K K.CON0_IM_KICK s

/-- The polling loop of `spm_request_uart_to_sleep` (lines 597-605).  `budget`
is `WAIT_UART_ACK_TIMES - i`, so the exit test `i++ >= WAIT_UART_ACK_TIMES` is
`budget = 0`. -/
def wait_uart_ack (K : SpmConsts) (hw : Hw) (val1 : Nat) : Nat → SpmState → Int × SpmState
  | 0, s =>
    let (r13, s) := spm_read_uart_ack hw (WAIT_UART_ACK_TIMES - 0) s
    if r13 &&& K.R13_UART_CLK_OFF_ACK ≠ 0 then (0, s)
    else
      let s := spm_write Reg.SPM_POWER_ON_VAL1 val1 s
      let (sta, s) := spm_read Reg.PERI_PDN0_STA s
      let s := emit (Ev.log "CANNOT GET UART SLEEP ACK (0x%x)" "" [sta]) s
      let s := emit Ev.dump_uart_reg s
      (-K.EBUSY, s)
  | budget + 1, s =>
    let (r13, s) := spm_read_uart_ack hw (WAIT_UART_ACK_TIMES - (budget + 1)) s
    if r13 &&& K.R13_UART_CLK_OFF_ACK ≠ 0 then (0, s)
    else wait_uart_ack K hw val1 budget (emit (Ev.udelay 10) s)

def spm_request_uart_to_sleep (K : SpmConsts) (hw : Hw) (s : SpmState) : Int × SpmState :=
  let (val1, s) := spm_read Reg.SPM_POWER_ON_VAL1 s
  let s := spm_write Reg.SPM_POWER_ON_VAL1 (val1 ||| K.R7_UART_CLK_OFF_REQ) s
  wait_uart_ack K hw val1 WAIT_UART_ACK_TIMES s

def spm_init_pcm_register (K : SpmConsts) (s : SpmState) : SpmState :=
  let (v0, s) := spm_read Reg.SPM_POWER_ON_VAL0 s
  let s := spm_write Reg.SPM_PCM_REG_DATA_INI v0 s
  let s := spm_write Reg.SPM_PCM_PWR_IO_EN K.PCM_RF_SYNC_R0 s
  let s := spm_write Reg.SPM_PCM_PWR_IO_EN 0 s
  let (v1, s) := spm_read Reg.SPM_POWER_ON_VAL1 s
  let s := spm_write Reg.SPM_PCM_REG_DATA_INI v1 s
  let s := spm_write Reg.SPM_PCM_PWR_IO_EN K.PCM_RF_SYNC_R7 s
  let s := spm_write Reg.SPM_PCM_PWR_IO_EN 0 s
  spm_write Reg.SPM_PCM_REG_DATA_INI 0 s

def spm_init_event_vector (pcmdesc : pcm_desc_t) (s : SpmState) : SpmState :=
  let s := spm_write Reg.SPM_PCM_EVENT_VECTOR0 pcmdesc.vec0 s
  let s := spm_write Reg.SPM_PCM_EVENT_VECTOR1 pcmdesc.vec1 s
  let s := spm_write Reg.SPM_PCM_EVENT_VECTOR2 pcmdesc.vec2 s
  let s := spm_write Reg.SPM_PCM_EVENT_VECTOR3 pcmdesc.vec3 s
  let s := spm_write Reg.SPM_PCM_EVENT_VECTOR4 pcmdesc.vec4 s
  let s := spm_write Reg.SPM_PCM_EVENT_VECTOR5 pcmdesc.vec5 s
  let s := spm_write Reg.SPM_PCM_EVENT_VECTOR6 pcmdesc.vec6 s
  spm_write Reg.SPM_PCM_EVENT_VECTOR7 pcmdesc.vec7 s

/-- The writes shared by both `spm_set_pwrctl_for_*` routines after
`SPM_APMCU_PWRCTL` (lines 650-658 and 673-681). -/
def set_standby_and_wfi_sel (s : SpmState) : SpmState :=
  let s := spm_write Reg.SPM_AP_STANBY_CON
    ((0x2 <<< 19) ||| (0 <<< 16) ||| (0 <<< 6) ||| (0 <<< 5) ||| (1 <<< 4)) s
  let s := spm_write Reg.SPM_CORE0_WFI_SEL 0x1 s
  let s := spm_write Reg.SPM_CORE1_WFI_SEL 0x1 s
  let s := spm_write Reg.SPM_CORE2_WFI_SEL 0x1 s
  spm_write Reg.SPM_CORE3_WFI_SEL 0x1 s

def spm_set_pwrctl_for_sleep (s : SpmState) : SpmState :=
  let pwrctl := 0
  let s := spm_write Reg.SPM_APMCU_PWRCTL pwrctl s
  set_standby_and_wfi_sel s

def spm_set_pwrctl_for_dpidle (pwrlevel : Nat) (s : SpmState) : SpmState :=
  let pwrctl := 0
  let pwrctl := if pwrlevel = 0 then pwrctl ||| (1 <<< 6) else pwrctl ||| (1 <<< 7)
  let s := spm_write Reg.SPM_APMCU_PWRCTL pwrctl s
  set_standby_and_wfi_sel s

def spm_set_wakeup_event (K : SpmConsts) (timer_val wake_src : Nat) (s : SpmState) : SpmState :=
  let s := spm_write Reg.SPM_PCM_TIMER_VAL
    (if timer_val ≠ 0 then timer_val else PCM_TIMER_MAX_FOR_WDT) s
  let (c, s) := spm_read Reg.SPM_PCM_CON1 s
  let s := spm_write Reg.SPM_PCM_CON1 (c ||| K.CON1_CFG_KEY ||| K.CON1_PCM_TIMER_EN) s
  let wake_src := if SPM_BYPASS_SYSPWREQ K then wake_src &&& not32 K.WAKE_SRC_SYSPWREQ
                  else wake_src
  let s := spm_write Reg.SPM_SLEEP_WAKEUP_EVENT_MASK (not32 wake_src) s
  let (m, s) := spm_read Reg.SPM_SLEEP_ISR_MASK s
  let isr := m &&& K.ISR_TWAM
  spm_write Reg.SPM_SLEEP_ISR_MASK (isr ||| K.ISRM_PCM_IRQ_AUX) s

/-- The function `spm_kick_pcm_to_run` (lines 707-745); `Outcome.bug` is the
`BUG_ON` of line 735. -/
def spm_kick_pcm_to_run (K : SpmConsts) (cpu_pdn infra_pdn pcmwdt_en : Bool)
    (s : SpmState) : Outcome Unit :=
  let (v, s) := spm_read Reg.SPM_CLK_CON s
  let clk := v &&& not32 (K.CC_DISABLE_DORM_PWR ||| K.CC_DISABLE_INFRA_PWR)
  let clk := if !cpu_pdn then clk ||| K.CC_DISABLE_DORM_PWR else clk
  let clk := if !infra_pdn then clk ||| K.CC_DISABLE_INFRA_PWR else clk
  let s := spm_write Reg.SPM_CLK_CON (clk ||| K.CC_LOCK_INFRA_DCM) s
  let s := spm_write Reg.SPM_PCM_MAS_PAUSE_MASK 0xffffffff s
  let s := spm_write Reg.SPM_PCM_PWR_IO_EN (K.PCM_PWRIO_EN_R0 ||| K.PCM_PWRIO_EN_R7) s
  let (v, s) := spm_read Reg.SPM_CLK_CON s
  let s := spm_write Reg.SPM_CLK_CON (v ||| K.CC_SRCLKENA_MASK) s
  if SPM_PCMWDT_EN K && pcmwdt_en then
    let (v, s) := spm_read Reg.SPM_PCM_CON1 s
    let con1 := v &&& not32 (K.CON1_PCM_WDT_WAKE_MODE ||| K.CON1_PCM_WDT_EN)
    let s := spm_write Reg.SPM_PCM_CON1 (K.CON1_CFG_KEY ||| con1) s
    let (t, s) := spm_read Reg.SPM_PCM_TIMER_VAL s
    if t > PCM_TIMER_MAX_FOR_WDT then Outcome.bug s
    else
      let (t, s) := spm_read Reg.SPM_PCM_TIMER_VAL s
      let s := spm_write Reg.SPM_PCM_WDT_TIMER_VAL (t + PCM_WDT_TIMEOUT) s
      let s := spm_write Reg.SPM_PCM_CON1 (con1 ||| K.CON1_CFG_KEY ||| K.CON1_PCM_WDT_EN) s
      Outcome.ret () (kick_pulse K K.CON0_PCM_KICK s)
  else
    Outcome.ret () (kick_pulse K K.CON0_PCM_KICK s)

/-- The CPU part shared by both `spm_trigger_wfi_for_*` routines (lines 749-758
and 766-775), for the power-down mode `mode`. -/
def trigger_wfi (hw : Hw) (cpu_pdn : Bool) (mode : Nat) (s : SpmState) : SpmState :=
  if cpu_pdn then
    let s := emit (Ev.cpu_power_down mode) s
    let s :=
      if hw.cpu_power_down mode = 0 then
        let s := emit Ev.switch_to_amp s
        cpu_sleeps hw (emit Ev.wfi_with_sync s)
      else cpu_sleeps hw s
    let s := emit Ev.switch_to_smp s
    emit Ev.cpu_check_dormant_abort s
  else
    cpu_sleeps hw (emit Ev.wfi_with_sync s)

def spm_trigger_wfi_for_sleep (K : SpmConsts) (hw : Hw) (cpu_pdn infra_pdn : Bool)
    (s : SpmState) : SpmState :=
  let s := trigger_wfi hw cpu_pdn K.SHUTDOWN_MODE s
  if infra_pdn then emit Ev.mtk_uart_restore s else s

def spm_trigger_wfi_for_dpidle (K : SpmConsts) (hw : Hw) (cpu_pdn : Bool)
    (s : SpmState) : SpmState :=
  trigger_wfi hw cpu_pdn K.DORMANT_MODE s

def spm_get_wakeup_status (s : SpmState) : wake_status_t × SpmState :=
  let (debug_reg, s) := spm_read Reg.SPM_PCM_REG_DATA_INI s
  let (r12, s) := spm_read Reg.SPM_PCM_REG9_DATA s
  let (raw_sta, s) := spm_read Reg.SPM_SLEEP_ISR_RAW_STA s
  let (cpu_wake, s) := spm_read Reg.SPM_SLEEP_CPU_WAKEUP_EVENT s
  let (timer_out, s) := spm_read Reg.SPM_PCM_TIMER_OUT s
  let (event_reg, s) := spm_read Reg.SPM_PCM_EVENT_REG_STA s
  let (isr, s) := spm_read Reg.SPM_SLEEP_ISR_STATUS s
  let (r13, s) := spm_read Reg.SPM_PCM_REG13_DATA s
  ({ debug_reg := debug_reg, r12 := r12, raw_sta := raw_sta, cpu_wake := cpu_wake,
     timer_out := timer_out, event_reg := event_reg, isr := isr, r13 := r13 }, s)

def spm_clean_after_wakeup (K : SpmConsts) (pcmwdt_en : Bool) (s : SpmState) : SpmState :=
  let s :=
    if SPM_PCMWDT_EN K && pcmwdt_en then
      let (v, s) := spm_read Reg.SPM_PCM_CON1 s
      spm_write Reg.SPM_PCM_CON1 (K.CON1_CFG_KEY ||| (v &&& not32 K.CON1_PCM_WDT_EN)) s
    else s
  let (v, s) := spm_read Reg.SPM_POWER_ON_VAL1 s
  let s := spm_write Reg.SPM_POWER_ON_VAL1 (v &&& not32 K.R7_UART_CLK_OFF_REQ) s
  let (v, s) := spm_read Reg.SPM_CLK_CON s
  let s := spm_write Reg.SPM_CLK_CON (v &&& not32 K.CC_SRCLKENA_MASK) s
  let s := spm_write Reg.SPM_PCM_PWR_IO_EN 0 s
  let (v, s) := spm_read Reg.SPM_CLK_CON s
  let s := spm_write Reg.SPM_CLK_CON (v &&& not32 K.CC_LOCK_INFRA_DCM) s
  let (v, s) := spm_read Reg.SPM_PCM_CON1 s
  let s := spm_write Reg.SPM_PCM_CON1 (K.CON1_CFG_KEY ||| (v &&& not32 K.CON1_PCM_TIMER_EN)) s
  let s := spm_write Reg.SPM_SLEEP_CPU_WAKEUP_EVENT 0 s
  let s := spm_write Reg.SPM_SLEEP_WAKEUP_EVENT_MASK (not32 K.WAKE_SRC_THERM) s
  let (v, s) := spm_read Reg.SPM_SLEEP_ISR_MASK s
  let s := spm_write Reg.SPM_SLEEP_ISR_MASK (v ||| K.ISRM_ALL_EXC_TWAM) s
  let s := spm_write Reg.SPM_SLEEP_ISR_STATUS K.ISRC_ALL_EXC_TWAM s
  spm_write Reg.SPM_PCM_SW_INT_CLEAR K.PCM_SW_INT0 s

/-! ## Wake period (lines 982-1009) and wake-source mask (lines 1016-1040) -/

/-- The function `spm_get_wake_period`; it exists when `SPM_PWAKE_EN` is set.
The result is the `int` local `period` converted to `u32`. -/
def spm_get_wake_period (K : SpmConsts) (hw : Hw) (pwake_time : Int) (last_wr : wake_reason_t)
    (s : SpmState) : Nat × SpmState :=
  let period : Int := SPM_WAKE_PERIOD
  let (period, s) :=
    if !K.MTK_ALPS_BOX_SUPPORT then
      if pwake_time < 0 then
        let first_use : Int := if last_wr ≠ WR_PCM_TIMER then 1 else 0
        let period := hw.get_dynamic_period first_use SPM_WAKE_PERIOD 1
        let s := emit (Ev.get_dynamic_period first_use SPM_WAKE_PERIOD 1) s
        if period ≤ 0 then
          (SPM_WAKE_PERIOD, emit (Ev.log "CANNOT GET PERIOD FROM FUEL GAUGE" "" []) s)
        else (period, s)
      else
        (pwake_time, emit (Ev.log "pwake = %d" "" [pwake_time]) s)
    else
      if pwake_time ≥ 0 then (pwake_time, s) else (period, s)
  let period := if period > 36 * 3600 then 36 * 3600 else period
  (int_to_u32 period, s)

def spm_set_sleep_wakesrc (wakesrc : Nat) (enable replace : Bool) (s : SpmState) :
    Int × SpmState :=
  let s := emit Ev.spin_lock_irqsave s
  let s :=
    if enable then
      if replace then { s with spm_sleep_wakesrc := u32 wakesrc }
      else { s with spm_sleep_wakesrc := u32 (s.spm_sleep_wakesrc ||| wakesrc) }
    else
      if replace then { s with spm_sleep_wakesrc := 0 }
      else { s with spm_sleep_wakesrc := u32 (s.spm_sleep_wakesrc &&& not32 wakesrc) }
  let s := emit Ev.spin_unlock_irqrestore s
  (0, s)

/-! ## Wake-event registry (lines 1044-1154) -/

def spm_set_wakeup_event_map (tbl : Option (List mt_wake_event_map)) (s : SpmState) :
    SpmState :=
  { s with mt_wake_event_tbl := tbl }

/-- The loop `for (; tbl->domain; tbl++)` of `spm_map_wakeup_event`. -/
def map_scan (domain : String) (code : Int) :
    List mt_wake_event_map → Option mt_wake_event_map
  | [] => none
  | e :: rest =>
    match e.domain with
    | none => none
    | some d => if d = domain ∧ e.code = code then some e else map_scan domain code rest

def spm_map_wakeup_event (s : SpmState) (mt_we : Option Nat) : Option mt_wake_event_map :=
  match s.mt_wake_event_tbl, mt_we with
  | some tbl, some we => map_scan (s.mem we).domain (s.mem we).code tbl
  | _, _ => none

def spm_get_wakeup_event (s : SpmState) : Option Nat := s.mt_wake_event_comm

/-- The function `spm_read_wakeup_event_and_irq`; `pirq` tells whether the
pointer argument is non-null, the second component is the value stored
through it, if any. -/
def spm_read_wakeup_event_and_irq (K : SpmConsts) (s : SpmState) (pirq : Bool) :
    Int × Option Int :=
  match spm_map_wakeup_event s (spm_get_wakeup_event s) with
  | none => (K.WEV_NONE, none)
  | some tbl => (tbl.we, if pirq then some tbl.irq else none)

/-- The table `ev_desc` of `spm_report_wakeup_event`. -/
def ev_desc : List String := ["RTC", "WIFI", "WAN", "USB", "PWR", "HALL", "BT", "CHARGER"]

def spm_report_wakeup_event (K : SpmConsts) (we : Nat) (code : Int) (s : SpmState) :
    SpmState :=
  let s := emit Ev.spin_lock_irqsave s
  let head := s.mt_wake_event_comm
  let s := { s with mt_wake_event_comm := some we }
  let s := { s with mem := fun a => if a = we then { s.mem we with parent := head } else s.mem a }
  let s := { s with mem := fun a => if a = we then { s.mem we with code := code } else s.mem a }
  let s := { s with mt_wake_event_comm := some we }
  let s := emit Ev.spin_unlock_irqrestore s
  let s := emit (Ev.log "%s: WAKE EVT: %s#%d (parent %s#%d)"
    ((s.mem we).domain ++ " " ++ (match head with | some h => (s.mem h).domain | none => "NONE"))
    [(s.mem we).code, (match head with | some h => (s.mem h).code | none => -1)]) s
  match spm_map_wakeup_event s (some we) with
  | none => s
  | some evt =>
    if evt.we ≠ K.WEV_NONE then
      let name := if evt.we ≥ 0 ∧ evt.we < 8 then ev_desc.getD evt.we.toNat "UNKNOWN"
                  else "UNKNOWN"
      let s := emit (Ev.pm_report_resume_irq evt.irq) s
      emit (Ev.log "%s: WAKEUP from source %d [%s]" name [evt.we]) s
    else s

def spm_clear_wakeup_event (s : SpmState) : SpmState :=
  { s with mt_wake_event_comm := none }

/-- The loop `for (; tbl->domain; tbl++)` of `irq_to_wakeup_ev`. -/
def irq_scan (K : SpmConsts) (irq : Int) : List mt_wake_event_map → Int
  | [] => K.WEV_MAX
  | e :: rest =>
    match e.domain with
    | none => K.WEV_MAX
    | some _ => if e.irq = irq then e.we else irq_scan K irq rest

def irq_to_wakeup_ev (K : SpmConsts) (s : SpmState) (irq : Int) : Int :=
  match s.mt_wake_event_tbl with
  | none => K.WEV_NONE
  | some tbl => irq_scan K irq tbl

/-- Index of the lowest set bit among bits `i .. i + n - 1`. -/
def ffs_from : Nat → Nat → Nat → Nat
  | 0, i, _ => i
  | n + 1, i, m => if m.testBit i then i else ffs_from n (i + 1) m

/-- The kernel primitive `__ffs` on a non-zero 32-bit word. -/
def __ffs (m : Nat) : Nat := ffs_from 32 0 m

/-- The locals `event`, `mask`, `event_count` of `spm_report_wake_source`. -/
structure ScanLocals where
  event : Int
  mask : Nat
  event_count : Int
  deriving DecidableEq, Repr

/-- The loop of lines 1142-1146, run for at most `fuel` iterations. -/
def wake_source_loop : Nat → ScanLocals → ScanLocals
  | 0, l => l
  | fuel + 1, l =>
    if l.mask ≠ 0 ∧ l.event_count = 0 then
      let event := __ffs l.mask
      wake_source_loop fuel
        { event := event, event_count := l.event_count + 1,
          mask := l.mask &&& not32 (1 <<< event) }
    else l

def spm_report_wake_source (K : SpmConsts) (event_mask : Nat) (s : SpmState) : SpmState :=
  let l := wake_source_loop 32 { event := -1, mask := event_mask, event_count := 0 }
  let s := if l.mask ≠ 0 then
      emit (Ev.log "%s: multiple wakeup events detected: %08X" "" [event_mask]) s
    else s
  if l.event ≥ 0 then spm_report_wakeup_event K spm_wake_event l.event s else s

/-! ## The three transition entry points (lines 1167-1428)

Each returns the wake reason together with the value of the local `wakesta` at
the return (`none` while it has never been assigned). -/

/-- The statements from the label `RESTORE_IRQ` up to the unlock, common to the
three entry points. -/
def restore_irq (hw : Hw) (s : SpmState) : SpmState :=
  let s := emit Ev.mt_cirq_flush s
  let s := emit Ev.mt_cirq_disable s
  let s := emit (Ev.mt_irq_mask_restore hw.irq_mask) s
  emit Ev.spin_unlock_irqrestore s

/-- The statements from the lock up to `mt_cirq_enable`, common to the three
entry points. -/
def mask_irq (K : SpmConsts) (hw : Hw) (s : SpmState) : SpmState :=
  let s := emit Ev.spin_lock_irqsave s
  let s := emit (Ev.mt_irq_mask_all hw.irq_mask) s
  let s := emit (Ev.mt_irq_unmask_for_sleep K.MT_SPM_IRQ_ID) s
  let s := emit Ev.mt_cirq_clone_gic s
  emit Ev.mt_cirq_enable s

/-- The tail of `spm_go_to_sleep` from the label `RESTORE_IRQ`
(lines 1250-1264). -/
def sleep_tail (K : SpmConsts) (hw : Hw) (wd_ret : Int) (wakesta : Option wake_status_t)
    (s : SpmState) : Outcome (wake_reason_t × Option wake_status_t) :=
  let s := restore_irq hw s
  let resume (s : SpmState) : Outcome (wake_reason_t × Option wake_status_t) :=
    let s := if wd_ret = 0 then emit Ev.wd_resume_notify s else s
    Outcome.ret (s.last_wr_sleep, wakesta) s
  if s.last_wr_sleep = WR_WAKE_SRC ∨ s.last_wr_sleep = WR_PCM_ABORT then
    match wakesta with
    | none => Outcome.uninit s
    | some w => resume (spm_report_wake_source K w.r12 s)
  else resume s

/-- The block of lines 1198-1207 of `spm_go_to_sleep`, compiled in under
`CONFIG_AMAZON_METRICS_LOG`. -/
def force_gpt_arm (K : SpmConsts) (s : SpmState) : SpmState :=
  if K.CONFIG_AMAZON_METRICS_LOG && s.force_gpt = 1 then
    let s := emit (Ev.gpt_set_cmp K.GPT4 1) s
    let s := emit (Ev.start_gpt K.GPT4) s
    let s := emit (Ev.udelay 200) s
    { s with spm_sleep_wakesrc := u32 (s.spm_sleep_wakesrc ||| K.WAKE_SRC_GPT) }
  else s

/-- The block of lines 1241-1248 of `spm_go_to_sleep`, compiled in under
`CONFIG_AMAZON_METRICS_LOG`. -/
def force_gpt_ack (K : SpmConsts) (hw : Hw) (s : SpmState) : SpmState :=
  if K.CONFIG_AMAZON_METRICS_LOG && s.force_gpt = 1 then
    let s := emit (Ev.gpt_check_and_ack_irq K.GPT4) s
    let s := if hw.gpt_check_and_ack_irq K.GPT4 ≠ 0 then
        emit (Ev.log "GPT4 triggered for off_mode metrics test" "" []) s
      else s
    { s with spm_sleep_wakesrc := u32 (s.spm_sleep_wakesrc &&& not32 K.WAKE_SRC_GPT) }
  else s

/-- The computation of the local `sec` under `#if SPM_PWAKE_EN`
(lines 1179-1184 and 1290-1295), for the value `last_wr` of the static. -/
def sleep_period (K : SpmConsts) (hw : Hw) (pwake_time : Int) (last_wr : wake_reason_t)
    (s : SpmState) : Nat × SpmState :=
  if SPM_PWAKE_EN K then spm_get_wake_period K hw pwake_time last_wr s
  else if pwake_time ≠ -1 then (int_to_u32 pwake_time, s) else (0, s)

def spm_go_to_sleep (K : SpmConsts) (hw : Hw) (cpu_pdn infra_pdn : Bool) (pwake_time : Int)
    (s : SpmState) : Outcome (wake_reason_t × Option wake_status_t) :=
  let pcmdesc := pcm_suspend K
  let pcmwdt_en := true
  let (sec, s) := sleep_period K hw pwake_time s.last_wr_sleep s
  let wd_ret := hw.get_wd_api
  let s := emit Ev.get_wd_api s
  let s := if wd_ret = 0 then emit Ev.wd_suspend_notify s else s
  let s := mask_irq K hw s
  let s := spm_set_sysclk_settle s
  let s := force_gpt_arm K s
  let s := emit (Ev.log "sec = %u, wakesrc = 0x%x (%u)(%u)" ""
    [sec, s.spm_sleep_wakesrc, cpu_pdn.toNat, infra_pdn.toNat]) s
  let s := spm_reset_and_init_pcm K s
  let s := spm_kick_im_to_fetch K pcmdesc s
  let (busy, s) := spm_request_uart_to_sleep K hw s
  if busy ≠ 0 then
    sleep_tail K hw wd_ret none { s with last_wr_sleep := WR_UART_BUSY }
  else
    let s := { s with mt_wake_event_comm := none }
    let s := spm_init_pcm_register K s
    let s := spm_init_event_vector pcmdesc s
    let s := spm_set_pwrctl_for_sleep s
    let s := spm_set_wakeup_event K (u32 (sec * 32768)) s.spm_sleep_wakesrc s
    match spm_kick_pcm_to_run K cpu_pdn infra_pdn pcmwdt_en s with
    | Outcome.bug s => Outcome.bug s
    | Outcome.uninit s => Outcome.uninit s
    | Outcome.ret _ s =>
      let s := spm_trigger_wfi_for_sleep K hw cpu_pdn infra_pdn s
      let (wakesta, s) := spm_get_wakeup_status s
      let s := spm_clean_after_wakeup K pcmwdt_en s
      let out := spm_output_wake_reason K wakesta false
      let s := { s with last_wr_sleep := out.wr, trace := s.trace ++ out.evs }
      let s := force_gpt_ack K hw s
      sleep_tail K hw wd_ret (some wakesta) s

/-- The tail of `spm_go_to_sleep_dpidle` from the label `RESTORE_IRQ`
(lines 1337-1346). -/
def sleep_dpidle_tail (hw : Hw) (wd_ret : Int) (wakesta : Option wake_status_t)
    (s : SpmState) : Outcome (wake_reason_t × Option wake_status_t) :=
  let s := restore_irq hw s
  let s := if wd_ret = 0 then emit Ev.wd_resume_notify s else s
  Outcome.ret (s.last_wr_sleep_dpidle, wakesta) s

def spm_go_to_sleep_dpidle (K : SpmConsts) (hw : Hw) (cpu_pdn : Bool) (pwrlevel : Nat)
    (pwake_time : Int) (s : SpmState) : Outcome (wake_reason_t × Option wake_status_t) :=
  let pcmdesc := pcm_dpidle K
  let pcmwdt_en := false
  let (sec, s) := sleep_period K hw pwake_time s.last_wr_sleep_dpidle s
  let wd_ret := hw.get_wd_api
  let s := emit Ev.get_wd_api s
  let s := if wd_ret = 0 then emit Ev.wd_suspend_notify s else s
  let s := mask_irq K hw s
  let s := emit (Ev.log "sec = %u, wakesrc = 0x%x [%u][%u]" ""
    [sec, s.spm_sleep_wakesrc, cpu_pdn.toNat, pwrlevel]) s
  let s := spm_reset_and_init_pcm K s
  let s := spm_kick_im_to_fetch K pcmdesc s
  let (busy, s) := spm_request_uart_to_sleep K hw s
  if busy ≠ 0 then
    sleep_dpidle_tail hw wd_ret none { s with last_wr_sleep_dpidle := WR_UART_BUSY }
  else
    let s := spm_init_pcm_register K s
    let s := spm_init_event_vector pcmdesc s
    let s := spm_set_pwrctl_for_dpidle pwrlevel s
    let s := spm_set_wakeup_event K (u32 (sec * 32768)) s.spm_sleep_wakesrc s
    match spm_kick_pcm_to_run K cpu_pdn false pcmwdt_en s with
    | Outcome.bug s => Outcome.bug s
    | Outcome.uninit s => Outcome.uninit s
    | Outcome.ret _ s =>
      let s := spm_trigger_wfi_for_dpidle K hw cpu_pdn s
      let (wakesta, s) := spm_get_wakeup_status s
      let s := spm_clean_after_wakeup K pcmwdt_en s
      let out := spm_output_wake_reason K wakesta false
      let s := { s with last_wr_sleep_dpidle := out.wr, trace := s.trace ++ out.evs }
      sleep_dpidle_tail hw wd_ret (some wakesta) s

/-- The tail of `spm_go_to_dpidle` from the label `RESTORE_IRQ`
(lines 1419-1427), for the value `wr` of the local. -/
def dpidle_tail (hw : Hw) (wr : wake_reason_t) (wakesta : Option wake_status_t)
    (s : SpmState) : Outcome (wake_reason_t × Option wake_status_t) :=
  let s := restore_irq hw s
  let s := emit (Ev.aee_rr_rec_deepidle_val 0x0) s
  Outcome.ret (wr, wakesta) s

def spm_go_to_dpidle (K : SpmConsts) (hw : Hw) (cpu_pdn : Bool) (pwrlevel : Nat)
    (s : SpmState) : Outcome (wake_reason_t × Option wake_status_t) :=
  let pcmdesc := pcm_dpidle K
  let pcmwdt_en := false
  let s := emit (Ev.aee_rr_rec_deepidle_val 0x1) s
  let s := mask_irq K hw s
  let s := spm_reset_and_init_pcm K s
  let s := spm_kick_im_to_fetch K pcmdesc s
  let s := emit (Ev.aee_rr_rec_deepidle_val 0x3) s
  let (busy, s) := spm_request_uart_to_sleep K hw s
  if busy ≠ 0 then
    dpidle_tail hw WR_UART_BUSY none s
  else
    let s := spm_init_pcm_register K s
    let s := spm_init_event_vector pcmdesc s
    let s := spm_set_pwrctl_for_dpidle pwrlevel s
    let s := spm_set_wakeup_event K 6553 (WAKE_SRC_FOR_DPIDLE K) s
    match spm_kick_pcm_to_run K cpu_pdn false pcmwdt_en s with
    | Outcome.bug s => Outcome.bug s
    | Outcome.uninit s => Outcome.uninit s
    | Outcome.ret _ s =>
      let s := emit Ev.spm_dpidle_before_wfi s
      let s := emit (Ev.aee_rr_rec_deepidle_val 0x7) s
      let s := spm_trigger_wfi_for_dpidle K hw cpu_pdn s
      let s := emit (Ev.aee_rr_rec_deepidle_val 0xF) s
      let s := emit Ev.spm_dpidle_after_wfi s
      let (wakesta, s) := spm_get_wakeup_status s
      let s := spm_clean_after_wakeup K pcmwdt_en s
      let out := spm_output_wake_reason K wakesta true
      let s := { s with trace := s.trace ++ out.evs }
      dpidle_tail hw out.wr (some wakesta) s

def spm_is_conn_sleep (K : SpmConsts) (s : SpmState) : Bool × SpmState :=
  let (v, s) := spm_read Reg.SPM_PCM_REG13_DATA s
  (v &&& K.R13_CONN_SRCCLKENI = 0, s)

/-! ## An example assignment of the header constants

The driver file does not fix the values of the header constants.  The
assignment below gives every bit mask a single bit of its own, in the order in
which the decoder scans them; it serves to evaluate the driver on concrete
inputs. -/

def sampleConsts : SpmConsts where
  CONFIG_MTK_LDVT := false
  CONFIG_AMAZON_METRICS_LOG := true
  MTK_ALPS_BOX_SUPPORT := false
  WAKE_SRC_TS := 1 <<< 1
  WAKE_SRC_KP := 1 <<< 2
  WAKE_SRC_WDT := 1 <<< 3
  WAKE_SRC_GPT := 1 <<< 4
  WAKE_SRC_EINT := 1 <<< 5
  WAKE_SRC_CONN_WDT := 1 <<< 6
  WAKE_SRC_CEC := 1 <<< 7
  WAKE_SRC_IRRX := 1 <<< 8
  WAKE_SRC_LOW_BAT := 1 <<< 9
  WAKE_SRC_CONN := 1 <<< 10
  WAKE_SRC_USB_CD := 1 <<< 14
  WAKE_SRC_USB_PDN := 1 <<< 16
  WAKE_SRC_DBGSYS := 1 <<< 18
  WAKE_SRC_UART0 := 1 <<< 19
  WAKE_SRC_AFE := 1 <<< 20
  WAKE_SRC_THERM := 1 <<< 21
  WAKE_SRC_CIRQ := 1 <<< 22
  WAKE_SRC_SYSPWREQ := 1 <<< 24
  WAKE_SRC_ETHERNET := 1 <<< 25
  WAKE_SRC_CPU0_IRQ := 1 <<< 26
  WAKE_SRC_CPU1_IRQ := 1 <<< 27
  WAKE_SRC_CPU2_IRQ := 1 <<< 28
  WAKE_SRC_CPU3_IRQ := 1 <<< 29
  CON0_PCM_KICK := 1 <<< 0
  CON0_IM_KICK := 1 <<< 1
  CON0_IM_SLEEP_DVS := 1 <<< 3
  CON0_PCM_SW_RESET := 1 <<< 15
  CON0_CFG_KEY := 0xb16 <<< 16
  CON1_IM_SLAVE := 1 <<< 0
  CON1_MIF_APBEN := 1 <<< 3
  CON1_PCM_TIMER_EN := 1 <<< 5
  CON1_IM_NONRP_EN := 1 <<< 6
  CON1_PCM_WDT_EN := 1 <<< 8
  CON1_PCM_WDT_WAKE_MODE := 1 <<< 9
  CON1_SPM_SRAM_SLP_B := 1 <<< 10
  CON1_SPM_SRAM_ISO_B := 1 <<< 11
  CON1_CFG_KEY := 0xb16 <<< 16
  R7_UART_CLK_OFF_REQ := 1 <<< 0
  R13_UART_CLK_OFF_ACK := 1 <<< 20
  R13_CONN_SRCCLKENI := 1 <<< 1
  PCM_RF_SYNC_R0 := 1 <<< 16
  PCM_RF_SYNC_R7 := 1 <<< 23
  PCM_PWRIO_EN_R0 := 1 <<< 0
  PCM_PWRIO_EN_R7 := 1 <<< 7
  CC_DISABLE_DORM_PWR := 1 <<< 14
  CC_DISABLE_INFRA_PWR := 1 <<< 15
  CC_LOCK_INFRA_DCM := 1 <<< 5
  CC_SRCLKENA_MASK := 1 <<< 6
  ISR_TWAM := 1 <<< 2
  ISRM_PCM_IRQ_AUX := 1 <<< 8
  ISRM_ALL_EXC_TWAM := 0xff0b
  ISRC_ALL_EXC_TWAM := 0xf8
  PCM_SW_INT0 := 1 <<< 0
  MT_SPM_IRQ_ID := 197
  SHUTDOWN_MODE := 2
  DORMANT_MODE := 1
  GPT4 := 3
  EBUSY := 16
  WEV_NONE := -1
  WEV_MAX := 8
  EVENT_VEC := fun event resume imme pc =>
    (event <<< 0) ||| (resume <<< 5) ||| (imme <<< 6) ||| (pc <<< 16)
  spm_get_base_phys := fun base => base
  __pcm_suspend := 0x80100000
  __pcm_dpidle := 0x80200000
  pcm_dpidle_mt6397 := false

/-- A hardware response in which the UART acknowledges on the i-th poll at
which `ack i` holds and the sequencer leaves the register file `woken`. -/
def sampleHw (ack : Nat → Bool) (woken : Reg → Nat) : Hw where
  uart_ack := fun i => if ack i then 1 <<< 20 else 0
  wake := fun _ => woken
  cpu_power_down := fun _ => 0
  get_wd_api := 0
  irq_mask := 0
  get_dynamic_period := fun _ _ _ => 0
  gpt_check_and_ack_irq := fun _ => 0

/-! ## Vocabulary of the statements -/

/-- The `WAKE_SRC_*` masks the decoder tests before the bit `1U << 13`, in scan
order (lines 865-904). -/
def sources_before_wdt (K : SpmConsts) : List Nat :=
  [K.WAKE_SRC_TS, K.WAKE_SRC_KP, K.WAKE_SRC_WDT, K.WAKE_SRC_GPT, K.WAKE_SRC_EINT,
   K.WAKE_SRC_CONN_WDT, K.WAKE_SRC_CEC, K.WAKE_SRC_IRRX, K.WAKE_SRC_LOW_BAT, K.WAKE_SRC_CONN]

/-- The `WAKE_SRC_*` masks the decoder tests after the bit `1U << 13`, in scan
order (lines 909-960). -/
def sources_after_wdt (K : SpmConsts) : List Nat :=
  [K.WAKE_SRC_USB_CD, K.WAKE_SRC_USB_PDN, K.WAKE_SRC_DBGSYS, K.WAKE_SRC_UART0,
   K.WAKE_SRC_AFE, K.WAKE_SRC_THERM, K.WAKE_SRC_CIRQ, K.WAKE_SRC_SYSPWREQ,
   K.WAKE_SRC_ETHERNET, K.WAKE_SRC_CPU0_IRQ, K.WAKE_SRC_CPU1_IRQ, K.WAKE_SRC_CPU2_IRQ,
   K.WAKE_SRC_CPU3_IRQ]

/-- Every named `WAKE_SRC_*` mask the decoder tests. -/
def named_sources (K : SpmConsts) : List Nat := sources_before_wdt K ++ sources_after_wdt K

/-- The values written to register `r` by a list of events, in order. -/
def writes_to (r : Reg) (evs : List Ev) : List Nat :=
  evs.filterMap fun e =>
    match e with
    | Ev.spm_write r2 v => if r2 = r then some v else none
    | _ => none

/-- The UART never acknowledges within the retry budget of
`spm_request_uart_to_sleep`: the acknowledge bit is clear at each of the
`WAIT_UART_ACK_TIMES + 1` polls. -/
def uart_never_acks (K : SpmConsts) (hw : Hw) : Prop :=
  ∀ i, i ≤ WAIT_UART_ACK_TIMES → u32 (hw.uart_ack i) &&& K.R13_UART_CLK_OFF_ACK = 0

/-- The UART acknowledges within the retry budget. -/
def uart_acks (K : SpmConsts) (hw : Hw) : Prop :=
  ∃ i, i ≤ WAIT_UART_ACK_TIMES ∧ u32 (hw.uart_ack i) &&& K.R13_UART_CLK_OFF_ACK ≠ 0

/-- An event that does not arm the sequencer: not a write of
`SPM_PCM_TIMER_VAL` or `SPM_SLEEP_WAKEUP_EVENT_MASK`, not a write of
`SPM_PCM_CON0` with `CON0_PCM_KICK` set, and not a resume-interrupt report. -/
def not_arming (K : SpmConsts) : Ev → Prop
  | Ev.spm_write r v =>
    r ≠ Reg.SPM_PCM_TIMER_VAL ∧ r ≠ Reg.SPM_SLEEP_WAKEUP_EVENT_MASK ∧
      (r = Reg.SPM_PCM_CON0 → v &&& K.CON0_PCM_KICK = 0)
  | Ev.pm_report_resume_irq _ => False
  | _ => True

/-- The `CON0_*` fields the driver writes to `SPM_PCM_CON0` before the sequencer
is kicked do not contain the bit `CON0_PCM_KICK`. -/
def con0_fields_disjoint (K : SpmConsts) : Prop :=
  K.CON0_CFG_KEY &&& K.CON0_PCM_KICK = 0 ∧ K.CON0_PCM_SW_RESET &&& K.CON0_PCM_KICK = 0 ∧
  K.CON0_IM_SLEEP_DVS &&& K.CON0_PCM_KICK = 0 ∧ K.CON0_IM_KICK &&& K.CON0_PCM_KICK = 0

/-- The wake-event registry (active record, records, installed table) is the
same in `s2` as in `s`. -/
def SameReg (s s2 : SpmState) : Prop :=
  s2.mt_wake_event_comm = s.mt_wake_event_comm ∧ s2.mem = s.mem ∧
  s2.mt_wake_event_tbl = s.mt_wake_event_tbl

/-- State `s2` is reached from `s` by appending events that all satisfy `P`,
without touching the wake-event registry. -/
def Step (P : Ev → Prop) (s s2 : SpmState) : Prop :=
  (∃ evs, s2.trace = s.trace ++ evs ∧ ∀ e ∈ evs, P e) ∧ SameReg s s2

/-- An entry point gave up before arming, between state `s` and its return:
it returned `WR_UART_BUSY` with the local `wakesta` never assigned; no value
written to `SPM_PCM_CON0` has `CON0_PCM_KICK` set; `SPM_SLEEP_WAKEUP_EVENT_MASK`
and `SPM_PCM_TIMER_VAL` were not written; no resume interrupt was reported and
the wake-event registry is as it was. -/
def aborted_before_arming (K : SpmConsts) (s : SpmState)
    (o : Outcome (wake_reason_t × Option wake_status_t)) : Prop :=
  ∃ s2, o = Outcome.ret (WR_UART_BUSY, none) s2 ∧
    (∀ v ∈ writes_to Reg.SPM_PCM_CON0 (events_since s s2), v &&& K.CON0_PCM_KICK = 0) ∧
    writes_to Reg.SPM_SLEEP_WAKEUP_EVENT_MASK (events_since s s2) = [] ∧
    writes_to Reg.SPM_PCM_TIMER_VAL (events_since s s2) = [] ∧
    (∀ irq, Ev.pm_report_resume_irq irq ∉ events_since s s2) ∧
    SameReg s s2

/-- A register file as the sequencer may leave it: `WAKE_SRC_EINT` of
`sampleConsts` in `SPM_PCM_REG9_DATA`, the abort-pattern bit set in
`SPM_PCM_EVENT_REG_STA`, every other register 0. -/
def sampleWoken : Reg → Nat
  | Reg.SPM_PCM_REG9_DATA => 1 <<< 5
  | Reg.SPM_PCM_EVENT_REG_STA => 0x100000
  | _ => 0

/-- The state in which a call ended, whichever way it ended. -/
def Outcome.state {α : Type} : Outcome α → SpmState
  | Outcome.ret _ s => s
  | Outcome.bug s => s
  | Outcome.uninit s => s

/-- The rows of a wake-event table that precede its `NULL`-domain terminator. -/
def rows_before_terminator (tbl : List mt_wake_event_map) : List mt_wake_event_map :=
  tbl.takeWhile fun e => e.domain.isSome

/-- Specification-side lookup, to be compared with the loop `map_scan` of the
source: the first row before the terminator whose domain string equals `domain`
and whose code equals `code`. -/
def first_row_for (domain : String) (code : Int) (tbl : List mt_wake_event_map) :
    Option mt_wake_event_map :=
  (rows_before_terminator tbl).find? fun e => e.domain = some domain ∧ e.code = code

/-- Specification-side lookup, to be compared with the loop `irq_scan` of the
source: the first row before the terminator whose `irq` equals `irq`. -/
def first_row_for_irq (irq : Int) (tbl : List mt_wake_event_map) : Option mt_wake_event_map :=
  (rows_before_terminator tbl).find? fun e => e.irq = irq

/-- The records reached from `start` by following `parent` links, at most `n`
of them. -/
def parent_chain (mem : Nat → mt_wake_event) : Nat → Option Nat → List Nat
  | 0, _ => []
  | _ + 1, none => []
  | n + 1, some a => a :: parent_chain mem n (mem a).parent

/-- The diagnostic line of `spm_report_wake_source` for several set bits. -/
def multiple_events_warning (event_mask : Nat) : Ev :=
  Ev.log "%s: multiple wakeup events detected: %08X" "" [event_mask]

/-- A wake-event table with two rows for the domain "SPM" and a terminator. -/
def sampleTable : List mt_wake_event_map :=
  [{ domain := some "SPM", code := 5, irq := 40, we := 3 },
   { domain := some "SPM", code := 2, irq := 41, we := -1 },
   { domain := none, code := 0, irq := 0, we := 0 },
   { domain := some "SPM", code := 9, irq := 42, we := 1 }]

/-- The events followed across a whole transition: calls of the duration
policy and writes of `SPM_PCM_TIMER_VAL`, `SPM_SLEEP_WAKEUP_EVENT_MASK` and
`SPM_PCM_WDT_TIMER_VAL`. -/
def audited : Ev → Bool
  | Ev.get_dynamic_period _ _ _ => true
  | Ev.spm_write r _ =>
    decide (r = Reg.SPM_PCM_TIMER_VAL) || decide (r = Reg.SPM_SLEEP_WAKEUP_EVENT_MASK) ||
      decide (r = Reg.SPM_PCM_WDT_TIMER_VAL)
  | _ => false

/-- A call of the duration policy `get_dynamic_period`. -/
def is_policy_call : Ev → Bool
  | Ev.get_dynamic_period _ _ _ => true
  | _ => false

/-- State `s2` is reached from `s` by appending events, of which those selected
by `keep` are, in order, the list `L`. -/
def Tracked (keep : Ev → Bool) (s s2 : SpmState) (L : List Ev) : Prop :=
  ∃ evs, s2.trace = s.trace ++ evs ∧ evs.filter keep = L

/-- Only the register file and the trace differ between `s` and `s2`. -/
def HwOnly (s s2 : SpmState) : Prop :=
  s2 = { s with regs := s2.regs, trace := s2.trace }

/-- Specification-side list of the `get_dynamic_period` calls expected of
`sleep_period` for the arguments given, to be compared with the trace the
source function leaves (`tracked_sleep_period`). -/
def period_calls (K : SpmConsts) (pwake_time : Int) (last_wr : wake_reason_t) : List Ev :=
  if SPM_PWAKE_EN K && !K.MTK_ALPS_BOX_SUPPORT && decide (pwake_time < 0) then
    [Ev.get_dynamic_period (if last_wr ≠ WR_PCM_TIMER then 1 else 0) SPM_WAKE_PERIOD 1]
  else []

/-- A register file as the sequencer may leave it after its timer expired:
bit 0 set in `SPM_PCM_REG9_DATA`, the abort-pattern bit set in
`SPM_PCM_EVENT_REG_STA`, every other register 0. -/
def sampleTimerWoken : Reg → Nat
  | Reg.SPM_PCM_REG9_DATA => 1
  | Reg.SPM_PCM_EVENT_REG_STA => 0x100000
  | _ => 0

/-- Specification-side table of the wake sources, in scan order: mask, name
appended to the cause string, resulting reason.  To be compared with the
if-chain `scan_sources` of the source. -/
def wake_source_table (K : SpmConsts) : List (Nat × String × wake_reason_t) :=
  [(K.WAKE_SRC_TS, "TS ", WR_WAKE_SRC), (K.WAKE_SRC_KP, "KP ", WR_WAKE_SRC),
   (K.WAKE_SRC_WDT, "WDT ", WR_WAKE_SRC), (K.WAKE_SRC_GPT, "GPT ", WR_WAKE_SRC),
   (K.WAKE_SRC_EINT, "EINT ", WR_WAKE_SRC), (K.WAKE_SRC_CONN_WDT, "CONN_WDT ", WR_WAKE_SRC),
   (K.WAKE_SRC_CEC, "CEC ", WR_WAKE_SRC), (K.WAKE_SRC_IRRX, "IRRX ", WR_WAKE_SRC),
   (K.WAKE_SRC_LOW_BAT, "LOW_BAT ", WR_WAKE_SRC), (K.WAKE_SRC_CONN, "CONN ", WR_WAKE_SRC),
   (1 <<< 13, "PCM_WDT ", WR_PCM_WDT),
   (K.WAKE_SRC_USB_CD, "USB_CD ", WR_WAKE_SRC), (K.WAKE_SRC_USB_PDN, "USB_PDN ", WR_WAKE_SRC),
   (K.WAKE_SRC_DBGSYS, "DBGSYS ", WR_WAKE_SRC), (K.WAKE_SRC_UART0, "UART0 ", WR_WAKE_SRC),
   (K.WAKE_SRC_AFE, "AFE ", WR_WAKE_SRC), (K.WAKE_SRC_THERM, "THERM ", WR_WAKE_SRC),
   (K.WAKE_SRC_CIRQ, "CIRQ ", WR_WAKE_SRC), (K.WAKE_SRC_SYSPWREQ, "SYSPWREQ ", WR_WAKE_SRC),
   (K.WAKE_SRC_ETHERNET, "ETHERNET ", WR_WAKE_SRC),
   (K.WAKE_SRC_CPU0_IRQ, "CPU0_IRQ ", WR_WAKE_SRC), (K.WAKE_SRC_CPU1_IRQ, "CPU1_IRQ ", WR_WAKE_SRC),
   (K.WAKE_SRC_CPU2_IRQ, "CPU2_IRQ ", WR_WAKE_SRC), (K.WAKE_SRC_CPU3_IRQ, "CPU3_IRQ ", WR_WAKE_SRC)]

/-- Specification-side scan: one pass over a table, each entry whose mask meets
`r12` appends its name and overwrites the reason. -/
def table_scan (r12 : Nat) (tbl : List (Nat × String × wake_reason_t))
    (s : String × wake_reason_t) : String × wake_reason_t :=
  tbl.foldl (fun acc e => if r12 &&& e.1 ≠ 0 then (acc.1 ++ e.2.1, e.2.2) else acc) s

/-- The entries of a table whose mask meets `r12`, in table order. -/
def matched (r12 : Nat) (tbl : List (Nat × String × wake_reason_t)) :
    List (Nat × String × wake_reason_t) :=
  tbl.filter fun e => r12 &&& e.1 ≠ 0

/-- The names of the entries of a list, concatenated in list order. -/
def names_of (l : List (Nat × String × wake_reason_t)) : String :=
  l.foldr (fun e acc => e.2.1 ++ acc) ""

/-- Specification-side classification for `debug_reg = 0` and `dpidle = false`:
the timer rule, the table scan, the abort override and the unknown default. -/
def wake_reason_by_table (K : SpmConsts) (w : wake_status_t) : String × wake_reason_t :=
  let s := table_scan w.r12 (wake_source_table K) (scan_timer K w ("", WR_NONE))
  let s := if w.event_reg &&& 0x100000 = 0 then (s.1, WR_PCM_ABORT) else s
  if s.2 = WR_NONE then (s.1 ++ "UNKNOWN ", WR_UNKNOWN) else s

/-- The arguments of the calls of `pm_report_resume_irq` in a trace, in order. -/
def resume_reports (evs : List Ev) : List Int :=
  evs.filterMap fun e =>
    match e with
    | Ev.pm_report_resume_irq irq => some irq
    | _ => none

/-- A sequence of `spm_report_wakeup_event` calls, one per `(record, code)`
pair of the list, in list order. -/
def report_all (K : SpmConsts) (l : List (Nat × Int)) (s : SpmState) : SpmState :=
  l.foldl (fun s p => spm_report_wakeup_event K p.1 p.2 s) s

/-- A poll of the UART acknowledge: a read of `SPM_PCM_REG13_DATA`. -/
def is_uart_poll : Ev → Bool
  | Ev.spm_read r _ => decide (r = Reg.SPM_PCM_REG13_DATA)
  | _ => false

/-- The delay `udelay(10)` between two polls. -/
def is_uart_delay : Ev → Bool
  | Ev.udelay us => decide (us = 10)
  | _ => false

/-- A write of `SPM_PCM_CON0`. -/
def con0_write : Ev → Bool
  | Ev.spm_write r _ => decide (r = Reg.SPM_PCM_CON0)
  | _ => false

/-- The shape of a kick pulse on `SPM_PCM_CON0`, for the list `ws` of values
written, the kicked bit `kick`, the other kick bit `other` and the final
register value `fin`: two writes, the first being the second with `kick` set,
the second with both kick bits clear, and the register left at the second. -/
def is_pulse (ws : List Nat) (kick other fin : Nat) : Prop :=
  ∃ base, ws = [base ||| kick, base] ∧ base &&& kick = 0 ∧ base &&& other = 0 ∧
    (base ||| kick) &&& kick = kick ∧ (base ||| kick) &&& other = 0 ∧ fin = base

/-- A call of the interrupt discipline around a transition: the driver lock,
the host interrupt mask and the interrupt shadow controller. -/
def irq_call : Ev → Bool
  | Ev.spin_lock_irqsave => true
  | Ev.spin_unlock_irqrestore => true
  | Ev.mt_irq_mask_all _ => true
  | Ev.mt_irq_mask_restore _ => true
  | Ev.mt_irq_unmask_for_sleep _ => true
  | Ev.mt_cirq_clone_gic => true
  | Ev.mt_cirq_enable => true
  | Ev.mt_cirq_flush => true
  | Ev.mt_cirq_disable => true
  | _ => false

/-- The events followed across a whole transition by the statements about the
interrupt discipline and the arming registers: the `audited` ones and the
`irq_call` ones. -/
def watched (e : Ev) : Bool := audited e || irq_call e

/-- The calls `mask_irq` makes, for the saved mask `m` and the interrupt `irq`
left unmasked. -/
def irq_prologue (m irq : Nat) : List Ev :=
  [Ev.spin_lock_irqsave, Ev.mt_irq_mask_all m, Ev.mt_irq_unmask_for_sleep irq,
   Ev.mt_cirq_clone_gic, Ev.mt_cirq_enable]

/-- The calls `restore_irq` makes, for the saved mask `m`. -/
def irq_epilogue (m : Nat) : List Ev :=
  [Ev.mt_cirq_flush, Ev.mt_cirq_disable, Ev.mt_irq_mask_restore m, Ev.spin_unlock_irqrestore]

/-- The lock calls of the report `spm_go_to_sleep` makes after its epilogue:
one acquire and one release when the reason is `WR_WAKE_SRC` or `WR_PCM_ABORT`
and the captured `r12` is not 0, none otherwise. -/
def report_calls (wr : wake_reason_t) (w : Option wake_status_t) : List Ev :=
  if wr = WR_WAKE_SRC ∨ wr = WR_PCM_ABORT then
    match w with
    | some w => if w.r12 ≠ 0 then [Ev.spin_lock_irqsave, Ev.spin_unlock_irqrestore] else []
    | none => []
  else []

/-- The events `evs` contain, one after the other, the events of a
`spm_get_wakeup_status` call and those of the `spm_clean_after_wakeup` call
made in the state the first one leaves: every read of the first precedes every
write of the second. -/
def status_then_clean (K : SpmConsts) (pcmwdt_en : Bool) (evs : List Ev) : Prop :=
  ∃ sZ pre post,
    evs = pre ++ (events_since sZ (spm_get_wakeup_status sZ).2 ++
      (events_since (spm_get_wakeup_status sZ).2
        (spm_clean_after_wakeup K pcmwdt_en (spm_get_wakeup_status sZ).2) ++ post))

/-- A call the entry points may make outside the interrupt bracket of a
transition: the watchdog API, the duration policy, the deep-idle record, the
resume report and a diagnostic line.  Every other event (a register access, a
delay, a UART or timer call, a CPU sleep call, a call of the interrupt
discipline) is not of this kind. -/
def outside_call : Ev → Bool
  | Ev.get_wd_api => true
  | Ev.wd_suspend_notify => true
  | Ev.wd_resume_notify => true
  | Ev.get_dynamic_period _ _ _ => true
  | Ev.aee_rr_rec_deepidle_val _ => true
  | Ev.pm_report_resume_irq _ => true
  | Ev.log _ _ _ => true
  | _ => false

/-- An event that is not an `outside_call`. -/
def guarded (e : Ev) : Bool := !outside_call e

/-- The events `evs` of a call are bracketed by the interrupt discipline: they
are `pre`, then the prologue for the saved mask `m` and the interrupt `irq`,
then `mid`, then the epilogue for the same `m`, then `post`, where `pre` holds
only outside calls, `mid` holds no call of the interrupt discipline, and
`post` holds only outside calls and calls of the interrupt discipline. -/
def bracketed (m irq : Nat) (evs pre mid post : List Ev) : Prop :=
  evs = pre ++ (irq_prologue m irq ++ (mid ++ (irq_epilogue m ++ post))) ∧
    (∀ e ∈ pre, outside_call e = true) ∧ (∀ e ∈ mid, irq_call e = false) ∧
    (∀ e ∈ post, outside_call e = true ∨ irq_call e = true)

/-- The events `mid` contain, one after the other, the events of the
`spm_get_wakeup_status` call that captured the snapshot `w` and those of the
`spm_clean_after_wakeup` call made in the state the first one leaves: every
read of the first precedes every write of the second. -/
def snapshot_then_clean (K : SpmConsts) (pcmwdt_en : Bool) (w : wake_status_t)
    (mid : List Ev) : Prop :=
  ∃ sZ a b, w = (spm_get_wakeup_status sZ).1 ∧
    mid = a ++ (events_since sZ (spm_get_wakeup_status sZ).2 ++
      (events_since (spm_get_wakeup_status sZ).2
        (spm_clean_after_wakeup K pcmwdt_en (spm_get_wakeup_status sZ).2) ++ b))

/-! ## Decoder lemmas -/

theorem strcat_if_snd (c : Bool) (n : String) (r : wake_reason_t) (s : String × wake_reason_t) :
    (strcat_if c n r s).2 = if c then r else s.2 := by
  unfold strcat_if; split <;> rfl

theorem strcat_if_snd_eq (c : Bool) (n : String) (r x : wake_reason_t)
    (s : String × wake_reason_t) :
    (strcat_if c n r s).2 = x ↔ (c = true ∧ r = x) ∨ (c = false ∧ s.2 = x) := by
  unfold strcat_if; cases c <;> simp

theorem strcat_if_snd_ne (c : Bool) (n : String) (r x : wake_reason_t)
    (s : String × wake_reason_t) (hr : r ≠ x) (hs : s.2 ≠ x) : (strcat_if c n r s).2 ≠ x := by
  unfold strcat_if; cases c <;> simp [hr, hs]

theorem scan_timer_snd_eq_none (K : SpmConsts) (w : wake_status_t)
    (s : String × wake_reason_t) :
    (scan_timer K w s).2 = WR_NONE ↔ w.r12 &&& (1 <<< 0) = 0 ∧ s.2 = WR_NONE := by
  unfold scan_timer
  generalize w.r12 &&& (1 <<< 0) = x
  generalize w.isr &&& K.ISR_TWAM = y
  generalize w.cpu_wake = z
  by_cases h0 : x = 0 <;> by_cases ht : y = 0 <;> by_cases hc : z = 0 <;>
    simp [h0, ht, hc, strcat_if_snd_eq]

theorem scan_timer_snd_of_set (K : SpmConsts) (w : wake_status_t)
    (s : String × wake_reason_t) (h0 : w.r12 &&& (1 <<< 0) ≠ 0) :
    (scan_timer K w s).2 =
      if w.isr &&& K.ISR_TWAM = 0 ∧ w.cpu_wake = 0 then WR_PCM_TIMER else WR_WAKE_SRC := by
  unfold scan_timer
  generalize w.r12 &&& (1 <<< 0) = x at h0
  generalize w.isr &&& K.ISR_TWAM = y
  generalize w.cpu_wake = z
  by_cases ht : y = 0 <;> by_cases hc : z = 0 <;> simp [h0, ht, hc, strcat_if_snd]

theorem scan_timer_snd_ne_unknown (K : SpmConsts) (w : wake_status_t)
    (s : String × wake_reason_t) (hs : s.2 ≠ WR_UNKNOWN) :
    (scan_timer K w s).2 ≠ WR_UNKNOWN := by
  unfold scan_timer
  split
  · split
    · simp
    · exact strcat_if_snd_ne _ _ _ _ _ (by decide) (strcat_if_snd_ne _ _ _ _ _ (by decide) hs)
  · exact hs

theorem scan_sources_snd_ne_unknown (K : SpmConsts) (w : wake_status_t)
    (s : String × wake_reason_t) (hs : s.2 ≠ WR_UNKNOWN) :
    (scan_sources K w s).2 ≠ WR_UNKNOWN := by
  unfold scan_sources
  repeat (apply strcat_if_snd_ne _ _ _ _ _ (by decide))
  exact hs

theorem scan_sources_snd_eq_none (K : SpmConsts) (w : wake_status_t)
    (s : String × wake_reason_t) :
    (scan_sources K w s).2 = WR_NONE ↔
      s.2 = WR_NONE ∧ w.r12 &&& (1 <<< 13) = 0 ∧ ∀ m ∈ named_sources K, w.r12 &&& m = 0 := by
  simp only [scan_sources, strcat_if_snd_eq, named_sources, sources_before_wdt,
    sources_after_wdt]
  simp
  tauto

/-- When neither bit 13 nor a named source matches, the if-chain leaves the
reason untouched. -/
theorem scan_sources_snd_of_clear (K : SpmConsts) (w : wake_status_t)
    (s : String × wake_reason_t) (h13 : w.r12 &&& (1 <<< 13) = 0)
    (hn : ∀ m ∈ named_sources K, w.r12 &&& m = 0) :
    (scan_sources K w s).2 = s.2 := by
  simp [named_sources, sources_before_wdt, sources_after_wdt] at hn
  simp only [scan_sources, strcat_if_snd]
  simp_all

/-- The reason returned on the suspend path, in terms of the if-chain. -/
theorem wake_reason_wr (K : SpmConsts) (w : wake_status_t) (h : w.debug_reg = 0) :
    (spm_output_wake_reason K w false).wr =
      if w.event_reg &&& 0x100000 = 0 then WR_PCM_ABORT
      else if (scan_sources K w (scan_timer K w ("", WR_NONE))).2 = WR_NONE then WR_UNKNOWN
      else (scan_sources K w (scan_timer K w ("", WR_NONE))).2 := by
  simp only [spm_output_wake_reason, h]
  by_cases ha : w.event_reg &&& 0x100000 = 0
  · simp [ha, strcat_if_snd]
  · generalize scan_sources K w (scan_timer K w ("", WR_NONE)) = r
    simp [ha, strcat_if_snd]

/-! ## C1 - C6: the wake-reason decoder -/

/-- C1: a snapshot whose fault register `debug_reg` is non-zero is classified
`WR_PCM_ASSERT`, for either value of `dpidle` and whatever the other fields hold. -/
theorem output_wake_reason_assert (K : SpmConsts) (w : wake_status_t) (dpidle : Bool)
    (h : w.debug_reg ≠ 0) : (spm_output_wake_reason K w dpidle).wr = WR_PCM_ASSERT := by
  simp [spm_output_wake_reason, h]

theorem output_wake_reason_assert_witness :
    (wake_status_t.mk 7 0x2020 1 1 9 0 4 3).debug_reg ≠ 0 ∧
      (spm_output_wake_reason sampleConsts (wake_status_t.mk 7 0x2020 1 1 9 0 4 3) true).wr
        = WR_PCM_ASSERT :=
  ⟨by decide, output_wake_reason_assert sampleConsts _ true (by decide)⟩

/-- C2: with `debug_reg = 0` and `dpidle = true` the decoder returns
`WR_WAKE_SRC` whatever `r12`, `isr`, `cpu_wake` and `event_reg` hold. -/
theorem output_wake_reason_dpidle (K : SpmConsts) (w : wake_status_t)
    (h : w.debug_reg = 0) : (spm_output_wake_reason K w true).wr = WR_WAKE_SRC := by
  simp [spm_output_wake_reason, h]

theorem output_wake_reason_dpidle_witness :
    (wake_status_t.mk 0 0x2000 0 0 0 0 0 0).debug_reg = 0 ∧
      (spm_output_wake_reason sampleConsts (wake_status_t.mk 0 0x2000 0 0 0 0 0 0) true).wr
        = WR_WAKE_SRC :=
  ⟨by decide, output_wake_reason_dpidle sampleConsts _ (by decide)⟩

/-- C3: with `debug_reg = 0`, `dpidle = false` and bit `0x100000` of `event_reg`
clear, the decoder returns `WR_PCM_ABORT` whatever the scan of `r12` matched. -/
theorem output_wake_reason_abort (K : SpmConsts) (w : wake_status_t)
    (h : w.debug_reg = 0) (ha : w.event_reg &&& 0x100000 = 0) :
    (spm_output_wake_reason K w false).wr = WR_PCM_ABORT := by
  rw [wake_reason_wr K w h, if_pos ha]

theorem output_wake_reason_abort_witness :
    (wake_status_t.mk 0 0x2021 0 0 0 0xf0000 0 0).debug_reg = 0 ∧
      (wake_status_t.mk 0 0x2021 0 0 0 0xf0000 0 0).event_reg &&& 0x100000 = 0 ∧
      (spm_output_wake_reason sampleConsts (wake_status_t.mk 0 0x2021 0 0 0 0xf0000 0 0) false).wr
        = WR_PCM_ABORT :=
  ⟨by decide, by decide, output_wake_reason_abort sampleConsts _ (by decide) (by decide)⟩

/-- C4, as stated, fails: with `debug_reg = 0`, the abort-pattern bit set and
`r12 = (1 << 13) | WAKE_SRC_USB_CD` the decoder returns `WR_WAKE_SRC`, not
`WR_PCM_WDT`, because `USB_CD` is tested after bit 13. -/
theorem output_wake_reason_wdt_overridden :
    (wake_status_t.mk 0 0x6000 0 0 0 0x100000 0 0).debug_reg = 0 ∧
      (wake_status_t.mk 0 0x6000 0 0 0 0x100000 0 0).event_reg &&& 0x100000 ≠ 0 ∧
      (wake_status_t.mk 0 0x6000 0 0 0 0x100000 0 0).r12 &&& (1 <<< 13) ≠ 0 ∧
      (wake_status_t.mk 0 0x6000 0 0 0 0x100000 0 0).r12 &&& sampleConsts.WAKE_SRC_USB_CD ≠ 0 ∧
      (spm_output_wake_reason sampleConsts (wake_status_t.mk 0 0x6000 0 0 0 0x100000 0 0) false).wr
        = WR_WAKE_SRC ∧
      (spm_output_wake_reason sampleConsts (wake_status_t.mk 0 0x6000 0 0 0 0x100000 0 0) false).wr
        ≠ WR_PCM_WDT := by
  decide

/-- C4, amended: with `debug_reg = 0`, the abort-pattern bit set, `dpidle = false`
and bit 13 of `r12` set, the decoder returns `WR_PCM_WDT` when none of the masks
tested after bit 13 matches `r12` (whatever the masks tested before bit 13 and
the timer bit do), and `WR_WAKE_SRC` when one of them matches. -/
theorem output_wake_reason_wdt (K : SpmConsts) (w : wake_status_t) (h : w.debug_reg = 0)
    (ha : w.event_reg &&& 0x100000 ≠ 0) (hw : w.r12 &&& (1 <<< 13) ≠ 0) :
    ((∀ m ∈ sources_after_wdt K, w.r12 &&& m = 0) →
        (spm_output_wake_reason K w false).wr = WR_PCM_WDT) ∧
    ((∃ m ∈ sources_after_wdt K, w.r12 &&& m ≠ 0) →
        (spm_output_wake_reason K w false).wr = WR_WAKE_SRC) := by
  rw [wake_reason_wr K w h, if_neg ha]
  generalize scan_timer K w ("", WR_NONE) = s0
  constructor
  · intro hafter
    simp [sources_after_wdt] at hafter
    have : (scan_sources K w s0).2 = WR_PCM_WDT := by
      simp only [scan_sources, strcat_if_snd]
      simp_all
    simp [this]
  · intro hex
    simp [sources_after_wdt] at hex
    have : (scan_sources K w s0).2 = WR_WAKE_SRC := by
      simp only [scan_sources, strcat_if_snd]
      rcases hex with h | h | h | h | h | h | h | h | h | h | h | h | h <;> simp [h]
    simp [this]

theorem output_wake_reason_wdt_witness :
    (wake_status_t.mk 0 0x2021 0 0 0 0x100000 0 0).debug_reg = 0 ∧
      (wake_status_t.mk 0 0x2021 0 0 0 0x100000 0 0).event_reg &&& 0x100000 ≠ 0 ∧
      (wake_status_t.mk 0 0x2021 0 0 0 0x100000 0 0).r12 &&& (1 <<< 13) ≠ 0 ∧
      (spm_output_wake_reason sampleConsts (wake_status_t.mk 0 0x2021 0 0 0 0x100000 0 0) false).wr
        = WR_PCM_WDT ∧
      (spm_output_wake_reason sampleConsts (wake_status_t.mk 0 0x12000 0 0 0 0x100000 0 0) false).wr
        = WR_WAKE_SRC :=
  ⟨by decide, by decide, by decide,
    (output_wake_reason_wdt sampleConsts _ (by decide) (by decide) (by decide)).1 (by decide),
    (output_wake_reason_wdt sampleConsts _ (by decide) (by decide) (by decide)).2
      ⟨sampleConsts.WAKE_SRC_USB_PDN, by decide, by decide⟩⟩

/-- C5: with `debug_reg = 0`, the abort-pattern bit set, `dpidle = false`, bit 0 of
`r12` set and no other scanned bit set, the decoder returns `WR_PCM_TIMER` when
`ISR_TWAM` is clear in `isr` and `cpu_wake = 0`, and `WR_WAKE_SRC` when `ISR_TWAM`
is set or `cpu_wake` is non-zero. -/
theorem output_wake_reason_timer (K : SpmConsts) (w : wake_status_t) (h : w.debug_reg = 0)
    (ha : w.event_reg &&& 0x100000 ≠ 0) (h0 : w.r12 &&& (1 <<< 0) ≠ 0)
    (h13 : w.r12 &&& (1 <<< 13) = 0) (hn : ∀ m ∈ named_sources K, w.r12 &&& m = 0) :
    ((w.isr &&& K.ISR_TWAM = 0 ∧ w.cpu_wake = 0) →
        (spm_output_wake_reason K w false).wr = WR_PCM_TIMER) ∧
    ((w.isr &&& K.ISR_TWAM ≠ 0 ∨ w.cpu_wake ≠ 0) →
        (spm_output_wake_reason K w false).wr = WR_WAKE_SRC) := by
  rw [wake_reason_wr K w h, if_neg ha, scan_sources_snd_of_clear K w _ h13 hn,
    scan_timer_snd_of_set K w _ h0]
  constructor
  · intro hq; simp [hq]
  · intro hq
    have : ¬ (w.isr &&& K.ISR_TWAM = 0 ∧ w.cpu_wake = 0) := by
      intro hc; rcases hq with hq | hq
      · exact hq hc.1
      · exact hq hc.2
    simp [this]

theorem output_wake_reason_timer_witness :
    (wake_status_t.mk 0 1 0 0 0 0x100000 0 0).debug_reg = 0 ∧
      (spm_output_wake_reason sampleConsts (wake_status_t.mk 0 1 0 0 0 0x100000 0 0) false).wr
        = WR_PCM_TIMER ∧
      (spm_output_wake_reason sampleConsts (wake_status_t.mk 0 1 0 1 0 0x100000 0 0) false).wr
        = WR_WAKE_SRC ∧
      (spm_output_wake_reason sampleConsts (wake_status_t.mk 0 1 0 0 0 0x100000 4 0) false).wr
        = WR_WAKE_SRC :=
  ⟨by decide,
    (output_wake_reason_timer sampleConsts _ (by decide) (by decide) (by decide) (by decide)
      (by decide)).1 (by decide),
    (output_wake_reason_timer sampleConsts _ (by decide) (by decide) (by decide) (by decide)
      (by decide)).2 (Or.inr (by decide)),
    (output_wake_reason_timer sampleConsts _ (by decide) (by decide) (by decide) (by decide)
      (by decide)).2 (Or.inl (by decide))⟩

/-- C6: with `debug_reg = 0` and `dpidle = false` the decoder returns `WR_UNKNOWN`
exactly when the abort-pattern bit `0x100000` of `event_reg` is set and `r12`
matches none of the scanned bits (bit 0, bit 13, every named `WAKE_SRC_*`). -/
theorem output_wake_reason_unknown_iff (K : SpmConsts) (w : wake_status_t)
    (h : w.debug_reg = 0) :
    (spm_output_wake_reason K w false).wr = WR_UNKNOWN ↔
      (w.event_reg &&& 0x100000 ≠ 0 ∧ w.r12 &&& (1 <<< 0) = 0 ∧ w.r12 &&& (1 <<< 13) = 0 ∧
        ∀ m ∈ named_sources K, w.r12 &&& m = 0) := by
  rw [wake_reason_wr K w h]
  have hne := scan_sources_snd_ne_unknown K w (scan_timer K w ("", WR_NONE))
    (scan_timer_snd_ne_unknown K w _ (by decide))
  have hnone := scan_sources_snd_eq_none K w (scan_timer K w ("", WR_NONE))
  rw [scan_timer_snd_eq_none] at hnone
  by_cases ha : w.event_reg &&& 0x100000 = 0
  · simp [ha]
  · rw [if_neg ha]
    by_cases hn : (scan_sources K w (scan_timer K w ("", WR_NONE))).2 = WR_NONE
    · rw [if_pos hn]
      have := hnone.mp hn
      exact ⟨fun _ => ⟨ha, this.1.1, this.2.1, this.2.2⟩, fun _ => rfl⟩
    · rw [if_neg hn]
      constructor
      · intro hu; exact absurd hu hne
      · intro hx; exact absurd (hnone.mpr ⟨⟨hx.2.1, rfl⟩, hx.2.2.1, hx.2.2.2⟩) hn

theorem output_wake_reason_unknown_iff_witness :
    (wake_status_t.mk 0 0x800 0 0 0 0x100000 0 0).debug_reg = 0 ∧
      (spm_output_wake_reason sampleConsts (wake_status_t.mk 0 0x800 0 0 0 0x100000 0 0) false).wr
        = WR_UNKNOWN :=
  ⟨by decide,
    (output_wake_reason_unknown_iff sampleConsts _ (by decide)).2
      ⟨by decide, by decide, by decide, by decide⟩⟩

/-! ## C7 - C8: the wake timer -/

theorem int_to_u32_le (x : Int) (b : Nat) (h0 : 0 ≤ x) (hb : x ≤ b) (hb32 : b < 2 ^ 32) :
    int_to_u32 x ≤ b := by
  unfold int_to_u32
  have : x % (2 ^ 32 : Int) = x := Int.emod_eq_of_lt h0 (by omega)
  rw [this]; omega

theorem clamp_period_le (x : Int) (h0 : 0 ≤ x) :
    int_to_u32 (if x > 36 * 3600 then 36 * 3600 else x) ≤ 36 * 3600 := by
  apply int_to_u32_le _ _ _ _ (by norm_num)
  · split <;> omega
  · split <;> omega

/-- The result of `spm_get_wake_period` is at most `36 * 3600`. -/
theorem wake_period_le (K : SpmConsts) (hw : Hw) (pwake_time : Int) (last_wr : wake_reason_t)
    (s : SpmState) : (spm_get_wake_period K hw pwake_time last_wr s).1 ≤ 36 * 3600 := by
  simp only [spm_get_wake_period, SPM_WAKE_PERIOD]
  generalize hw.get_dynamic_period (if last_wr ≠ WR_PCM_TIMER then 1 else 0) 600 1 = d
  cases K.MTK_ALPS_BOX_SUPPORT
  · by_cases hp : pwake_time < 0
    · by_cases hd : d ≤ 0
      · simp only [Bool.not_false, if_true, hp, hd]
        exact clamp_period_le _ (by norm_num)
      · simp only [Bool.not_false, if_true, if_false, hp, hd]
        exact clamp_period_le _ (by omega)
    · simp only [Bool.not_false, if_true, if_false, hp]
      exact clamp_period_le _ (by omega)
  · by_cases hp : pwake_time ≥ 0
    · simp only [Bool.not_true, if_true, hp]
      exact clamp_period_le _ hp
    · simp only [Bool.not_true, if_false, hp]
      exact clamp_period_le _ (by norm_num)

theorem events_since_append (s s2 : SpmState) (evs : List Ev)
    (h : s2.trace = s.trace ++ evs) : events_since s s2 = evs := by
  unfold events_since; rw [h]; exact List.drop_left _ _

/-- C8: `spm_set_wakeup_event` writes `SPM_PCM_TIMER_VAL` exactly once, with
`timer_val` when that is non-zero and with `PCM_TIMER_MAX_FOR_WDT`
(`0xffffffff - 30 * 32768`) when it is zero; the value written is never 0. -/
theorem set_wakeup_event_timer_val (K : SpmConsts) (timer_val wake_src : Nat) (s : SpmState)
    (ht : timer_val < 2 ^ 32) :
    writes_to Reg.SPM_PCM_TIMER_VAL (events_since s (spm_set_wakeup_event K timer_val wake_src s))
        = [if timer_val ≠ 0 then timer_val else PCM_TIMER_MAX_FOR_WDT] ∧
      PCM_TIMER_MAX_FOR_WDT = 0xffffffff - 30 * 32768 ∧
      0 ∉ writes_to Reg.SPM_PCM_TIMER_VAL
        (events_since s (spm_set_wakeup_event K timer_val wake_src s)) := by
  have hw : writes_to Reg.SPM_PCM_TIMER_VAL
      (events_since s (spm_set_wakeup_event K timer_val wake_src s))
        = [if timer_val ≠ 0 then timer_val else PCM_TIMER_MAX_FOR_WDT] := by
    rw [events_since_append s _ _ (by
      simp only [spm_set_wakeup_event, spm_write, spm_read, emit, List.append_assoc]
      rfl)]
    by_cases h0 : timer_val = 0
    · simp [writes_to, h0, u32, PCM_TIMER_MAX_FOR_WDT, PCM_WDT_TIMEOUT]
    · have ht2 : timer_val % 4294967296 = timer_val := Nat.mod_eq_of_lt (by omega)
      simp [writes_to, h0, u32, ht2]
  refine ⟨hw, rfl, ?_⟩
  rw [hw]
  by_cases h0 : timer_val = 0
  · simp [h0, PCM_TIMER_MAX_FOR_WDT, PCM_WDT_TIMEOUT]
  · simp [h0]; omega

theorem set_wakeup_event_timer_val_witness :
    (0 : Nat) < 2 ^ 32 ∧
      writes_to Reg.SPM_PCM_TIMER_VAL
        (events_since (spm_boot sampleConsts fun _ => 0)
          (spm_set_wakeup_event sampleConsts 0 0x20 (spm_boot sampleConsts fun _ => 0)))
        = [0xfff0ffff] :=
  ⟨by decide, (set_wakeup_event_timer_val sampleConsts 0 0x20 _ (by decide)).1⟩

/-! ## Frame lemmas for the register programming -/

theorem SameReg.unchanged (s : SpmState) : SameReg s s := ⟨rfl, rfl, rfl⟩

theorem SameReg.seq {a b c : SpmState} (h1 : SameReg a b) (h2 : SameReg b c) : SameReg a c :=
  ⟨h2.1.trans h1.1, h2.2.1.trans h1.2.1, h2.2.2.trans h1.2.2⟩

theorem Step.refl (P : Ev → Prop) (s : SpmState) : Step P s s :=
  ⟨⟨[], by simp, by simp⟩, SameReg.unchanged s⟩

theorem Step.trans {P : Ev → Prop} {a b c : SpmState} (h1 : Step P a b) (h2 : Step P b c) :
    Step P a c := by
  obtain ⟨⟨e1, ht1, hp1⟩, hr1⟩ := h1
  obtain ⟨⟨e2, ht2, hp2⟩, hr2⟩ := h2
  refine ⟨⟨e1 ++ e2, by rw [ht2, ht1, List.append_assoc], ?_⟩, hr1.seq hr2⟩
  intro e he
  rcases List.mem_append.mp he with h | h
  · exact hp1 e h
  · exact hp2 e h

theorem Step.same {P : Ev → Prop} {a b : SpmState} (h : Step P a b) : SameReg a b := h.2

theorem Step.events {P : Ev → Prop} {a b : SpmState} (h : Step P a b) :
    ∀ e ∈ events_since a b, P e := by
  obtain ⟨⟨evs, ht, hp⟩, _⟩ := h
  rw [events_since_append a b evs ht]; exact hp

theorem step_emit {P : Ev → Prop} (e : Ev) (s : SpmState) (h : P e) : Step P s (emit e s) :=
  ⟨⟨[e], rfl, by simpa using h⟩, SameReg.unchanged s⟩

theorem step_write {P : Ev → Prop} (r : Reg) (v : Nat) (s : SpmState)
    (h : P (Ev.spm_write r (u32 v))) : Step P s (spm_write r v s) :=
  ⟨⟨[Ev.spm_write r (u32 v)], rfl, by simpa using h⟩, ⟨rfl, rfl, rfl⟩⟩

theorem step_read {P : Ev → Prop} (r : Reg) (s : SpmState)
    (h : ∀ v, P (Ev.spm_read r v)) : Step P s (spm_read r s).2 :=
  ⟨⟨[Ev.spm_read r (u32 (s.regs r))], rfl, by simpa using h _⟩, ⟨rfl, rfl, rfl⟩⟩

theorem step_read_uart_ack {P : Ev → Prop} (hw : Hw) (i : Nat) (s : SpmState)
    (h : ∀ r v, P (Ev.spm_read r v)) : Step P s (spm_read_uart_ack hw i s).2 :=
  ⟨⟨[Ev.spm_read Reg.SPM_PCM_REG13_DATA (u32 (hw.uart_ack i))], rfl, by simpa using h _ _⟩,
    ⟨rfl, rfl, rfl⟩⟩

/-- Reads never arm the sequencer. -/
theorem not_arming_read (K : SpmConsts) (r : Reg) (v : Nat) : not_arming K (Ev.spm_read r v) :=
  trivial

theorem quiet_read (K : SpmConsts) (r : Reg) (s : SpmState) :
    Step (not_arming K) s (spm_read r s).2 :=
  step_read r s (fun _ => trivial)

theorem quiet_write (K : SpmConsts) (r : Reg) (v : Nat) (s : SpmState)
    (h1 : r ≠ Reg.SPM_PCM_TIMER_VAL) (h2 : r ≠ Reg.SPM_SLEEP_WAKEUP_EVENT_MASK)
    (h3 : r ≠ Reg.SPM_PCM_CON0) : Step (not_arming K) s (spm_write r v s) :=
  step_write r v s ⟨h1, h2, fun h => absurd h h3⟩

theorem quiet_write_con0 (K : SpmConsts) (v : Nat) (s : SpmState)
    (h : u32 v &&& K.CON0_PCM_KICK = 0) :
    Step (not_arming K) s (spm_write Reg.SPM_PCM_CON0 v s) :=
  step_write _ v s ⟨by decide, by decide, fun _ => h⟩

theorem mem_writes_to (r : Reg) (v : Nat) (evs : List Ev) :
    v ∈ writes_to r evs ↔ Ev.spm_write r v ∈ evs := by
  unfold writes_to
  rw [List.mem_filterMap]
  constructor
  · rintro ⟨e, he, h⟩
    cases e <;> simp at h
    obtain ⟨h1, h2⟩ := h
    subst h1; subst h2; exact he
  · intro h
    exact ⟨_, h, by simp⟩

theorem aborted_of_step {K : SpmConsts} {s s2 : SpmState}
    {o : Outcome (wake_reason_t × Option wake_status_t)} (h : Step (not_arming K) s s2)
    (ho : o = Outcome.ret (WR_UART_BUSY, none) s2) : aborted_before_arming K s o := by
  have hev := h.events
  refine ⟨s2, ho, ?_, ?_, ?_, ?_, h.same⟩
  · intro v hv
    exact (hev _ ((mem_writes_to _ _ _).mp hv)).2.2 rfl
  · apply List.eq_nil_iff_forall_not_mem.mpr
    intro v hv
    exact (hev _ ((mem_writes_to _ _ _).mp hv)).2.1 rfl
  · apply List.eq_nil_iff_forall_not_mem.mpr
    intro v hv
    exact (hev _ ((mem_writes_to _ _ _).mp hv)).1 rfl
  · intro irq hi
    exact hev _ hi

theorem quiet_set_sysclk_settle (K : SpmConsts) (s : SpmState) :
    Step (not_arming K) s (spm_set_sysclk_settle s) := by
  unfold spm_set_sysclk_settle
  exact ((quiet_write K _ _ s (by decide) (by decide) (by decide)).trans
    (quiet_read K _ _)).trans (step_emit _ _ (by trivial))

theorem quiet_mask_irq (K : SpmConsts) (hw : Hw) (s : SpmState) :
    Step (not_arming K) s (mask_irq K hw s) := by
  unfold mask_irq
  exact ((((step_emit _ _ (by trivial)).trans (step_emit _ _ (by trivial))).trans
    (step_emit _ _ (by trivial))).trans (step_emit _ _ (by trivial))).trans (step_emit _ _ (by trivial))

theorem quiet_restore_irq (K : SpmConsts) (hw : Hw) (s : SpmState) :
    Step (not_arming K) s (restore_irq hw s) := by
  unfold restore_irq
  exact (((step_emit _ _ (by trivial)).trans (step_emit _ _ (by trivial))).trans
    (step_emit _ _ (by trivial))).trans (step_emit _ _ (by trivial))


/-! ### Bit facts -/

theorem and_not32_self (a m : Nat) : (a &&& not32 m) &&& m = 0 := by
  apply Nat.eq_of_testBit_eq
  intro i
  simp only [not32, Nat.testBit_and, Nat.testBit_xor, Nat.testBit_two_pow_sub_one,
    Nat.testBit_mod_two_pow, Nat.zero_testBit]
  cases a.testBit i <;> cases m.testBit i <;> simp

theorem and_eq_zero_of_or (m p x : Nat) (h : x &&& (m ||| p) = 0) : x &&& p = 0 := by
  apply Nat.eq_of_testBit_eq
  intro i
  have := congrArg (fun n => n.testBit i) h
  simp only [Nat.testBit_and, Nat.testBit_or, Nat.zero_testBit] at this ⊢
  cases hx : x.testBit i <;> cases hp : p.testBit i <;> simp_all

theorem or_and_eq_zero (x y p : Nat) (hx : x &&& p = 0) (hy : y &&& p = 0) :
    (x ||| y) &&& p = 0 := by
  apply Nat.eq_of_testBit_eq
  intro i
  have h1 := congrArg (fun n => n.testBit i) hx
  have h2 := congrArg (fun n => n.testBit i) hy
  simp only [Nat.testBit_and, Nat.testBit_or, Nat.zero_testBit] at h1 h2 ⊢
  cases hxx : x.testBit i <;> cases hyy : y.testBit i <;> cases hp : p.testBit i <;> simp_all

theorem u32_and_eq_zero (x p : Nat) (h : x &&& p = 0) : u32 x &&& p = 0 := by
  apply Nat.eq_of_testBit_eq
  intro i
  have h1 := congrArg (fun n => n.testBit i) h
  simp only [u32, Nat.testBit_and, Nat.testBit_mod_two_pow, Nat.zero_testBit] at h1 ⊢
  cases hxx : x.testBit i <;> cases hp : p.testBit i <;> simp_all

theorem quiet_reset_and_init_pcm (K : SpmConsts) (hK : con0_fields_disjoint K) (s : SpmState) :
    Step (not_arming K) s (spm_reset_and_init_pcm K s) := by
  obtain ⟨hkey, hrst, hdvs, _⟩ := hK
  unfold spm_reset_and_init_pcm
  refine ((((quiet_write_con0 K _ s ?_).trans (quiet_write_con0 K _ _ ?_)).trans
    (quiet_write_con0 K _ _ ?_)).trans (quiet_read K _ _)).trans
    (quiet_write K _ _ _ (by decide) (by decide) (by decide))
  · exact u32_and_eq_zero _ _ (or_and_eq_zero _ _ _ hkey hrst)
  · exact u32_and_eq_zero _ _ hkey
  · exact u32_and_eq_zero _ _ (or_and_eq_zero _ _ _ hkey hdvs)

theorem quiet_kick_pulse_im (K : SpmConsts) (hK : con0_fields_disjoint K) (s : SpmState) :
    Step (not_arming K) s (kick_pulse K K.CON0_IM_KICK s) := by
  obtain ⟨hkey, _, _, him⟩ := hK
  unfold kick_pulse
  have hc : ∀ v : Nat, (v &&& not32 (K.CON0_IM_KICK ||| K.CON0_PCM_KICK)) &&& K.CON0_PCM_KICK = 0 :=
    fun v => and_eq_zero_of_or K.CON0_IM_KICK _ _ (and_not32_self v _)
  refine ((quiet_read K _ s).trans (quiet_write_con0 K _ _ ?_)).trans (quiet_write_con0 K _ _ ?_)
  · exact u32_and_eq_zero _ _ (or_and_eq_zero _ _ _ (or_and_eq_zero _ _ _ (hc _) hkey) him)
  · exact u32_and_eq_zero _ _ (or_and_eq_zero _ _ _ (hc _) hkey)

theorem quiet_kick_im_to_fetch (K : SpmConsts) (hK : con0_fields_disjoint K)
    (pcmdesc : pcm_desc_t) (s : SpmState) :
    Step (not_arming K) s (spm_kick_im_to_fetch K pcmdesc s) := by
  unfold spm_kick_im_to_fetch
  have hrw : ∀ s2 : SpmState, Step (not_arming K) s2
      (spm_write Reg.SPM_PCM_IM_LEN (int_to_u32 ((pcmdesc.size : Int) - 1))
        (spm_write Reg.SPM_PCM_IM_PTR (u32 (K.spm_get_base_phys pcmdesc.base)) s2)) :=
    fun s2 => (quiet_write K _ _ s2 (by decide) (by decide) (by decide)).trans
      (quiet_write K _ _ _ (by decide) (by decide) (by decide))
  refine Step.trans ?_ (quiet_kick_pulse_im K hK _)
  simp only []
  split
  · exact (quiet_read K _ s).trans (hrw _)
  · split
    · exact ((quiet_read K _ s).trans (quiet_read K _ _)).trans (hrw _)
    · split
      · exact ((quiet_read K _ s).trans (quiet_read K _ _)).trans (hrw _)
      · exact (((quiet_read K _ s).trans (quiet_read K _ _)).trans (quiet_read K _ _)).trans
          (quiet_write K _ _ _ (by decide) (by decide) (by decide))


theorem wait_uart_ack_busy (K : SpmConsts) (hw : Hw) (hn : uart_never_acks K hw) (val1 : Nat) :
    ∀ (budget : Nat) (s : SpmState), budget ≤ WAIT_UART_ACK_TIMES →
      (wait_uart_ack K hw val1 budget s).1 = -K.EBUSY ∧
      Step (not_arming K) s (wait_uart_ack K hw val1 budget s).2 := by
  intro budget
  induction budget with
  | zero =>
    intro s _
    have h0 := hn (WAIT_UART_ACK_TIMES - 0) (Nat.sub_le _ _)
    simp only [wait_uart_ack, spm_read_uart_ack, h0, ne_eq, not_true_eq_false, if_false]
    refine ⟨trivial, ?_⟩
    exact ((((step_read_uart_ack hw _ s (fun _ _ => trivial)).trans
      (quiet_write K _ _ _ (by decide) (by decide) (by decide))).trans
      (quiet_read K _ _)).trans (step_emit _ _ (by trivial))).trans (step_emit _ _ (by trivial))
  | succ b ih =>
    intro s hb
    have h0 := hn (WAIT_UART_ACK_TIMES - (b + 1)) (Nat.sub_le _ _)
    simp only [wait_uart_ack, spm_read_uart_ack, h0, ne_eq, not_true_eq_false, if_false]
    obtain ⟨h1, h2⟩ := ih (emit (Ev.udelay 10) (spm_read_uart_ack hw (WAIT_UART_ACK_TIMES - (b + 1)) s).2)
      (by omega)
    refine ⟨h1, ?_⟩
    exact ((step_read_uart_ack hw _ s (fun _ _ => trivial)).trans (step_emit _ _ (by trivial))).trans h2

theorem request_uart_busy (K : SpmConsts) (hw : Hw) (hn : uart_never_acks K hw) (s : SpmState) :
    (spm_request_uart_to_sleep K hw s).1 = -K.EBUSY ∧
    Step (not_arming K) s (spm_request_uart_to_sleep K hw s).2 := by
  unfold spm_request_uart_to_sleep
  obtain ⟨h1, h2⟩ := wait_uart_ack_busy K hw hn (spm_read Reg.SPM_POWER_ON_VAL1 s).1
    WAIT_UART_ACK_TIMES
    (spm_write Reg.SPM_POWER_ON_VAL1
      ((spm_read Reg.SPM_POWER_ON_VAL1 s).1 ||| K.R7_UART_CLK_OFF_REQ)
      (spm_read Reg.SPM_POWER_ON_VAL1 s).2) (Nat.le_refl _)
  exact ⟨h1, ((quiet_read K _ s).trans
    (quiet_write K _ _ _ (by decide) (by decide) (by decide))).trans h2⟩

theorem quiet_get_wake_period (K : SpmConsts) (hw : Hw) (pwake_time : Int)
    (last_wr : wake_reason_t) (s : SpmState) :
    Step (not_arming K) s (spm_get_wake_period K hw pwake_time last_wr s).2 := by
  simp only [spm_get_wake_period]
  generalize (if last_wr ≠ WR_PCM_TIMER then (1 : Int) else 0) = fu
  generalize hw.get_dynamic_period fu SPM_WAKE_PERIOD 1 = d
  cases K.MTK_ALPS_BOX_SUPPORT
  · by_cases hp : pwake_time < 0
    · by_cases hd : d ≤ 0
      · simp only [Bool.not_false, if_true, hp, hd]
        exact (step_emit _ _ (by trivial)).trans (step_emit _ _ (by trivial))
      · simp only [Bool.not_false, if_true, if_false, hp, hd]
        exact step_emit _ _ (by trivial)
    · simp only [Bool.not_false, if_true, if_false, hp]
      exact step_emit _ _ (by trivial)
  · by_cases hp : pwake_time ≥ 0
    · simp only [Bool.not_true, if_true, hp]
      exact Step.refl _ _
    · simp only [Bool.not_true, if_false, hp]
      exact Step.refl _ _

theorem go_to_dpidle_busy (K : SpmConsts) (hw : Hw) (hK : con0_fields_disjoint K)
    (hE : K.EBUSY ≠ 0) (hn : uart_never_acks K hw) (cpu_pdn : Bool) (pwrlevel : Nat)
    (s : SpmState) : aborted_before_arming K s (spm_go_to_dpidle K hw cpu_pdn pwrlevel s) := by
  unfold spm_go_to_dpidle
  simp only []
  generalize hA : emit (Ev.aee_rr_rec_deepidle_val 0x3) _ = sA
  have hsA : Step (not_arming K) s sA := by
    rw [← hA]
    exact ((((step_emit _ _ (by trivial)).trans (quiet_mask_irq K hw _)).trans
      (quiet_reset_and_init_pcm K hK _)).trans (quiet_kick_im_to_fetch K hK _ _)).trans
      (step_emit _ _ (by trivial))
  obtain ⟨hb, hq⟩ := request_uart_busy K hw hn sA
  rcases hR : spm_request_uart_to_sleep K hw sA with ⟨busy, sB⟩
  rw [hR] at hb hq
  simp only at hb hq
  have hbusy : busy ≠ 0 := by rw [hb]; simpa using hE
  simp only [hbusy, ne_eq, not_false_eq_true, if_true, dpidle_tail]
  have := ((hsA.trans hq).trans (quiet_restore_irq K hw sB)).trans
    (step_emit (Ev.aee_rr_rec_deepidle_val 0x0) _ trivial)
  exact aborted_of_step this rfl


theorem quiet_sleep_period (K : SpmConsts) (hw : Hw) (pwake_time : Int)
    (last_wr : wake_reason_t) (s : SpmState) :
    Step (not_arming K) s (sleep_period K hw pwake_time last_wr s).2 := by
  unfold sleep_period
  split
  · exact quiet_get_wake_period K hw pwake_time last_wr s
  · split
    · exact Step.refl _ _
    · exact Step.refl _ _

theorem step_set_last_wr_sleep (P : Ev → Prop) (s : SpmState) (wr : wake_reason_t) :
    Step P s { s with last_wr_sleep := wr } :=
  ⟨⟨[], by simp, by simp⟩, ⟨rfl, rfl, rfl⟩⟩

theorem step_set_last_wr_sleep_dpidle (P : Ev → Prop) (s : SpmState) (wr : wake_reason_t) :
    Step P s { s with last_wr_sleep_dpidle := wr } :=
  ⟨⟨[], by simp, by simp⟩, ⟨rfl, rfl, rfl⟩⟩

theorem sleep_dpidle_tail_busy (K : SpmConsts) (hw : Hw) (wd_ret : Int) (s : SpmState) :
    ∃ sF, sleep_dpidle_tail hw wd_ret none { s with last_wr_sleep_dpidle := WR_UART_BUSY }
        = Outcome.ret (WR_UART_BUSY, none) sF ∧ Step (not_arming K) s sF := by
  have h1 := (step_set_last_wr_sleep_dpidle (not_arming K) s WR_UART_BUSY).trans
    (quiet_restore_irq K hw _)
  unfold sleep_dpidle_tail
  by_cases h : wd_ret = 0
  · simp only [h, if_true]
    exact ⟨_, rfl, h1.trans (step_emit _ _ (by trivial))⟩
  · simp only [h, if_false]
    exact ⟨_, rfl, h1⟩

theorem sleep_tail_busy (K : SpmConsts) (hw : Hw) (wd_ret : Int) (s : SpmState) :
    ∃ sF, sleep_tail K hw wd_ret none { s with last_wr_sleep := WR_UART_BUSY }
        = Outcome.ret (WR_UART_BUSY, none) sF ∧ Step (not_arming K) s sF := by
  have h1 := (step_set_last_wr_sleep (not_arming K) s WR_UART_BUSY).trans
    (quiet_restore_irq K hw _)
  have hl : (restore_irq hw { s with last_wr_sleep := WR_UART_BUSY }).last_wr_sleep
      = WR_UART_BUSY := rfl
  unfold sleep_tail
  simp only [hl]
  rw [if_neg (by decide)]
  by_cases h : wd_ret = 0
  · simp only [h, if_true]
    exact ⟨_, rfl, h1.trans (step_emit _ _ (by trivial))⟩
  · simp only [h, if_false]
    exact ⟨_, rfl, h1⟩

theorem go_to_sleep_dpidle_busy (K : SpmConsts) (hw : Hw) (hK : con0_fields_disjoint K)
    (hE : K.EBUSY ≠ 0) (hn : uart_never_acks K hw) (cpu_pdn : Bool) (pwrlevel : Nat)
    (pwake_time : Int) (s : SpmState) :
    aborted_before_arming K s (spm_go_to_sleep_dpidle K hw cpu_pdn pwrlevel pwake_time s) := by
  unfold spm_go_to_sleep_dpidle
  have hP := quiet_sleep_period K hw pwake_time s.last_wr_sleep_dpidle s
  rcases hp : sleep_period K hw pwake_time s.last_wr_sleep_dpidle s with ⟨sec, s1⟩
  rw [hp] at hP
  simp only [] at hP ⊢
  generalize hA : spm_kick_im_to_fetch K (pcm_dpidle K) _ = sA
  have hsA : Step (not_arming K) s sA := by
    rw [← hA]
    refine ((((hP.trans (step_emit Ev.get_wd_api _ (by trivial))).trans ?_).trans
      (quiet_mask_irq K hw _)).trans (step_emit _ _ (by trivial))).trans
      ((quiet_reset_and_init_pcm K hK _).trans (quiet_kick_im_to_fetch K hK _ _))
    split
    · exact step_emit _ _ (by trivial)
    · exact Step.refl _ _
  obtain ⟨hb, hq⟩ := request_uart_busy K hw hn sA
  rcases hR : spm_request_uart_to_sleep K hw sA with ⟨busy, sB⟩
  rw [hR] at hb hq
  simp only at hb hq
  have hbusy : busy ≠ 0 := by rw [hb]; simpa using hE
  simp only [hbusy, ne_eq, not_false_eq_true, if_true]
  obtain ⟨sF, hF, hT⟩ := sleep_dpidle_tail_busy K hw hw.get_wd_api sB
  have := (hsA.trans hq).trans hT
  exact aborted_of_step this hF

theorem step_force_gpt_arm (K : SpmConsts) (s : SpmState) :
    Step (not_arming K) s (force_gpt_arm K s) := by
  unfold force_gpt_arm
  split
  · refine Step.trans (((step_emit (Ev.gpt_set_cmp K.GPT4 1) s trivial).trans
      (step_emit (Ev.start_gpt K.GPT4) _ trivial)).trans
      (step_emit (Ev.udelay 200) _ trivial)) ?_
    exact ⟨⟨[], by simp, by simp⟩, ⟨rfl, rfl, rfl⟩⟩
  · exact Step.refl _ _

theorem force_gpt_ack_fields (K : SpmConsts) (hw : Hw) (s : SpmState) :
    (force_gpt_ack K hw s).last_wr_sleep = s.last_wr_sleep ∧ SameReg s (force_gpt_ack K hw s) := by
  unfold force_gpt_ack
  split
  · simp only []
    split
    · exact ⟨rfl, rfl, rfl, rfl⟩
    · exact ⟨rfl, rfl, rfl, rfl⟩
  · exact ⟨rfl, rfl, rfl, rfl⟩

theorem go_to_sleep_busy (K : SpmConsts) (hw : Hw) (hK : con0_fields_disjoint K)
    (hE : K.EBUSY ≠ 0) (hn : uart_never_acks K hw) (cpu_pdn infra_pdn : Bool)
    (pwake_time : Int) (s : SpmState) :
    aborted_before_arming K s (spm_go_to_sleep K hw cpu_pdn infra_pdn pwake_time s) := by
  unfold spm_go_to_sleep
  have hP := quiet_sleep_period K hw pwake_time s.last_wr_sleep s
  rcases hp : sleep_period K hw pwake_time s.last_wr_sleep s with ⟨sec, s1⟩
  rw [hp] at hP
  simp only [] at hP ⊢
  generalize hG : spm_set_sysclk_settle _ = sG
  have hsG : Step (not_arming K) s sG := by
    rw [← hG]
    refine (((hP.trans (step_emit Ev.get_wd_api _ (by trivial))).trans ?_).trans
      (quiet_mask_irq K hw _)).trans (quiet_set_sysclk_settle K _)
    split
    · exact step_emit _ _ (by trivial)
    · exact Step.refl _ _
  generalize hA : spm_kick_im_to_fetch K (pcm_suspend K) _ = sA
  have hsA : Step (not_arming K) s sA := by
    rw [← hA]
    exact ((hsG.trans (step_force_gpt_arm K sG)).trans (step_emit _ _ (by trivial))).trans
      ((quiet_reset_and_init_pcm K hK _).trans (quiet_kick_im_to_fetch K hK _ _))
  obtain ⟨hb, hq⟩ := request_uart_busy K hw hn sA
  rcases hR : spm_request_uart_to_sleep K hw sA with ⟨busy, sB⟩
  rw [hR] at hb hq
  simp only at hb hq
  have hbusy : busy ≠ 0 := by rw [hb]; simpa using hE
  simp only [hbusy, ne_eq, not_false_eq_true, if_true]
  obtain ⟨sF, hF, hT⟩ := sleep_tail_busy K hw hw.get_wd_api sB
  have := (hsA.trans hq).trans hT
  exact aborted_of_step this hF


/-! ### The armed path of `spm_go_to_sleep` -/

theorem same_wait_uart_ack (K : SpmConsts) (hw : Hw) (val1 : Nat) :
    ∀ (budget : Nat) (s : SpmState), SameReg s (wait_uart_ack K hw val1 budget s).2 := by
  intro budget
  induction budget with
  | zero =>
    intro s
    simp only [wait_uart_ack]
    split
    · exact ⟨rfl, rfl, rfl⟩
    · exact ⟨rfl, rfl, rfl⟩
  | succ b ih =>
    intro s
    simp only [wait_uart_ack]
    split
    · exact ⟨rfl, rfl, rfl⟩
    · exact SameReg.seq ⟨rfl, rfl, rfl⟩ (ih _)

theorem wait_uart_ack_ok (K : SpmConsts) (hw : Hw) (val1 : Nat) :
    ∀ (budget : Nat) (s : SpmState), budget ≤ WAIT_UART_ACK_TIMES →
      (∃ i, WAIT_UART_ACK_TIMES - budget ≤ i ∧ i ≤ WAIT_UART_ACK_TIMES ∧
        u32 (hw.uart_ack i) &&& K.R13_UART_CLK_OFF_ACK ≠ 0) →
      (wait_uart_ack K hw val1 budget s).1 = 0 := by
  intro budget
  induction budget with
  | zero =>
    intro s _ ⟨i, h1, h2, h3⟩
    have hi : i = WAIT_UART_ACK_TIMES - 0 := by omega
    subst hi
    simp only [wait_uart_ack, spm_read_uart_ack, h3, ne_eq, not_false_eq_true, if_true]
  | succ b ih =>
    intro s hb ⟨i, h1, h2, h3⟩
    simp only [wait_uart_ack, spm_read_uart_ack]
    by_cases hc : u32 (hw.uart_ack (WAIT_UART_ACK_TIMES - (b + 1))) &&& K.R13_UART_CLK_OFF_ACK = 0
    · simp only [hc, ne_eq, not_true_eq_false, if_false]
      apply ih _ (by omega)
      refine ⟨i, ?_, h2, h3⟩
      have hne : i ≠ WAIT_UART_ACK_TIMES - (b + 1) := by
        intro he; rw [he] at h3; exact h3 hc
      omega
    · simp only [hc, ne_eq, not_false_eq_true, if_true]

theorem request_uart_ok (K : SpmConsts) (hw : Hw) (ha : uart_acks K hw) (s : SpmState) :
    (spm_request_uart_to_sleep K hw s).1 = 0 ∧ SameReg s (spm_request_uart_to_sleep K hw s).2 := by
  unfold spm_request_uart_to_sleep
  obtain ⟨i, hi, hack⟩ := ha
  refine ⟨wait_uart_ack_ok K hw _ _ _ (Nat.le_refl _) ⟨i, by omega, hi, hack⟩, ?_⟩
  exact SameReg.seq ⟨rfl, rfl, rfl⟩ (same_wait_uart_ack K hw _ _ _)

theorem same_kick_pulse (K : SpmConsts) (kick : Nat) (s : SpmState) :
    SameReg s (kick_pulse K kick s) := ⟨rfl, rfl, rfl⟩

/-- `spm_kick_pcm_to_run` returns, without touching the registry, whenever the
timer value it reads back is at most `PCM_TIMER_MAX_FOR_WDT` or the watchdog
is not armed. -/
theorem kick_pcm_to_run_ret (K : SpmConsts) (cpu_pdn infra_pdn pcmwdt_en : Bool) (s : SpmState)
    (ht : (SPM_PCMWDT_EN K && pcmwdt_en) = true →
      u32 (s.regs Reg.SPM_PCM_TIMER_VAL) ≤ PCM_TIMER_MAX_FOR_WDT) :
    ∃ s2, spm_kick_pcm_to_run K cpu_pdn infra_pdn pcmwdt_en s = Outcome.ret () s2 ∧
      SameReg s s2 := by
  unfold spm_kick_pcm_to_run
  simp only [spm_read, spm_write, emit]
  by_cases hc : (SPM_PCMWDT_EN K && pcmwdt_en) = true
  · have h2 := ht hc
    simp only [hc, if_true, reduceCtorEq, if_false]
    rw [if_neg (by omega)]
    exact ⟨_, rfl, ⟨rfl, rfl, rfl⟩⟩
  · simp only [hc, if_false]
    exact ⟨_, rfl, ⟨rfl, rfl, rfl⟩⟩


theorem same_emit (e : Ev) (s : SpmState) : SameReg s (emit e s) := ⟨rfl, rfl, rfl⟩

theorem same_reset_and_init_pcm (K : SpmConsts) (s : SpmState) :
    SameReg s (spm_reset_and_init_pcm K s) := ⟨rfl, rfl, rfl⟩

theorem same_kick_im_to_fetch (K : SpmConsts) (pcmdesc : pcm_desc_t) (s : SpmState) :
    SameReg s (spm_kick_im_to_fetch K pcmdesc s) := by
  unfold spm_kick_im_to_fetch
  refine SameReg.seq ?_ (same_kick_pulse K _ _)
  simp only []
  split
  · exact ⟨rfl, rfl, rfl⟩
  · split
    · exact ⟨rfl, rfl, rfl⟩
    · split
      · exact ⟨rfl, rfl, rfl⟩
      · exact ⟨rfl, rfl, rfl⟩

theorem same_trigger_wfi_for_sleep (K : SpmConsts) (hw : Hw) (cpu_pdn infra_pdn : Bool)
    (s : SpmState) : SameReg s (spm_trigger_wfi_for_sleep K hw cpu_pdn infra_pdn s) := by
  unfold spm_trigger_wfi_for_sleep trigger_wfi
  cases cpu_pdn <;> cases infra_pdn <;> simp only [if_true, if_false, Bool.false_eq_true]
  · exact ⟨rfl, rfl, rfl⟩
  · exact ⟨rfl, rfl, rfl⟩
  · split <;> exact ⟨rfl, rfl, rfl⟩
  · split <;> exact ⟨rfl, rfl, rfl⟩

theorem same_clean_after_wakeup (K : SpmConsts) (pcmwdt_en : Bool) (s : SpmState) :
    SameReg s (spm_clean_after_wakeup K pcmwdt_en s) := by
  unfold spm_clean_after_wakeup
  simp only []
  split <;> exact ⟨rfl, rfl, rfl⟩

/-- The timer value armed by `spm_go_to_sleep` passes the `BUG_ON` test of
`spm_kick_pcm_to_run` whenever the watchdog is compiled in. -/
theorem sleep_timer_ok (K : SpmConsts) (hw : Hw) (pwake_time : Int) (last_wr : wake_reason_t)
    (s : SpmState) (h : SPM_PCMWDT_EN K = true) :
    u32 (if u32 ((sleep_period K hw pwake_time last_wr s).1 * 32768) ≠ 0
          then u32 ((sleep_period K hw pwake_time last_wr s).1 * 32768)
          else PCM_TIMER_MAX_FOR_WDT) ≤ PCM_TIMER_MAX_FOR_WDT := by
  have hl : K.CONFIG_MTK_LDVT = false := by simpa [SPM_PCMWDT_EN] using h
  have hs : sleep_period K hw pwake_time last_wr s = spm_get_wake_period K hw pwake_time last_wr s := by
    simp [sleep_period, SPM_PWAKE_EN, hl]
  rw [hs]
  have hle := wake_period_le K hw pwake_time last_wr s
  generalize (spm_get_wake_period K hw pwake_time last_wr s).1 = sec at hle
  have h1 : u32 (sec * 32768) = sec * 32768 := Nat.mod_eq_of_lt (by omega)
  rw [h1]
  unfold u32 PCM_TIMER_MAX_FOR_WDT PCM_WDT_TIMEOUT
  split <;> omega

theorem same_init_pcm_register (K : SpmConsts) (s : SpmState) :
    SameReg s (spm_init_pcm_register K s) := by
  simp only [spm_init_pcm_register, spm_read, spm_write, emit]
  exact ⟨rfl, rfl, rfl⟩

theorem same_init_event_vector (pcmdesc : pcm_desc_t) (s : SpmState) :
    SameReg s (spm_init_event_vector pcmdesc s) := by
  simp only [spm_init_event_vector, spm_write]
  exact ⟨rfl, rfl, rfl⟩

theorem same_set_pwrctl_for_sleep (s : SpmState) : SameReg s (spm_set_pwrctl_for_sleep s) := by
  simp only [spm_set_pwrctl_for_sleep, set_standby_and_wfi_sel, spm_write]
  exact ⟨rfl, rfl, rfl⟩

theorem same_set_wakeup_event (K : SpmConsts) (t ws : Nat) (s : SpmState) :
    SameReg s (spm_set_wakeup_event K t ws s) := by
  simp only [spm_set_wakeup_event, spm_read, spm_write, emit]
  exact ⟨rfl, rfl, rfl⟩

theorem set_wakeup_event_timer_reg (K : SpmConsts) (t ws : Nat) (s : SpmState) :
    (spm_set_wakeup_event K t ws s).regs Reg.SPM_PCM_TIMER_VAL =
      u32 (if t ≠ 0 then t else PCM_TIMER_MAX_FOR_WDT) := by
  simp only [spm_set_wakeup_event, spm_read, spm_write, emit, reduceCtorEq, if_false, if_true]

theorem same_get_wakeup_status (s : SpmState) : SameReg s (spm_get_wakeup_status s).2 := by
  simp only [spm_get_wakeup_status, spm_read, emit]
  exact ⟨rfl, rfl, rfl⟩

theorem u32_u32 (x : Nat) : u32 (u32 x) = u32 x := by
  unfold u32; exact Nat.mod_mod _ _

set_option maxHeartbeats 1000000 in
theorem go_to_sleep_armed (K : SpmConsts) (hw : Hw) (ha : uart_acks K hw)
    (cpu_pdn infra_pdn : Bool) (pwake_time : Int) (s : SpmState) :
    ∃ w sE, spm_go_to_sleep K hw cpu_pdn infra_pdn pwake_time s
        = sleep_tail K hw hw.get_wd_api (some w) sE ∧
      sE.last_wr_sleep = (spm_output_wake_reason K w false).wr ∧
      sE.mt_wake_event_comm = none ∧ sE.mem = s.mem ∧
      sE.mt_wake_event_tbl = s.mt_wake_event_tbl := by
  unfold spm_go_to_sleep
  have hP := (quiet_sleep_period K hw pwake_time s.last_wr_sleep s).same
  have hT := sleep_timer_ok K hw pwake_time s.last_wr_sleep s
  rcases hp : sleep_period K hw pwake_time s.last_wr_sleep s with ⟨sec, s1⟩
  rw [hp] at hP hT
  simp only [] at hP hT ⊢
  generalize hG : spm_set_sysclk_settle _ = sG
  have hsG : SameReg s sG := by
    rw [← hG]
    refine ((hP.seq (same_emit Ev.get_wd_api _)).seq
      ?_).seq (((quiet_mask_irq K hw _).same).seq (quiet_set_sysclk_settle K _).same)
    split
    · exact same_emit _ _
    · exact SameReg.unchanged _
  generalize hA : spm_kick_im_to_fetch K (pcm_suspend K) _ = sA
  have hsA : SameReg s sA := by
    rw [← hA]
    exact (((hsG.seq (step_force_gpt_arm K sG).same).seq (same_emit _ _)).seq
      (same_reset_and_init_pcm K _)).seq (same_kick_im_to_fetch K _ _)
  obtain ⟨hb, hq⟩ := request_uart_ok K hw ha sA
  rcases hR : spm_request_uart_to_sleep K hw sA with ⟨busy, sB⟩
  rw [hR] at hb hq
  simp only at hb hq
  subst hb
  simp only [ne_eq, not_true_eq_false, if_false]
  generalize hI : spm_set_pwrctl_for_sleep _ = sI
  have hIr : sI.mt_wake_event_comm = none ∧ sI.mem = sB.mem ∧
      sI.mt_wake_event_tbl = sB.mt_wake_event_tbl := by
    have h := ((same_init_pcm_register K { sB with mt_wake_event_comm := none }).seq
      (same_init_event_vector (pcm_suspend K) _)).seq (same_set_pwrctl_for_sleep _)
    rw [hI] at h
    exact ⟨h.1, h.2.1, h.2.2⟩
  have hWt := set_wakeup_event_timer_reg K (u32 (sec * 32768)) sI.spm_sleep_wakesrc sI
  have hWr := same_set_wakeup_event K (u32 (sec * 32768)) sI.spm_sleep_wakesrc sI
  generalize spm_set_wakeup_event K (u32 (sec * 32768)) sI.spm_sleep_wakesrc sI = sW at hWt hWr ⊢
  obtain ⟨sK, hK1, hK2⟩ := kick_pcm_to_run_ret K cpu_pdn infra_pdn true sW (by
    intro hc
    rw [hWt, u32_u32]
    exact hT (by simpa using hc))
  rw [hK1]
  simp only []
  have hZr := same_trigger_wfi_for_sleep K hw cpu_pdn infra_pdn sK
  generalize spm_trigger_wfi_for_sleep K hw cpu_pdn infra_pdn sK = sZ at hZr ⊢
  have hSr := same_get_wakeup_status sZ
  rcases hS : spm_get_wakeup_status sZ with ⟨w, sS⟩
  rw [hS] at hSr
  simp only [] at hSr ⊢
  have hCr := same_clean_after_wakeup K true sS
  generalize spm_clean_after_wakeup K true sS = sC at hCr ⊢
  have hall : SameReg sI sC := (((hWr.seq hK2).seq hZr).seq hSr).seq hCr
  obtain ⟨hF1, hF2⟩ := force_gpt_ack_fields K hw
    { sC with last_wr_sleep := (spm_output_wake_reason K w false).wr
              trace := sC.trace ++ (spm_output_wake_reason K w false).evs }
  refine ⟨w, _, rfl, hF1, ?_, ?_, ?_⟩
  · exact hF2.1.trans (hall.1.trans hIr.1)
  · exact hF2.2.1.trans ((hall.2.1.trans hIr.2.1).trans (hq.2.1.trans hsA.2.1))
  · exact hF2.2.2.trans ((hall.2.2.trans hIr.2.2).trans (hq.2.2.trans hsA.2.2))


/-! ### Attribution of a single source bit -/

theorem wake_source_loop_pow2 (k : Nat) (hk : k < 32) :
    wake_source_loop 32 { event := -1, mask := 2 ^ k, event_count := 0 }
      = { event := k, mask := 0, event_count := 1 } := by
  interval_cases k <;> rfl

theorem pow2_and_bit13 (k : Nat) (hk : k < 32) (h13 : k ≠ 13) : 2 ^ k &&& (1 <<< 13) = 0 := by
  interval_cases k <;> first | rfl | exact absurd rfl h13

/-- What `spm_report_wakeup_event` leaves in the registry. -/
theorem report_wakeup_event_registry (K : SpmConsts) (we : Nat) (code : Int) (s : SpmState) :
    (spm_report_wakeup_event K we code s).mt_wake_event_comm = some we ∧
    (spm_report_wakeup_event K we code s).mem we =
      { domain := (s.mem we).domain, code := code, parent := s.mt_wake_event_comm } ∧
    (spm_report_wakeup_event K we code s).last_wr_sleep = s.last_wr_sleep := by
  unfold spm_report_wakeup_event
  simp only [emit]
  split
  · simp
  · split <;> simp

theorem report_wake_source_pow2 (K : SpmConsts) (k : Nat) (hk : k < 32) (s : SpmState) :
    spm_report_wake_source K (2 ^ k) s = spm_report_wakeup_event K spm_wake_event k s := by
  unfold spm_report_wake_source
  rw [wake_source_loop_pow2 k hk]
  simp

theorem report_wake_source_last_wr (K : SpmConsts) (m : Nat) (s : SpmState) :
    (spm_report_wake_source K m s).last_wr_sleep = s.last_wr_sleep := by
  unfold spm_report_wake_source
  simp only []
  split
  · rw [(report_wakeup_event_registry K _ _ _).2.2]
    split <;> rfl
  · split <;> rfl

/-- With a captured snapshot `sleep_tail` returns the remembered reason, and
the registry it leaves is the one left by `spm_report_wake_source` when the
reason is `WR_WAKE_SRC` or `WR_PCM_ABORT`. -/
theorem sleep_tail_some (K : SpmConsts) (hw : Hw) (wd_ret : Int) (w : wake_status_t)
    (s : SpmState) :
    ∃ s2, sleep_tail K hw wd_ret (some w) s = Outcome.ret (s.last_wr_sleep, some w) s2 ∧
      ((s.last_wr_sleep = WR_WAKE_SRC ∨ s.last_wr_sleep = WR_PCM_ABORT) →
        SameReg (spm_report_wake_source K w.r12 (restore_irq hw s)) s2) := by
  have hl : (restore_irq hw s).last_wr_sleep = s.last_wr_sleep := rfl
  unfold sleep_tail
  simp only [hl]
  by_cases hc : s.last_wr_sleep = WR_WAKE_SRC ∨ s.last_wr_sleep = WR_PCM_ABORT
  · rw [if_pos hc]
    have hr := report_wake_source_last_wr K w.r12 (restore_irq hw s)
    rw [hl] at hr
    by_cases hwd : wd_ret = 0
    · simp only [hwd, if_true]
      refine ⟨emit Ev.wd_resume_notify (spm_report_wake_source K w.r12 (restore_irq hw s)), ?_,
        fun _ => same_emit _ _⟩
      show Outcome.ret ((spm_report_wake_source K w.r12 (restore_irq hw s)).last_wr_sleep, _) _ = _
      rw [hr]
    · simp only [hwd, if_false]
      refine ⟨spm_report_wake_source K w.r12 (restore_irq hw s), ?_, fun _ => SameReg.unchanged _⟩
      rw [hr]
  · rw [if_neg hc]
    by_cases hwd : wd_ret = 0
    · simp only [hwd, if_true]
      exact ⟨_, rfl, fun h => absurd h hc⟩
    · simp only [hwd, if_false]
      exact ⟨_, rfl, fun h => absurd h hc⟩

/-- A single named source bit other than bit 13 is classified `WR_WAKE_SRC`. -/
theorem wake_reason_single_source (K : SpmConsts) (w : wake_status_t) (h : w.debug_reg = 0)
    (ha : w.event_reg &&& 0x100000 ≠ 0) (h13 : w.r12 &&& (1 <<< 13) = 0)
    (hm : w.r12 ∈ named_sources K) (h0 : w.r12 ≠ 0) :
    (spm_output_wake_reason K w false).wr = WR_WAKE_SRC := by
  rw [wake_reason_wr K w h, if_neg ha]
  generalize scan_timer K w ("", WR_NONE) = s0
  have hself : w.r12 &&& w.r12 ≠ 0 := by rw [Nat.and_self]; exact h0
  have : (scan_sources K w s0).2 = WR_WAKE_SRC := by
    simp only [scan_sources, strcat_if_snd]
    simp [named_sources, sources_before_wdt, sources_after_wdt] at hm
    rcases hm with h | h | h | h | h | h | h | h | h | h | h | h | h | h | h | h | h | h | h
      | h | h | h | h <;> (rw [h] at hself h13; simp_all)
  simp [this]


/-! ## C9 - C10: the transition entry points -/

/-- C9: if the UART never acknowledges within the retry budget, each of
`spm_go_to_sleep`, `spm_go_to_sleep_dpidle` and `spm_go_to_dpidle` returns
`WR_UART_BUSY`, writes no value with `CON0_PCM_KICK` set to `SPM_PCM_CON0`,
never writes `SPM_SLEEP_WAKEUP_EVENT_MASK` or `SPM_PCM_TIMER_VAL`, and reports
no wake event (the registry is unchanged and no resume interrupt is reported).
The header constants are assumed to keep `CON0_PCM_KICK` apart from the other
`CON0_*` fields and `EBUSY` non-zero. -/
theorem uart_busy_aborts_before_arming (K : SpmConsts) (hw : Hw)
    (hK : con0_fields_disjoint K) (hE : K.EBUSY ≠ 0) (hn : uart_never_acks K hw)
    (cpu_pdn infra_pdn : Bool) (pwrlevel : Nat) (pwake_time : Int) (s : SpmState) :
    aborted_before_arming K s (spm_go_to_sleep K hw cpu_pdn infra_pdn pwake_time s) ∧
    aborted_before_arming K s (spm_go_to_sleep_dpidle K hw cpu_pdn pwrlevel pwake_time s) ∧
    aborted_before_arming K s (spm_go_to_dpidle K hw cpu_pdn pwrlevel s) :=
  ⟨go_to_sleep_busy K hw hK hE hn cpu_pdn infra_pdn pwake_time s,
   go_to_sleep_dpidle_busy K hw hK hE hn cpu_pdn pwrlevel pwake_time s,
   go_to_dpidle_busy K hw hK hE hn cpu_pdn pwrlevel s⟩

theorem uart_busy_aborts_before_arming_witness :
    con0_fields_disjoint sampleConsts ∧ sampleConsts.EBUSY ≠ 0 ∧
    uart_never_acks sampleConsts (sampleHw (fun _ => false) sampleWoken) ∧
    aborted_before_arming sampleConsts (spm_boot sampleConsts fun _ => 0)
      (spm_go_to_sleep sampleConsts (sampleHw (fun _ => false) sampleWoken) true true (-1)
        (spm_boot sampleConsts fun _ => 0)) ∧
    aborted_before_arming sampleConsts (spm_boot sampleConsts fun _ => 0)
      (spm_go_to_sleep_dpidle sampleConsts (sampleHw (fun _ => false) sampleWoken) true 0 5
        (spm_boot sampleConsts fun _ => 0)) ∧
    aborted_before_arming sampleConsts (spm_boot sampleConsts fun _ => 0)
      (spm_go_to_dpidle sampleConsts (sampleHw (fun _ => false) sampleWoken) false 1
        (spm_boot sampleConsts fun _ => 0)) :=
  ⟨by unfold con0_fields_disjoint; decide, by decide, fun _ _ => by simp [sampleHw, u32],
    (uart_busy_aborts_before_arming sampleConsts _ (by unfold con0_fields_disjoint; decide)
      (by decide) (fun _ _ => by simp [sampleHw, u32]) true true 0 (-1) _).1,
    (uart_busy_aborts_before_arming sampleConsts _ (by unfold con0_fields_disjoint; decide)
      (by decide) (fun _ _ => by simp [sampleHw, u32]) true true 0 5 _).2.1,
    (uart_busy_aborts_before_arming sampleConsts _ (by unfold con0_fields_disjoint; decide)
      (by decide) (fun _ _ => by simp [sampleHw, u32]) false true 1 5 _).2.2⟩

/-- C10: when the UART acknowledges, `spm_go_to_sleep` returns with a captured
snapshot; and whenever that snapshot has `debug_reg = 0`, the abort-pattern bit
`0x100000` of `event_reg` set and `r12` equal to one named source bit `2 ^ k`
(other than the reserved bit 13), the call returns `WR_WAKE_SRC` and afterwards
`spm_get_wakeup_event` yields the record `spm_wake_event` with domain "SPM",
code `k` and no parent. -/
theorem go_to_sleep_single_source (K : SpmConsts) (hw : Hw) (ha : uart_acks K hw)
    (cpu_pdn infra_pdn : Bool) (pwake_time : Int) (s : SpmState)
    (hdom : (s.mem spm_wake_event).domain = "SPM") :
    (∃ wr w s2, spm_go_to_sleep K hw cpu_pdn infra_pdn pwake_time s
        = Outcome.ret (wr, some w) s2) ∧
    ∀ wr w s2, spm_go_to_sleep K hw cpu_pdn infra_pdn pwake_time s
        = Outcome.ret (wr, some w) s2 →
      w.debug_reg = 0 → w.event_reg &&& 0x100000 ≠ 0 →
      ∀ k : Nat, k < 32 → k ≠ 13 → w.r12 = 2 ^ k → 2 ^ k ∈ named_sources K →
        wr = WR_WAKE_SRC ∧ spm_get_wakeup_event s2 = some spm_wake_event ∧
        (s2.mem spm_wake_event).domain = "SPM" ∧ (s2.mem spm_wake_event).code = k ∧
        (s2.mem spm_wake_event).parent = none := by
  obtain ⟨w0, sE, hcall, hlast, hcomm, hmem, _⟩ :=
    go_to_sleep_armed K hw ha cpu_pdn infra_pdn pwake_time s
  obtain ⟨sF, htail, hreg⟩ := sleep_tail_some K hw hw.get_wd_api w0 sE
  refine ⟨⟨_, _, _, hcall.trans htail⟩, ?_⟩
  intro wr w s2 hret hdbg habort k hk h13 hr12 hnamed
  rw [hcall, htail] at hret
  injection hret with h1 h2
  injection h1 with hwr hw2
  injection hw2 with hw3
  subst hw3; subst h2
  have hpos : (2 : Nat) ^ k ≠ 0 := by positivity
  have hsrc : (spm_output_wake_reason K w0 false).wr = WR_WAKE_SRC :=
    wake_reason_single_source K w0 hdbg habort (by rw [hr12]; exact pow2_and_bit13 k hk h13)
      (by rw [hr12]; exact hnamed) (by rw [hr12]; exact hpos)
  have hsame := hreg (Or.inl (hlast.trans hsrc))
  rw [hr12, report_wake_source_pow2 K k hk] at hsame
  obtain ⟨r1, r2, _⟩ := report_wakeup_event_registry K spm_wake_event k (restore_irq hw sE)
  have hm : sF.mem spm_wake_event =
      { domain := (sE.mem spm_wake_event).domain, code := k, parent := sE.mt_wake_event_comm } := by
    rw [hsame.2.1, r2]; rfl
  refine ⟨hwr.symm.trans (hlast.trans hsrc), ?_, ?_, ?_, ?_⟩
  · exact hsame.1.trans r1
  · rw [hm, hmem]; exact hdom
  · rw [hm]
  · rw [hm]; exact hcomm

theorem go_to_sleep_single_source_witness :
    uart_acks sampleConsts (sampleHw (fun i => i == 3) sampleWoken) ∧
    ((spm_boot sampleConsts fun _ => 0).mem spm_wake_event).domain = "SPM" ∧
    ∃ s2, spm_go_to_sleep sampleConsts (sampleHw (fun i => i == 3) sampleWoken) true true 5
          (spm_boot sampleConsts fun _ => 0)
        = Outcome.ret (WR_WAKE_SRC, some (wake_status_t.mk 0 (2 ^ 5) 0 0 0 0x100000 0 0)) s2 ∧
      spm_get_wakeup_event s2 = some spm_wake_event ∧
      (s2.mem spm_wake_event).domain = "SPM" ∧ (s2.mem spm_wake_event).code = 5 ∧
      (s2.mem spm_wake_event).parent = none := by
  have hacks : uart_acks sampleConsts (sampleHw (fun i => i == 3) sampleWoken) :=
    ⟨3, by decide, by decide⟩
  have hrun : ∃ s2, spm_go_to_sleep sampleConsts (sampleHw (fun i => i == 3) sampleWoken)
        true true 5 (spm_boot sampleConsts fun _ => 0)
      = Outcome.ret (WR_WAKE_SRC, some (wake_status_t.mk 0 (2 ^ 5) 0 0 0 0x100000 0 0)) s2 :=
    ⟨_, rfl⟩
  obtain ⟨s2, hs2⟩ := hrun
  have h := (go_to_sleep_single_source sampleConsts _ hacks true true 5
    (spm_boot sampleConsts fun _ => 0) rfl).2 _ _ s2 hs2 rfl (by decide) 5 (by decide)
    (by decide) rfl (by decide)
  exact ⟨hacks, rfl, s2, hs2, h.2⟩

/-! ## C13, C15 - C17, C20: registry, wake-source mask, lookups, image fetch -/

theorem u32_of_lt (x : Nat) (h : x < 2 ^ 32) : u32 x = x := Nat.mod_eq_of_lt h

/-- C15: `spm_set_sleep_wakesrc(w, enable, replace)` returns 0 and leaves
`spm_sleep_wakesrc` equal to `w` (enable, replace), `m | w` (enable, no
replace), `m & ~w` (disable, no replace) and 0 (disable, replace), `m` being
the old mask. -/
theorem set_sleep_wakesrc_spec (w : Nat) (s : SpmState) (hw : w < 2 ^ 32)
    (hm : s.spm_sleep_wakesrc < 2 ^ 32) :
    (∀ enable replace, (spm_set_sleep_wakesrc w enable replace s).1 = 0) ∧
    (spm_set_sleep_wakesrc w true true s).2.spm_sleep_wakesrc = w ∧
    (spm_set_sleep_wakesrc w true false s).2.spm_sleep_wakesrc = s.spm_sleep_wakesrc ||| w ∧
    (spm_set_sleep_wakesrc w false false s).2.spm_sleep_wakesrc
      = s.spm_sleep_wakesrc &&& not32 w ∧
    (spm_set_sleep_wakesrc w false true s).2.spm_sleep_wakesrc = 0 := by
  refine ⟨fun _ _ => rfl, ?_, ?_, ?_, rfl⟩
  · exact u32_of_lt w hw
  · exact u32_of_lt _ (Nat.or_lt_two_pow hm hw)
  · exact u32_of_lt _ (lt_of_le_of_lt Nat.and_le_left hm)

theorem set_sleep_wakesrc_spec_witness :
    (0x4000 : Nat) < 2 ^ 32 ∧
    (spm_set_sleep_wakesrc 0x4000 false false (spm_boot sampleConsts fun _ => 0)).2.spm_sleep_wakesrc
      = 0x3204564 &&& not32 0x4000 :=
  ⟨by decide, (set_sleep_wakesrc_spec 0x4000 (spm_boot sampleConsts fun _ => 0) (by decide)
    (by decide)).2.2.2.1⟩

/-- Records other than the reported one are left alone by
`spm_report_wakeup_event`. -/
theorem report_wakeup_event_other (K : SpmConsts) (we : Nat) (code : Int) (s : SpmState)
    (a : Nat) (ha : a ≠ we) : (spm_report_wakeup_event K we code s).mem a = s.mem a := by
  unfold spm_report_wakeup_event
  simp only [emit]
  split
  · simp [ha]
  · split <;> simp [ha]

/-- C13: after `spm_report_wakeup_event(A, a)` then `spm_report_wakeup_event(B, b)`
with `A` and `B` distinct, the active record is `B` with code `b` and parent `A`,
and `A` has code `a` and the previously active record as parent; after
`spm_clear_wakeup_event` there is no active record while `B.parent` is still
`A`; a record `C` reported next becomes active with no parent, so the chain
from the active record is `C` alone. -/
theorem report_links_parent (K : SpmConsts) (A B C : Nat) (a b c : Int) (s : SpmState)
    (hAB : A ≠ B) :
    spm_get_wakeup_event (spm_report_wakeup_event K B b (spm_report_wakeup_event K A a s))
      = some B ∧
    ((spm_report_wakeup_event K B b (spm_report_wakeup_event K A a s)).mem B).code = b ∧
    ((spm_report_wakeup_event K B b (spm_report_wakeup_event K A a s)).mem B).parent = some A ∧
    ((spm_report_wakeup_event K B b (spm_report_wakeup_event K A a s)).mem A).code = a ∧
    ((spm_report_wakeup_event K B b (spm_report_wakeup_event K A a s)).mem A).parent
      = spm_get_wakeup_event s ∧
    spm_get_wakeup_event (spm_clear_wakeup_event
      (spm_report_wakeup_event K B b (spm_report_wakeup_event K A a s))) = none ∧
    ((spm_clear_wakeup_event
      (spm_report_wakeup_event K B b (spm_report_wakeup_event K A a s))).mem B).parent
      = some A ∧
    spm_get_wakeup_event (spm_report_wakeup_event K C c (spm_clear_wakeup_event
      (spm_report_wakeup_event K B b (spm_report_wakeup_event K A a s)))) = some C ∧
    ((spm_report_wakeup_event K C c (spm_clear_wakeup_event
      (spm_report_wakeup_event K B b (spm_report_wakeup_event K A a s)))).mem C).parent
      = none ∧
    ∀ n, parent_chain (spm_report_wakeup_event K C c (spm_clear_wakeup_event
        (spm_report_wakeup_event K B b (spm_report_wakeup_event K A a s)))).mem (n + 1)
      (spm_get_wakeup_event (spm_report_wakeup_event K C c (spm_clear_wakeup_event
        (spm_report_wakeup_event K B b (spm_report_wakeup_event K A a s))))) = [C] := by
  obtain ⟨a1, a2, _⟩ := report_wakeup_event_registry K A a s
  generalize spm_report_wakeup_event K A a s = s1 at a1 a2 ⊢
  obtain ⟨b1, b2, _⟩ := report_wakeup_event_registry K B b s1
  have b3 := report_wakeup_event_other K B b s1 A hAB
  generalize spm_report_wakeup_event K B b s1 = s2 at b1 b2 b3 ⊢
  have hc1 : (spm_clear_wakeup_event s2).mt_wake_event_comm = none := rfl
  have hc2 : (spm_clear_wakeup_event s2).mem = s2.mem := rfl
  obtain ⟨c1, c2, _⟩ := report_wakeup_event_registry K C c (spm_clear_wakeup_event s2)
  generalize spm_report_wakeup_event K C c (spm_clear_wakeup_event s2) = s4 at c1 c2 ⊢
  refine ⟨b1, ?_, ?_, ?_, ?_, rfl, ?_, c1, ?_, ?_⟩
  · rw [b2]
  · rw [b2, a1]
  · rw [b3, a2]
  · rw [b3, a2]; rfl
  · rw [hc2, b2, a1]
  · rw [c2, hc1]
  · intro n
    unfold spm_get_wakeup_event
    rw [c1]
    cases n <;> simp [parent_chain, c2, hc1]

theorem report_links_parent_witness :
    (1 : Nat) ≠ 2 ∧
    ((spm_report_wakeup_event sampleConsts 2 7
      (spm_report_wakeup_event sampleConsts 1 4 (spm_boot sampleConsts fun _ => 0))).mem 2).parent
      = some 1 :=
  ⟨by decide, (report_links_parent sampleConsts 1 2 3 4 7 9 _ (by decide)).2.2.1⟩

theorem map_scan_eq (domain : String) (code : Int) (tbl : List mt_wake_event_map) :
    map_scan domain code tbl = first_row_for domain code tbl := by
  induction tbl with
  | nil => rfl
  | cons e rest ih =>
    unfold first_row_for rows_before_terminator at ih ⊢
    cases hd : e.domain with
    | none => simp [map_scan, hd, List.takeWhile]
    | some d =>
      by_cases hc : d = domain ∧ e.code = code
      · simp [map_scan, hd, List.takeWhile, hc]
      · simp only [map_scan, hd, hc, if_false, ih]
        simp [List.takeWhile, hd, hc]

/-- C16: `spm_read_wakeup_event_and_irq` is total.  It yields `WEV_NONE` and
leaves `*pirq` unwritten when no table is installed, when no record is active,
or when no row before the terminator has the active record's domain and code;
otherwise it yields the `we` of the first such row and, when `pirq` is
non-null, stores that row's `irq`. -/
theorem read_wakeup_event_and_irq_spec (K : SpmConsts) (s : SpmState) (pirq : Bool) :
    spm_read_wakeup_event_and_irq K s pirq =
      match s.mt_wake_event_tbl, spm_get_wakeup_event s with
      | some tbl, some we =>
        match first_row_for (s.mem we).domain (s.mem we).code tbl with
        | some e => (e.we, if pirq then some e.irq else none)
        | none => (K.WEV_NONE, none)
      | _, _ => (K.WEV_NONE, none) := by
  unfold spm_read_wakeup_event_and_irq spm_map_wakeup_event
  cases ht : s.mt_wake_event_tbl with
  | none => simp
  | some tbl =>
    cases hc : spm_get_wakeup_event s with
    | none => simp
    | some we =>
      simp only [map_scan_eq]
      cases first_row_for (s.mem we).domain (s.mem we).code tbl <;> rfl

theorem irq_scan_eq (K : SpmConsts) (irq : Int) (tbl : List mt_wake_event_map) :
    irq_scan K irq tbl =
      match first_row_for_irq irq tbl with
      | some e => e.we
      | none => K.WEV_MAX := by
  induction tbl with
  | nil => rfl
  | cons e rest ih =>
    unfold first_row_for_irq rows_before_terminator at ih ⊢
    cases hd : e.domain with
    | none => simp [irq_scan, hd, List.takeWhile]
    | some d =>
      by_cases hc : e.irq = irq
      · simp [irq_scan, hd, List.takeWhile, hc]
      · simp only [irq_scan, hd, hc, if_false, ih]
        simp [List.takeWhile, hd, hc]

/-- C17, as stated, fails: with a table installed in which no row carries the
interrupt line 7, `irq_to_wakeup_ev` yields `WEV_MAX`, which differs from the
sentinel `WEV_NONE` of the lookup by domain and code. -/
theorem irq_to_wakeup_ev_not_none :
    first_row_for_irq 7 sampleTable = none ∧
    irq_to_wakeup_ev sampleConsts
      (spm_set_wakeup_event_map (some sampleTable) (spm_boot sampleConsts fun _ => 0)) 7
      = sampleConsts.WEV_MAX ∧
    irq_to_wakeup_ev sampleConsts
      (spm_set_wakeup_event_map (some sampleTable) (spm_boot sampleConsts fun _ => 0)) 7
      ≠ sampleConsts.WEV_NONE := by
  decide

/-- C17, amended: `irq_to_wakeup_ev` is total.  It yields `WEV_NONE` when no
table is installed, the `we` of the first row before the terminator whose `irq`
equals the argument when there is one, and `WEV_MAX` when a table is installed
but no such row exists. -/
theorem irq_to_wakeup_ev_spec (K : SpmConsts) (s : SpmState) (irq : Int) :
    irq_to_wakeup_ev K s irq =
      match s.mt_wake_event_tbl with
      | none => K.WEV_NONE
      | some tbl =>
        match first_row_for_irq irq tbl with
        | some e => e.we
        | none => K.WEV_MAX := by
  unfold irq_to_wakeup_ev
  cases s.mt_wake_event_tbl with
  | none => rfl
  | some tbl => simp only [irq_scan_eq]

theorem writes_to_append (r : Reg) (a b : List Ev) :
    writes_to r (a ++ b) = writes_to r a ++ writes_to r b := by
  unfold writes_to; exact List.filterMap_append _ _ _

/-- C20: `spm_kick_im_to_fetch` skips the pointer/length rewrite and writes
`SPM_PCM_CON1` with `CON1_CFG_KEY | CON1_IM_SLAVE` or-ed into its current value
exactly when `SPM_PCM_IM_PTR` already holds the physical base, `SPM_PCM_IM_LEN`
already holds `size - 1` and `sess <= 2`; otherwise it writes the base and
`size - 1` and does not write `SPM_PCM_CON1`.  The suspend image has `sess = 3`,
so it is always rewritten. -/
theorem kick_im_to_fetch_spec (K : SpmConsts) (pcmdesc : pcm_desc_t) (s : SpmState) :
    ((u32 (s.regs Reg.SPM_PCM_IM_PTR) = u32 (K.spm_get_base_phys pcmdesc.base) ∧
        u32 (s.regs Reg.SPM_PCM_IM_LEN) = int_to_u32 ((pcmdesc.size : Int) - 1) ∧
        pcmdesc.sess ≤ 2) →
      writes_to Reg.SPM_PCM_IM_PTR (events_since s (spm_kick_im_to_fetch K pcmdesc s)) = [] ∧
      writes_to Reg.SPM_PCM_IM_LEN (events_since s (spm_kick_im_to_fetch K pcmdesc s)) = [] ∧
      writes_to Reg.SPM_PCM_CON1 (events_since s (spm_kick_im_to_fetch K pcmdesc s))
        = [u32 (u32 (s.regs Reg.SPM_PCM_CON1) ||| K.CON1_CFG_KEY ||| K.CON1_IM_SLAVE)]) ∧
    (¬ (u32 (s.regs Reg.SPM_PCM_IM_PTR) = u32 (K.spm_get_base_phys pcmdesc.base) ∧
        u32 (s.regs Reg.SPM_PCM_IM_LEN) = int_to_u32 ((pcmdesc.size : Int) - 1) ∧
        pcmdesc.sess ≤ 2) →
      writes_to Reg.SPM_PCM_IM_PTR (events_since s (spm_kick_im_to_fetch K pcmdesc s))
        = [u32 (K.spm_get_base_phys pcmdesc.base)] ∧
      writes_to Reg.SPM_PCM_IM_LEN (events_since s (spm_kick_im_to_fetch K pcmdesc s))
        = [int_to_u32 ((pcmdesc.size : Int) - 1)] ∧
      writes_to Reg.SPM_PCM_CON1 (events_since s (spm_kick_im_to_fetch K pcmdesc s)) = []) ∧
    (pcm_suspend K).sess = 3 ∧
    writes_to Reg.SPM_PCM_IM_PTR (events_since s (spm_kick_im_to_fetch K (pcm_suspend K) s))
      = [u32 (K.spm_get_base_phys (pcm_suspend K).base)] := by
  have hlen : u32 (int_to_u32 ((pcmdesc.size : Int) - 1)) = int_to_u32 ((pcmdesc.size : Int) - 1) := by
    unfold u32 int_to_u32
    apply Nat.mod_eq_of_lt
    have := Int.emod_lt_of_pos ((pcmdesc.size : Int) - 1) (b := 2 ^ 32) (by norm_num)
    have := Int.emod_nonneg ((pcmdesc.size : Int) - 1) (b := 2 ^ 32) (by norm_num)
    omega
  have hrew : ∀ (d : pcm_desc_t),
      ¬ (u32 (s.regs Reg.SPM_PCM_IM_PTR) = u32 (K.spm_get_base_phys d.base) ∧
        u32 (s.regs Reg.SPM_PCM_IM_LEN) = int_to_u32 ((d.size : Int) - 1) ∧ d.sess ≤ 2) →
      ∃ evs, (spm_kick_im_to_fetch K d s).trace = s.trace ++ evs ∧
        writes_to Reg.SPM_PCM_IM_PTR evs = [u32 (u32 (K.spm_get_base_phys d.base))] ∧
        writes_to Reg.SPM_PCM_IM_LEN evs = [u32 (int_to_u32 ((d.size : Int) - 1))] ∧
        writes_to Reg.SPM_PCM_CON1 evs = [] := by
    intro d hc
    by_cases h1 : u32 (s.regs Reg.SPM_PCM_IM_PTR) = u32 (K.spm_get_base_phys d.base)
    · by_cases h2 : u32 (s.regs Reg.SPM_PCM_IM_LEN) = int_to_u32 ((d.size : Int) - 1)
      · have h3 : d.sess > 2 := by
          by_contra h3
          exact hc ⟨h1, h2, by omega⟩
        refine ⟨_, by
          simp only [spm_kick_im_to_fetch, kick_pulse, spm_read, spm_write, emit, h1, h2, h3,
            ne_eq, not_true_eq_false, if_false, if_true, List.append_assoc]
          rfl, ?_⟩
        simp [writes_to]
      · refine ⟨_, by
          simp only [spm_kick_im_to_fetch, kick_pulse, spm_read, spm_write, emit, h1, h2,
            ne_eq, not_true_eq_false, not_false_eq_true, if_false, if_true, List.append_assoc]
          rfl, ?_⟩
        simp [writes_to]
    · refine ⟨_, by
        simp only [spm_kick_im_to_fetch, kick_pulse, spm_read, spm_write, emit, h1,
          ne_eq, not_false_eq_true, if_true, List.append_assoc]
        rfl, ?_⟩
      simp [writes_to]
  refine ⟨?_, ?_, ?_, ?_⟩
  · rintro ⟨h1, h2, h3⟩
    have h3' : ¬ pcmdesc.sess > 2 := by omega
    rw [events_since_append s _ _ (by
      simp only [spm_kick_im_to_fetch, kick_pulse, spm_read, spm_write, emit, h1, h2, h3',
        ne_eq, not_true_eq_false, if_false, List.append_assoc]
      rfl)]
    simp [writes_to]
  · intro hc
    obtain ⟨evs, ht, e1, e2, e3⟩ := hrew pcmdesc hc
    rw [events_since_append s _ evs ht, e1, e2, e3, u32_u32, hlen]
    exact ⟨rfl, rfl, rfl⟩
  · unfold pcm_suspend; split <;> rfl
  · have hs : (pcm_suspend K).sess = 3 := by unfold pcm_suspend; split <;> rfl
    obtain ⟨evs, ht, e1, _⟩ := hrew (pcm_suspend K) (by rw [hs]; omega)
    rw [events_since_append s _ evs ht, e1, u32_u32]

theorem kick_im_to_fetch_spec_witness :
    writes_to Reg.SPM_PCM_CON1
        (events_since (spm_boot sampleConsts fun r =>
            if r = Reg.SPM_PCM_IM_PTR then 0x80200000 else if r = Reg.SPM_PCM_IM_LEN then 479 else 0)
          (spm_kick_im_to_fetch sampleConsts (pcm_dpidle sampleConsts)
            (spm_boot sampleConsts fun r =>
              if r = Reg.SPM_PCM_IM_PTR then 0x80200000
              else if r = Reg.SPM_PCM_IM_LEN then 479 else 0)))
      = [0xb160001] :=
  ((kick_im_to_fetch_spec sampleConsts (pcm_dpidle sampleConsts) _).1
    ⟨by decide, by decide, by decide⟩).2.2

/-! ## C12: attribution from a wake-source bit field -/

theorem ffs_from_spec (m : Nat) : ∀ (n i : Nat),
    (∃ j, i ≤ j ∧ j < i + n ∧ m.testBit j = true) →
    i ≤ ffs_from n i m ∧ m.testBit (ffs_from n i m) = true ∧
      ∀ l, i ≤ l → l < ffs_from n i m → m.testBit l = false := by
  intro n
  induction n with
  | zero => rintro i ⟨j, h1, h2, _⟩; omega
  | succ n ih =>
    rintro i ⟨j, h1, h2, h3⟩
    unfold ffs_from
    by_cases hb : m.testBit i = true
    · rw [if_pos hb]
      exact ⟨Nat.le_refl _, hb, fun l h4 h5 => by omega⟩
    · rw [if_neg hb]
      have hji : j ≠ i := by rintro rfl; exact hb h3
      obtain ⟨r1, r2, r3⟩ := ih (i + 1) ⟨j, by omega, by omega, h3⟩
      refine ⟨by omega, r2, fun l h4 h5 => ?_⟩
      by_cases hl : l = i
      · subst hl; simpa using hb
      · exact r3 l (by omega) h5

/-- The helper `__ffs` finds the lowest set bit: it is the only index that is set with
every lower index clear. -/
theorem ffs_eq_of_lowest (m i : Nat) (hm : m < 2 ^ 32) (hi : m.testBit i = true)
    (hlow : ∀ j, j < i → m.testBit j = false) : __ffs m = i := by
  have hi32 : i < 32 := by
    by_contra h
    have : m < 2 ^ i := lt_of_lt_of_le hm (Nat.pow_le_pow_right (by norm_num) (by omega))
    rw [Nat.testBit_lt_two_pow this] at hi
    exact Bool.noConfusion hi
  obtain ⟨_, r2, r3⟩ := ffs_from_spec m 32 0 ⟨i, Nat.zero_le _, by omega, hi⟩
  unfold __ffs
  rcases Nat.lt_trichotomy (ffs_from 32 0 m) i with h | h | h
  · rw [hlow _ h] at r2; exact Bool.noConfusion r2
  · exact h
  · rw [r3 i (Nat.zero_le _) h] at hi; exact Bool.noConfusion hi

theorem wake_source_loop_once (m : Nat) (hm : m ≠ 0) :
    wake_source_loop 32 { event := -1, mask := m, event_count := 0 }
      = { event := __ffs m, mask := m &&& not32 (1 <<< __ffs m), event_count := 1 } := by
  show wake_source_loop (31 + 1) _ = _
  unfold wake_source_loop
  simp only [hm, ne_eq, not_false_eq_true, and_self, if_true]
  show wake_source_loop (30 + 1) _ = _
  unfold wake_source_loop
  simp

theorem and_not32_bit_eq_zero_iff (m i : Nat) (hm : m < 2 ^ 32) :
    m &&& not32 (1 <<< i) = 0 ↔ ∀ j, j ≠ i → m.testBit j = false := by
  constructor
  · intro h j hj
    have hb := congrArg (fun n => n.testBit j) h
    simp only [not32, Nat.testBit_and, Nat.testBit_xor, Nat.testBit_two_pow_sub_one,
      Nat.testBit_mod_two_pow, Nat.zero_testBit, Nat.one_shiftLeft, Nat.testBit_two_pow] at hb
    by_cases hj32 : j < 32
    · have hij : ¬ i = j := fun h => hj h.symm
      simpa [hj32, hij] using hb
    · exact Nat.testBit_lt_two_pow
        (lt_of_lt_of_le hm (Nat.pow_le_pow_right (by norm_num) (by omega)))
  · intro h
    apply Nat.eq_of_testBit_eq
    intro j
    simp only [not32, Nat.testBit_and, Nat.testBit_xor, Nat.testBit_two_pow_sub_one,
      Nat.testBit_mod_two_pow, Nat.zero_testBit, Nat.one_shiftLeft, Nat.testBit_two_pow]
    by_cases hj : j = i
    · subst hj; simp
    · simp [h j hj]

/-- The function `spm_report_wakeup_event` only appends to the trace, and never the
multiple-events warning. -/
theorem report_wakeup_event_trace (K : SpmConsts) (we : Nat) (code : Int) (s : SpmState) :
    ∃ evs, (spm_report_wakeup_event K we code s).trace = s.trace ++ evs ∧
      ∀ m, multiple_events_warning m ∉ evs := by
  unfold spm_report_wakeup_event
  simp only [emit]
  split
  · exact ⟨_, by simp only [List.append_assoc]; rfl, by simp [multiple_events_warning]⟩
  · split
    · exact ⟨_, by simp only [List.append_assoc]; rfl, by simp [multiple_events_warning]⟩
    · exact ⟨_, by simp only [List.append_assoc]; rfl, by simp [multiple_events_warning]⟩

/-- C12: for a 32-bit `event_mask`, `spm_report_wake_source` does nothing when the
mask is 0; otherwise it calls `spm_report_wakeup_event` once on `spm_wake_event`
with the index of the lowest set bit as code, preceded by one multiple-events
warning exactly when another bit is set as well. -/
theorem report_wake_source_spec (K : SpmConsts) (m : Nat) (hm : m < 2 ^ 32) (s : SpmState) :
    (m = 0 → spm_report_wake_source K m s = s) ∧
    (∀ i, m.testBit i = true → (∀ j, j < i → m.testBit j = false) →
      ((∀ j, j ≠ i → m.testBit j = false) →
        spm_report_wake_source K m s = spm_report_wakeup_event K spm_wake_event i s ∧
        (events_since s (spm_report_wake_source K m s)).count (multiple_events_warning m) = 0) ∧
      ((∃ j, j ≠ i ∧ m.testBit j = true) →
        spm_report_wake_source K m s
          = spm_report_wakeup_event K spm_wake_event i (emit (multiple_events_warning m) s) ∧
        (events_since s (spm_report_wake_source K m s)).count (multiple_events_warning m)
          = 1)) := by
  constructor
  · intro h0
    subst h0
    rfl
  · intro i hi hlow
    have hm0 : m ≠ 0 := by rintro rfl; simp at hi
    have hffs := ffs_eq_of_lowest m i hm hi hlow
    have hloop := wake_source_loop_once m hm0
    rw [hffs] at hloop
    have hmask := and_not32_bit_eq_zero_iff m i hm
    constructor
    · intro hone
      have h0 : m &&& not32 (1 <<< i) = 0 := hmask.mpr hone
      have heq : spm_report_wake_source K m s = spm_report_wakeup_event K spm_wake_event i s := by
        unfold spm_report_wake_source
        rw [hloop]
        simp [h0]
      refine ⟨heq, ?_⟩
      obtain ⟨evs, ht, hno⟩ := report_wakeup_event_trace K spm_wake_event i s
      rw [heq, events_since_append s _ evs ht]
      exact List.count_eq_zero.mpr (hno m)
    · intro hmore
      have h0 : m &&& not32 (1 <<< i) ≠ 0 := by
        intro h
        obtain ⟨j, hj, hb⟩ := hmore
        rw [hmask.mp h j hj] at hb
        exact Bool.noConfusion hb
      have heq : spm_report_wake_source K m s
          = spm_report_wakeup_event K spm_wake_event i (emit (multiple_events_warning m) s) := by
        unfold spm_report_wake_source
        rw [hloop]
        simp [h0, multiple_events_warning]
      refine ⟨heq, ?_⟩
      obtain ⟨evs, ht, hno⟩ := report_wakeup_event_trace K spm_wake_event i
        (emit (multiple_events_warning m) s)
      rw [heq, events_since_append s _ (multiple_events_warning m :: evs) (by
        rw [ht]; simp [emit])]
      rw [List.count_cons_self, List.count_eq_zero.mpr (hno m)]

theorem report_wake_source_spec_witness :
    (0x80000020 : Nat) < 2 ^ 32 ∧
    spm_report_wake_source sampleConsts 0x80000020 (spm_boot sampleConsts fun _ => 0)
      = spm_report_wakeup_event sampleConsts spm_wake_event 5
          (emit (multiple_events_warning 0x80000020) (spm_boot sampleConsts fun _ => 0)) ∧
    spm_report_wake_source sampleConsts 0x80000000 (spm_boot sampleConsts fun _ => 0)
      = spm_report_wakeup_event sampleConsts spm_wake_event 31
          (spm_boot sampleConsts fun _ => 0) :=
  ⟨by decide,
   (((report_wake_source_spec sampleConsts 0x80000020 (by decide) _).2 5 (by decide)
      (by decide)).2 ⟨31, by decide, by decide⟩).1,
   (((report_wake_source_spec sampleConsts 0x80000000 (by decide) _).2 31 (by decide)
      (by decide)).1 (by
        intro j hj
        by_cases h : j < 32
        · interval_cases j <;> first | rfl | exact absurd rfl hj
        · exact Nat.testBit_lt_two_pow
            (lt_of_lt_of_le (by norm_num) (Nat.pow_le_pow_right (by norm_num) (not_lt.mp h))))).1⟩

theorem Tracked.idle (keep : Ev → Bool) (s : SpmState) : Tracked keep s s [] :=
  ⟨[], by simp, rfl⟩

theorem Tracked.cat {keep : Ev → Bool} {s s2 s3 : SpmState} {L1 L2 : List Ev}
    (h1 : Tracked keep s s2 L1) (h2 : Tracked keep s2 s3 L2) : Tracked keep s s3 (L1 ++ L2) := by
  obtain ⟨e1, t1, f1⟩ := h1
  obtain ⟨e2, t2, f2⟩ := h2
  exact ⟨e1 ++ e2, by rw [t2, t1, List.append_assoc], by rw [List.filter_append, f1, f2]⟩

theorem Tracked.nil {keep : Ev → Bool} {s s2 s3 : SpmState} {L : List Ev}
    (h1 : Tracked keep s s2 []) (h2 : Tracked keep s2 s3 L) : Tracked keep s s3 L := by
  simpa using h1.cat h2

theorem Tracked.then_nil {keep : Ev → Bool} {s s2 s3 : SpmState} {L : List Ev}
    (h1 : Tracked keep s s2 L) (h2 : Tracked keep s2 s3 []) : Tracked keep s s3 L := by
  simpa using h1.cat h2

theorem Tracked.weaken {keep keep2 : Ev → Bool} {s s2 : SpmState} {L : List Ev}
    (hk : ∀ e, keep2 e = true → keep e = true) (h : Tracked keep s s2 L) :
    Tracked keep2 s s2 (L.filter keep2) := by
  obtain ⟨evs, t, f⟩ := h
  refine ⟨evs, t, ?_⟩
  rw [← f, List.filter_filter]
  congr 1
  funext e
  by_cases h2 : keep2 e = true
  · simp [h2, hk e h2]
  · simp [h2]

theorem Tracked.since {keep : Ev → Bool} {s s2 : SpmState} {L : List Ev}
    (h : Tracked keep s s2 L) : (events_since s s2).filter keep = L := by
  obtain ⟨evs, t, f⟩ := h
  rw [events_since_append s s2 evs t, f]

theorem policy_call_audited (e : Ev) (h : is_policy_call e = true) : audited e = true := by
  cases e <;> simp_all [is_policy_call, audited]

theorem tracked_emit (e : Ev) (s : SpmState) (h : audited e = false) :
    Tracked audited s (emit e s) [] :=
  ⟨[e], rfl, by simp [h]⟩

theorem tracked_trace (s : SpmState) (evs : List Ev) (h : evs.filter audited = []) (s2 : SpmState)
    (h2 : s2.trace = s.trace ++ evs) : Tracked audited s s2 [] :=
  ⟨evs, h2, h⟩

theorem tracked_read (r : Reg) (s : SpmState) : Tracked audited s (spm_read r s).2 [] :=
  ⟨[_], rfl, rfl⟩

theorem tracked_set_sysclk_settle (s : SpmState) :
    Tracked audited s (spm_set_sysclk_settle s) [] := by
  exact ⟨_, by simp only [spm_set_sysclk_settle, spm_read, spm_write, emit, List.append_assoc]; rfl, by simp [audited]⟩

theorem tracked_reset_and_init_pcm (K : SpmConsts) (s : SpmState) :
    Tracked audited s (spm_reset_and_init_pcm K s) [] := by
  exact ⟨_, by simp only [spm_reset_and_init_pcm, spm_read, spm_write, emit, List.append_assoc]; rfl, by simp [audited]⟩

theorem tracked_kick_pulse (K : SpmConsts) (kick : Nat) (s : SpmState) :
    Tracked audited s (kick_pulse K kick s) [] := by
  exact ⟨_, by simp only [kick_pulse, spm_read, spm_write, emit, List.append_assoc]; rfl, by simp [audited]⟩

theorem tracked_kick_im_to_fetch (K : SpmConsts) (pcmdesc : pcm_desc_t) (s : SpmState) :
    Tracked audited s (spm_kick_im_to_fetch K pcmdesc s) [] := by
  unfold spm_kick_im_to_fetch
  refine Tracked.nil ?_ (tracked_kick_pulse K _ _)
  simp only [spm_read, spm_write, emit]
  split
  · exact ⟨_, by simp only [List.append_assoc]; rfl, by simp [audited]⟩
  · split
    · exact ⟨_, by simp only [List.append_assoc]; rfl, by simp [audited]⟩
    · split
      · exact ⟨_, by simp only [List.append_assoc]; rfl, by simp [audited]⟩
      · exact ⟨_, by simp only [List.append_assoc]; rfl, by simp [audited]⟩

theorem tracked_wait_uart_ack (K : SpmConsts) (hw : Hw) (val1 : Nat) :
    ∀ (budget : Nat) (s : SpmState),
      Tracked audited s (wait_uart_ack K hw val1 budget s).2 [] := by
  intro budget
  induction budget with
  | zero =>
    intro s
    unfold wait_uart_ack
    simp only [spm_read_uart_ack, spm_read, spm_write, emit]
    split
    · exact ⟨_, by simp only [List.append_assoc]; rfl, by simp [audited]⟩
    · exact ⟨_, by simp only [List.append_assoc]; rfl, by simp [audited]⟩
  | succ n ih =>
    intro s
    unfold wait_uart_ack
    simp only [spm_read_uart_ack]
    split
    · exact ⟨_, rfl, by simp [audited]⟩
    · refine Tracked.nil ?_ (ih _)
      exact ⟨_, by simp only [emit, List.append_assoc]; rfl, by simp [audited]⟩

theorem tracked_request_uart_to_sleep (K : SpmConsts) (hw : Hw) (s : SpmState) :
    Tracked audited s (spm_request_uart_to_sleep K hw s).2 [] := by
  unfold spm_request_uart_to_sleep
  refine Tracked.nil ?_ (tracked_wait_uart_ack K hw _ _ _)
  exact ⟨_, by simp only [spm_read, spm_write, emit, List.append_assoc]; rfl, by simp [audited]⟩

theorem tracked_init_pcm_register (K : SpmConsts) (s : SpmState) :
    Tracked audited s (spm_init_pcm_register K s) [] := by
  exact ⟨_, by simp only [spm_init_pcm_register, spm_read, spm_write, emit, List.append_assoc]; rfl, by simp [audited]⟩

theorem tracked_init_event_vector (pcmdesc : pcm_desc_t) (s : SpmState) :
    Tracked audited s (spm_init_event_vector pcmdesc s) [] := by
  exact ⟨_, by simp only [spm_init_event_vector, spm_read, spm_write, emit, List.append_assoc]; rfl, by simp [audited]⟩

theorem tracked_set_pwrctl_for_sleep (s : SpmState) :
    Tracked audited s (spm_set_pwrctl_for_sleep s) [] := by
  exact ⟨_, by simp only [spm_set_pwrctl_for_sleep, set_standby_and_wfi_sel, spm_read, spm_write, emit,
      List.append_assoc]; rfl, by simp [audited]⟩

theorem tracked_set_pwrctl_for_dpidle (pwrlevel : Nat) (s : SpmState) :
    Tracked audited s (spm_set_pwrctl_for_dpidle pwrlevel s) [] := by
  exact ⟨_, by simp only [spm_set_pwrctl_for_dpidle, set_standby_and_wfi_sel, spm_read, spm_write, emit,
      List.append_assoc]; rfl, by simp [audited]⟩

theorem tracked_set_wakeup_event (K : SpmConsts) (timer_val wake_src : Nat) (s : SpmState) :
    Tracked audited s (spm_set_wakeup_event K timer_val wake_src s)
      [Ev.spm_write Reg.SPM_PCM_TIMER_VAL
         (u32 (if timer_val ≠ 0 then timer_val else PCM_TIMER_MAX_FOR_WDT)),
       Ev.spm_write Reg.SPM_SLEEP_WAKEUP_EVENT_MASK
         (u32 (not32 (if SPM_BYPASS_SYSPWREQ K then wake_src &&& not32 K.WAKE_SRC_SYSPWREQ
                      else wake_src)))] := by
  exact ⟨_, by simp only [spm_set_wakeup_event, spm_read, spm_write, emit, List.append_assoc]; rfl, by simp [audited]⟩

theorem tracked_kick_pcm_to_run_quiet (K : SpmConsts) (cpu_pdn infra_pdn : Bool) (s : SpmState) :
    ∃ s2, spm_kick_pcm_to_run K cpu_pdn infra_pdn false s = Outcome.ret () s2 ∧
      Tracked audited s s2 [] := by
  unfold spm_kick_pcm_to_run
  simp only [Bool.and_false, Bool.false_eq_true, if_false]
  exact ⟨_, rfl, _, by simp only [kick_pulse, spm_read, spm_write, emit, List.append_assoc]; rfl,
    by simp [audited]⟩

theorem trace_write (r : Reg) (v : Nat) (s : SpmState) :
    (spm_write r v s).trace = s.trace ++ [Ev.spm_write r (u32 v)] := rfl

theorem trace_emit (e : Ev) (s : SpmState) : (emit e s).trace = s.trace ++ [e] := rfl

theorem ite_state {α : Type} {c : Prop} [Decidable c] (a b : Outcome α) (P : SpmState → Prop)
    (ha : P a.state) (hb : P b.state) : P (if c then a else b).state := by
  split <;> assumption

theorem tracked_kick_pcm_to_run (K : SpmConsts) (cpu_pdn infra_pdn pcmwdt_en : Bool)
    (s : SpmState) :
    ∃ L, Tracked audited s (spm_kick_pcm_to_run K cpu_pdn infra_pdn pcmwdt_en s).state L ∧
      L.filter is_policy_call = [] := by
  unfold spm_kick_pcm_to_run
  simp only [kick_pulse, spm_read]
  by_cases hc : (SPM_PCMWDT_EN K && pcmwdt_en) = true
  · simp only [hc, if_true]
    refine ite_state _ _ (fun x => ∃ L, Tracked audited s x L ∧ L.filter is_policy_call = [])
      ?_ ?_
    · exact ⟨_, ⟨_, by simp only [Outcome.state, trace_write, trace_emit, List.append_assoc]; rfl,
        rfl⟩, by rfl⟩
    · exact ⟨_, ⟨_, by simp only [Outcome.state, trace_write, trace_emit, List.append_assoc]; rfl,
        rfl⟩, by rfl⟩
  · simp only [hc, Bool.false_eq_true, if_false]
    exact ⟨_, ⟨_, by simp only [Outcome.state, trace_write, trace_emit, List.append_assoc]; rfl,
      rfl⟩, by rfl⟩

theorem tracked_trigger_wfi (hw : Hw) (cpu_pdn : Bool) (mode : Nat) (s : SpmState) :
    Tracked audited s (trigger_wfi hw cpu_pdn mode s) [] ∧
      (trigger_wfi hw cpu_pdn mode s).regs = hw.wake s.regs := by
  unfold trigger_wfi
  simp only [emit, cpu_sleeps]
  split
  · split
    · exact ⟨⟨_, by simp only [List.append_assoc]; rfl, by simp [audited]⟩, rfl⟩
    · exact ⟨⟨_, by simp only [List.append_assoc]; rfl, by simp [audited]⟩, rfl⟩
  · exact ⟨⟨_, by simp only [List.append_assoc]; rfl, by simp [audited]⟩, rfl⟩

theorem tracked_trigger_wfi_for_sleep (K : SpmConsts) (hw : Hw) (cpu_pdn infra_pdn : Bool)
    (s : SpmState) : Tracked audited s (spm_trigger_wfi_for_sleep K hw cpu_pdn infra_pdn s) [] := by
  unfold spm_trigger_wfi_for_sleep
  split
  · exact (tracked_trigger_wfi hw cpu_pdn _ s).1.nil (tracked_emit _ _ rfl)
  · exact (tracked_trigger_wfi hw cpu_pdn _ s).1

theorem tracked_get_wakeup_status (s : SpmState) :
    Tracked audited s (spm_get_wakeup_status s).2 [] := by
  exact ⟨_, by simp only [spm_get_wakeup_status, spm_read, spm_write, emit, List.append_assoc]; rfl,
    by simp [audited]⟩

theorem tracked_clean_after_wakeup (K : SpmConsts) (pcmwdt_en : Bool) (s : SpmState) :
    Tracked audited s (spm_clean_after_wakeup K pcmwdt_en s)
      [Ev.spm_write Reg.SPM_SLEEP_WAKEUP_EVENT_MASK (u32 (not32 K.WAKE_SRC_THERM))] := by
  unfold spm_clean_after_wakeup
  simp only [spm_read, spm_write, emit]
  by_cases hc : (SPM_PCMWDT_EN K && pcmwdt_en) = true
  · simp only [hc, if_true]
    exact ⟨_, by simp only [List.append_assoc]; rfl, by rfl⟩
  · simp only [hc, if_false]
    exact ⟨_, by simp only [List.append_assoc]; rfl, by rfl⟩

theorem output_wake_reason_evs (K : SpmConsts) (w : wake_status_t) (dpidle : Bool) :
    (spm_output_wake_reason K w dpidle).evs.filter audited = [] := by
  unfold spm_output_wake_reason
  simp only []
  split
  · simp [audited]
  · split
    · simp
    · simp only [List.filter_append]
      split <;> split <;> simp [audited]

theorem tracked_restore_irq (hw : Hw) (s : SpmState) :
    Tracked audited s (restore_irq hw s) [] :=
  ⟨_, by simp only [restore_irq, emit, List.append_assoc]; rfl, by simp [audited]⟩

theorem tracked_mask_irq (K : SpmConsts) (hw : Hw) (s : SpmState) :
    Tracked audited s (mask_irq K hw s) [] :=
  ⟨_, by simp only [mask_irq, emit, List.append_assoc]; rfl, by simp [audited]⟩

theorem tracked_report_wakeup_event (K : SpmConsts) (we : Nat) (code : Int) (s : SpmState) :
    Tracked audited s (spm_report_wakeup_event K we code s) [] := by
  unfold spm_report_wakeup_event
  simp only [emit]
  split
  · exact ⟨_, by simp only [List.append_assoc]; rfl, by simp [audited]⟩
  · split
    · exact ⟨_, by simp only [List.append_assoc]; rfl, by simp [audited]⟩
    · exact ⟨_, by simp only [List.append_assoc]; rfl, by simp [audited]⟩

theorem tracked_report_wake_source (K : SpmConsts) (event_mask : Nat) (s : SpmState) :
    Tracked audited s (spm_report_wake_source K event_mask s) [] := by
  unfold spm_report_wake_source
  simp only []
  have h1 : Tracked audited s
      (if (wake_source_loop 32 { event := -1, mask := event_mask, event_count := 0 }).mask ≠ 0
        then emit (Ev.log "%s: multiple wakeup events detected: %08X" "" [event_mask]) s
        else s) [] := by
    split
    · exact tracked_emit _ _ rfl
    · exact Tracked.idle _ _
  split
  · exact h1.nil (tracked_report_wakeup_event K _ _ _)
  · exact h1

theorem tracked_force_gpt_arm (K : SpmConsts) (s : SpmState) :
    Tracked audited s (force_gpt_arm K s) [] := by
  unfold force_gpt_arm
  split
  · exact ⟨_, by simp only [emit, List.append_assoc]; rfl, by simp [audited]⟩
  · exact Tracked.idle _ _

theorem tracked_force_gpt_ack (K : SpmConsts) (hw : Hw) (s : SpmState) :
    Tracked audited s (force_gpt_ack K hw s) [] := by
  unfold force_gpt_ack
  simp only [emit]
  split
  · split
    · exact ⟨_, by simp only [List.append_assoc]; rfl, by simp [audited]⟩
    · exact ⟨_, by simp only [List.append_assoc]; rfl, by simp [audited]⟩
  · exact Tracked.idle _ _

theorem tracked_sleep_period (K : SpmConsts) (hw : Hw) (pwake_time : Int)
    (last_wr : wake_reason_t) (s : SpmState) :
    Tracked audited s (sleep_period K hw pwake_time last_wr s).2
      (period_calls K pwake_time last_wr) := by
  unfold sleep_period spm_get_wake_period period_calls
  simp only [emit]
  by_cases h1 : SPM_PWAKE_EN K = true
  · by_cases h2 : K.MTK_ALPS_BOX_SUPPORT = true
    · simp only [h1, h2, if_true, Bool.not_true, Bool.false_eq_true, if_false, Bool.and_false,
        Bool.false_and]
      split
      · exact Tracked.idle _ _
      · exact Tracked.idle _ _
    · have h2f : K.MTK_ALPS_BOX_SUPPORT = false := by simpa using h2
      by_cases h3 : pwake_time < 0
      · simp only [h1, h2f, h3, if_true, Bool.not_false, Bool.and_self, decide_True, Bool.and_true]
        split <;> split <;>
          exact ⟨_, by simp only [List.append_assoc]; rfl, by rfl⟩
      · simp only [h1, h2f, h3, if_true, if_false, Bool.not_false, Bool.and_self,
          decide_False, Bool.and_false, Bool.false_eq_true]
        exact ⟨_, rfl, by simp [audited]⟩
  · simp only [h1, if_false, Bool.false_and, Bool.false_eq_true]
    split
    · exact Tracked.idle _ _
    · exact Tracked.idle _ _

theorem tracked_sleep_tail (K : SpmConsts) (hw : Hw) (wd_ret : Int)
    (wakesta : Option wake_status_t) (s : SpmState) :
    Tracked audited s (sleep_tail K hw wd_ret wakesta s).state [] := by
  unfold sleep_tail
  simp only []
  have h1 := tracked_restore_irq hw s
  have hres : ∀ s2 : SpmState, Tracked audited s2
      (if wd_ret = 0 then emit Ev.wd_resume_notify s2 else s2) [] := by
    intro s2
    split
    · exact tracked_emit _ _ rfl
    · exact Tracked.idle _ _
  split
  · cases wakesta with
    | none => exact h1
    | some w => exact (h1.nil (tracked_report_wake_source K _ _)).nil (hres _)
  · exact h1.nil (hres _)

/-! ## Whole-transition facts -/

theorem Tracked.no_policy {s s2 : SpmState} {L : List Ev} (h : Tracked audited s s2 L)
    (hL : L.filter is_policy_call = []) : Tracked is_policy_call s s2 [] := by
  have := h.weaken policy_call_audited
  rwa [hL] at this

theorem period_calls_filter (K : SpmConsts) (pwake_time : Int) (last_wr : wake_reason_t) :
    (period_calls K pwake_time last_wr).filter is_policy_call
      = period_calls K pwake_time last_wr := by
  unfold period_calls
  split <;> rfl

theorem tracked_if_emit (c : Prop) [Decidable c] (e : Ev) (s : SpmState) (h : audited e = false) :
    Tracked audited s (if c then emit e s else s) [] := by
  split
  · exact tracked_emit e s h
  · exact Tracked.idle _ _

theorem tracked_log (fmt str : String) (args : List Int) (s : SpmState) :
    Tracked audited s (emit (Ev.log fmt str args) s) [] :=
  tracked_emit _ _ rfl

/-- Whatever way `spm_go_to_sleep` ends, the only calls of the duration policy
it makes are those of `sleep_period`. -/
theorem go_to_sleep_policy_calls (K : SpmConsts) (hw : Hw) (cpu_pdn infra_pdn : Bool)
    (pwake_time : Int) (s : SpmState) :
    Tracked is_policy_call s (spm_go_to_sleep K hw cpu_pdn infra_pdn pwake_time s).state
      (period_calls K pwake_time s.last_wr_sleep) := by
  unfold spm_go_to_sleep
  have hP := (tracked_sleep_period K hw pwake_time s.last_wr_sleep s).weaken policy_call_audited
  rw [period_calls_filter] at hP
  rcases hp : sleep_period K hw pwake_time s.last_wr_sleep s with ⟨sec, s1⟩
  rw [hp] at hP
  simp only [] at hP ⊢
  refine hP.then_nil ?_
  generalize hA : spm_kick_im_to_fetch K (pcm_suspend K) _ = sA
  have hsA : Tracked audited s1 sA [] := by
    rw [← hA]
    exact (((((((tracked_emit Ev.get_wd_api s1 rfl).nil
      (tracked_if_emit _ Ev.wd_suspend_notify _ rfl)).nil
      (tracked_mask_irq K hw _)).nil (tracked_set_sysclk_settle _)).nil
      (tracked_force_gpt_arm K _)).nil (tracked_log _ _ _ _)).nil
      (tracked_reset_and_init_pcm K _)).nil (tracked_kick_im_to_fetch K _ _)
  have hq := tracked_request_uart_to_sleep K hw sA
  rcases hR : spm_request_uart_to_sleep K hw sA with ⟨busy, sB⟩
  rw [hR] at hq
  replace hq : Tracked audited sA sB [] := hq
  have hsB := hsA.nil hq
  show Tracked is_policy_call s1 (Outcome.state (if busy ≠ 0 then _ else _)) []
  by_cases hb : busy ≠ 0
  · rw [if_pos hb]
    have h1 : Tracked audited sB { sB with last_wr_sleep := WR_UART_BUSY } [] :=
      ⟨[], by simp, rfl⟩
    exact ((hsB.nil h1).nil (tracked_sleep_tail K hw _ _ _)).no_policy rfl
  · rw [if_neg hb]
    have h1 : Tracked audited sB { sB with mt_wake_event_comm := none } [] :=
      ⟨[], by simp, rfl⟩
    generalize hI : spm_set_pwrctl_for_sleep _ = sI
    have hsI : Tracked audited s1 sI [] := by
      rw [← hI]
      exact (((hsB.nil h1).nil (tracked_init_pcm_register K _)).nil
        (tracked_init_event_vector _ _)).nil (tracked_set_pwrctl_for_sleep _)
    have hW := (tracked_set_wakeup_event K (u32 (sec * 32768)) sI.spm_sleep_wakesrc sI).no_policy rfl
    generalize spm_set_wakeup_event K (u32 (sec * 32768)) sI.spm_sleep_wakesrc sI = sW at hW ⊢
    obtain ⟨Lk, hk, hkf⟩ := tracked_kick_pcm_to_run K cpu_pdn infra_pdn true sW
    have hk2 := hk.no_policy hkf
    have hsW := (hsI.no_policy rfl).nil hW
    rcases hK : spm_kick_pcm_to_run K cpu_pdn infra_pdn true sW with ⟨u, sK⟩ | sK | sK
    · rw [hK] at hk2
      simp only [Outcome.state] at hk2 ⊢
      have hZ := tracked_trigger_wfi_for_sleep K hw cpu_pdn infra_pdn sK
      generalize spm_trigger_wfi_for_sleep K hw cpu_pdn infra_pdn sK = sZ at hZ ⊢
      have hS := tracked_get_wakeup_status sZ
      rcases hSt : spm_get_wakeup_status sZ with ⟨w, sS⟩
      rw [hSt] at hS
      simp only [] at hS ⊢
      have hC := (tracked_clean_after_wakeup K true sS).no_policy rfl
      generalize spm_clean_after_wakeup K true sS = sC at hC ⊢
      have hO : Tracked audited sC
          { sC with last_wr_sleep := (spm_output_wake_reason K w false).wr
                    trace := sC.trace ++ (spm_output_wake_reason K w false).evs } [] :=
        ⟨_, rfl, output_wake_reason_evs K w false⟩
      have hrest := ((hO.nil (tracked_force_gpt_ack K hw _)).nil
        (tracked_sleep_tail K hw hw.get_wd_api (some w) _)).no_policy rfl
      exact (((((hsW.nil hk2).nil (hZ.no_policy rfl)).nil (hS.no_policy rfl)).nil hC).nil hrest)
    · rw [hK] at hk2
      simp only [Outcome.state] at hk2 ⊢
      exact hsW.nil hk2
    · rw [hK] at hk2
      simp only [Outcome.state] at hk2 ⊢
      exact hsW.nil hk2

theorem sleep_tail_last_wr (K : SpmConsts) (hw : Hw) (wd_ret : Int)
    (wakesta : Option wake_status_t) (s : SpmState) (wr : wake_reason_t)
    (w : Option wake_status_t) (s2 : SpmState)
    (h : sleep_tail K hw wd_ret wakesta s = Outcome.ret (wr, w) s2) :
    s2.last_wr_sleep = wr := by
  unfold sleep_tail at h
  simp only [] at h
  have hres : ∀ sX : SpmState,
      (if wd_ret = 0 then emit Ev.wd_resume_notify sX else sX).last_wr_sleep
        = sX.last_wr_sleep := by
    intro sX
    split <;> rfl
  split at h
  · cases wakesta with
    | none => simp at h
    | some w0 =>
      simp only [Outcome.ret.injEq, Prod.mk.injEq] at h
      obtain ⟨⟨h1, _⟩, h2⟩ := h
      rw [← h2, ← h1]
  · simp only [Outcome.ret.injEq, Prod.mk.injEq] at h
    obtain ⟨⟨h1, _⟩, h2⟩ := h
    rw [← h2, ← h1]

/-- The value `spm_go_to_sleep` returns is the value it leaves in its static
`last_wr`. -/
theorem go_to_sleep_last_wr (K : SpmConsts) (hw : Hw) (cpu_pdn infra_pdn : Bool)
    (pwake_time : Int) (s : SpmState) (wr : wake_reason_t) (w : Option wake_status_t)
    (s2 : SpmState)
    (h : spm_go_to_sleep K hw cpu_pdn infra_pdn pwake_time s = Outcome.ret (wr, w) s2) :
    s2.last_wr_sleep = wr := by
  revert h
  unfold spm_go_to_sleep
  rcases hp : sleep_period K hw pwake_time s.last_wr_sleep s with ⟨sec, s1⟩
  simp only []
  generalize hA : spm_kick_im_to_fetch K (pcm_suspend K) _ = sA
  rcases hR : spm_request_uart_to_sleep K hw sA with ⟨busy, sB⟩
  show (if busy ≠ 0 then _ else _) = _ → _
  by_cases hb : busy ≠ 0
  · rw [if_pos hb]
    exact sleep_tail_last_wr K hw _ _ _ wr w s2
  · rw [if_neg hb]
    generalize spm_set_wakeup_event K _ _ _ = sW
    rcases hK : spm_kick_pcm_to_run K cpu_pdn infra_pdn true sW with ⟨u, sK⟩ | sK | sK
    · exact sleep_tail_last_wr K hw _ _ _ wr w s2
    · intro h; exact Outcome.noConfusion h
    · intro h; exact Outcome.noConfusion h

/-! ### The armed path of the two deep-idle entry points -/

theorem trigger_wfi_for_dpidle_regs (K : SpmConsts) (hw : Hw) (cpu_pdn : Bool) (s : SpmState) :
    (spm_trigger_wfi_for_dpidle K hw cpu_pdn s).regs = hw.wake s.regs ∧
      Tracked audited s (spm_trigger_wfi_for_dpidle K hw cpu_pdn s) [] := by
  unfold spm_trigger_wfi_for_dpidle
  exact ⟨(tracked_trigger_wfi hw cpu_pdn _ s).2, (tracked_trigger_wfi hw cpu_pdn _ s).1⟩

set_option maxHeartbeats 1000000 in
theorem go_to_dpidle_armed (K : SpmConsts) (hw : Hw) (ha : uart_acks K hw) (cpu_pdn : Bool)
    (pwrlevel : Nat) (s : SpmState) :
    ∃ sZ regs0 s2, sZ.regs = hw.wake regs0 ∧
      spm_go_to_dpidle K hw cpu_pdn pwrlevel s
        = Outcome.ret ((spm_output_wake_reason K (spm_get_wakeup_status sZ).1 true).wr,
            some (spm_get_wakeup_status sZ).1) s2 ∧
      Tracked audited s s2
        [Ev.spm_write Reg.SPM_PCM_TIMER_VAL
           (u32 (if (6553 : Nat) ≠ 0 then 6553 else PCM_TIMER_MAX_FOR_WDT)),
         Ev.spm_write Reg.SPM_SLEEP_WAKEUP_EVENT_MASK
           (u32 (not32 (if SPM_BYPASS_SYSPWREQ K
              then WAKE_SRC_FOR_DPIDLE K &&& not32 K.WAKE_SRC_SYSPWREQ
              else WAKE_SRC_FOR_DPIDLE K))),
         Ev.spm_write Reg.SPM_SLEEP_WAKEUP_EVENT_MASK (u32 (not32 K.WAKE_SRC_THERM))] := by
  unfold spm_go_to_dpidle
  simp only []
  generalize hA : emit (Ev.aee_rr_rec_deepidle_val 0x3) _ = sA
  have hsA : Tracked audited s sA [] := by
    rw [← hA]
    exact ((((tracked_emit (Ev.aee_rr_rec_deepidle_val 0x1) s rfl).nil
      (tracked_mask_irq K hw _)).nil (tracked_reset_and_init_pcm K _)).nil
      (tracked_kick_im_to_fetch K _ _)).nil (tracked_emit (Ev.aee_rr_rec_deepidle_val 0x3) _ rfl)
  obtain ⟨hb, _⟩ := request_uart_ok K hw ha sA
  have hq := tracked_request_uart_to_sleep K hw sA
  rcases hR : spm_request_uart_to_sleep K hw sA with ⟨busy, sB⟩
  rw [hR] at hb hq
  replace hb : busy = 0 := hb
  replace hq : Tracked audited sA sB [] := hq
  subst hb
  show ∃ sZ regs0 s2, _ ∧ (if (0 : Int) ≠ 0 then _ else _) = _ ∧ _
  rw [if_neg (by simp)]
  generalize hI : spm_set_pwrctl_for_dpidle pwrlevel _ = sI
  have hsI : Tracked audited s sI [] := by
    rw [← hI]
    exact (((hsA.nil hq).nil (tracked_init_pcm_register K _)).nil
      (tracked_init_event_vector _ _)).nil (tracked_set_pwrctl_for_dpidle _ _)
  have hW := tracked_set_wakeup_event K 6553 (WAKE_SRC_FOR_DPIDLE K) sI
  generalize spm_set_wakeup_event K 6553 (WAKE_SRC_FOR_DPIDLE K) sI = sW at hW ⊢
  obtain ⟨sK, hK, hkt⟩ := tracked_kick_pcm_to_run_quiet K cpu_pdn false sW
  rw [hK]
  simp only []
  obtain ⟨hZr, hZt⟩ := trigger_wfi_for_dpidle_regs K hw cpu_pdn
    (emit (Ev.aee_rr_rec_deepidle_val 0x7) (emit Ev.spm_dpidle_before_wfi sK))
  generalize hZ : emit Ev.spm_dpidle_after_wfi _ = sZ
  have hsZ : Tracked audited sK sZ [] := by
    rw [← hZ]
    exact ((((tracked_emit Ev.spm_dpidle_before_wfi sK rfl).nil
      (tracked_emit (Ev.aee_rr_rec_deepidle_val 0x7) _ rfl)).nil hZt).nil
      (tracked_emit (Ev.aee_rr_rec_deepidle_val 0xF) _ rfl)).nil
      (tracked_emit Ev.spm_dpidle_after_wfi _ rfl)
  have hZregs : sZ.regs = hw.wake sK.regs := by
    rw [← hZ]
    exact hZr
  have hS := tracked_get_wakeup_status sZ
  have hC := tracked_clean_after_wakeup K false (spm_get_wakeup_status sZ).2
  generalize spm_clean_after_wakeup K false (spm_get_wakeup_status sZ).2 = sC at hC ⊢
  have hO : Tracked audited sC
      { sC with trace := sC.trace ++
          (spm_output_wake_reason K (spm_get_wakeup_status sZ).1 true).evs } [] :=
    ⟨_, rfl, output_wake_reason_evs K _ true⟩
  refine ⟨sZ, _, _, hZregs, rfl, ?_⟩
  have hend := (hO.nil (tracked_restore_irq hw _)).nil
    (tracked_emit (Ev.aee_rr_rec_deepidle_val 0x0) _ rfl)
  have hall := ((((hsI.nil hW).then_nil hkt).then_nil hsZ).then_nil hS).cat (hC.then_nil hend)
  exact hall

set_option maxHeartbeats 1000000 in
theorem go_to_sleep_dpidle_armed (K : SpmConsts) (hw : Hw) (ha : uart_acks K hw)
    (cpu_pdn : Bool) (pwrlevel : Nat) (pwake_time : Int) (s : SpmState) :
    ∃ sZ regs0 s2, sZ.regs = hw.wake regs0 ∧
      spm_go_to_sleep_dpidle K hw cpu_pdn pwrlevel pwake_time s
        = Outcome.ret ((spm_output_wake_reason K (spm_get_wakeup_status sZ).1 false).wr,
            some (spm_get_wakeup_status sZ).1) s2 := by
  unfold spm_go_to_sleep_dpidle
  rcases hp : sleep_period K hw pwake_time s.last_wr_sleep_dpidle s with ⟨sec, s1⟩
  simp only []
  generalize hA : spm_kick_im_to_fetch K (pcm_dpidle K) _ = sA
  obtain ⟨hb, _⟩ := request_uart_ok K hw ha sA
  rcases hR : spm_request_uart_to_sleep K hw sA with ⟨busy, sB⟩
  rw [hR] at hb
  replace hb : busy = 0 := hb
  subst hb
  show ∃ sZ regs0 s2, _ ∧ (if (0 : Int) ≠ 0 then _ else _) = _
  rw [if_neg (by simp)]
  generalize spm_set_wakeup_event K _ _ _ = sW
  obtain ⟨sK, hK, _⟩ := tracked_kick_pcm_to_run_quiet K cpu_pdn false sW
  rw [hK]
  simp only []
  obtain ⟨hZr, _⟩ := trigger_wfi_for_dpidle_regs K hw cpu_pdn sK
  generalize spm_trigger_wfi_for_dpidle K hw cpu_pdn sK = sZ at hZr ⊢
  unfold sleep_dpidle_tail
  by_cases hwd : hw.get_wd_api = 0
  · simp only [hwd, if_true]
    exact ⟨sZ, _, _, hZr, rfl⟩
  · simp only [hwd, if_false]
    exact ⟨sZ, _, _, hZr, rfl⟩

/-! ## C11, C18, C19: the duration policy and the deep-idle entry points -/

theorem not32_lt (x : Nat) : not32 x < 2 ^ 32 := by
  unfold not32
  exact Nat.xor_lt_two_pow (by norm_num) (Nat.mod_lt _ (by norm_num))

theorem writes_to_filter (r : Reg) (h : ∀ v, audited (Ev.spm_write r v) = true) :
    ∀ evs : List Ev, writes_to r (evs.filter audited) = writes_to r evs := by
  intro evs
  induction evs with
  | nil => rfl
  | cons e t ih =>
    have hc : writes_to r (e :: t) = writes_to r [e] ++ writes_to r t :=
      writes_to_append r [e] t
    by_cases he : audited e = true
    · rw [List.filter_cons_of_pos he, hc, ← ih]
      exact writes_to_append r [e] _
    · rw [List.filter_cons_of_neg he, hc, ih]
      have : writes_to r [e] = [] := by
        cases e with
        | spm_write r2 v =>
          by_cases hr : r2 = r
          · subst hr
            exact absurd (h v) he
          · simp [writes_to, hr]
        | _ => rfl
      rw [this]
      rfl

/-- C11: in a build with `SPM_PWAKE_EN` and without `MTK_ALPS_BOX_SUPPORT`, a
`spm_go_to_sleep` call with `pwake_time < 0` that follows a call which returned
`wr1` calls `get_dynamic_period` exactly once, with `first_use = 0` when `wr1`
is `WR_PCM_TIMER` and `first_use = 1` otherwise; the first call after boot uses
`first_use = 1`; and a policy result `<= 0` makes the wake period
`SPM_WAKE_PERIOD = 600` seconds. -/
theorem wake_period_first_use (K : SpmConsts) (hL : K.CONFIG_MTK_LDVT = false)
    (hB : K.MTK_ALPS_BOX_SUPPORT = false) (hw hw2 : Hw) (c1 i1 c2 i2 : Bool) (p1 p2 : Int)
    (hp : p2 < 0) (s s1 : SpmState) (wr1 : wake_reason_t) (w1 : Option wake_status_t)
    (h1 : spm_go_to_sleep K hw c1 i1 p1 s = Outcome.ret (wr1, w1) s1) :
    (events_since s1 (spm_go_to_sleep K hw2 c2 i2 p2 s1).state).filter is_policy_call
      = [Ev.get_dynamic_period (if wr1 = WR_PCM_TIMER then 0 else 1) SPM_WAKE_PERIOD 1] ∧
    (∀ regs, (events_since (spm_boot K regs)
        (spm_go_to_sleep K hw2 c2 i2 p2 (spm_boot K regs)).state).filter is_policy_call
      = [Ev.get_dynamic_period 1 SPM_WAKE_PERIOD 1]) ∧
    (∀ (last_wr : wake_reason_t) (sX : SpmState),
      hw2.get_dynamic_period (if last_wr = WR_PCM_TIMER then 0 else 1) SPM_WAKE_PERIOD 1 ≤ 0 →
      (sleep_period K hw2 p2 last_wr sX).1 = 600) ∧
    SPM_WAKE_PERIOD = 600 := by
  have hcalls : ∀ last_wr : wake_reason_t, period_calls K p2 last_wr
      = [Ev.get_dynamic_period (if last_wr = WR_PCM_TIMER then 0 else 1) SPM_WAKE_PERIOD 1] := by
    intro last_wr
    unfold period_calls
    by_cases h : last_wr = WR_PCM_TIMER <;> simp [SPM_PWAKE_EN, hL, hB, hp, h]
  refine ⟨?_, ?_, ?_, rfl⟩
  · have hl := go_to_sleep_last_wr K hw c1 i1 p1 s wr1 w1 s1 h1
    rw [(go_to_sleep_policy_calls K hw2 c2 i2 p2 s1).since, hl, hcalls]
  · intro regs
    rw [(go_to_sleep_policy_calls K hw2 c2 i2 p2 (spm_boot K regs)).since, hcalls]
    rfl
  · intro last_wr sX hle
    unfold sleep_period spm_get_wake_period
    by_cases h : last_wr = WR_PCM_TIMER
    · simp only [h, if_true, SPM_WAKE_PERIOD] at hle
      simp [SPM_PWAKE_EN, hL, hB, hp, h, hle, SPM_WAKE_PERIOD, int_to_u32]
    · simp only [h, if_false, SPM_WAKE_PERIOD] at hle
      simp [SPM_PWAKE_EN, hL, hB, hp, h, hle, SPM_WAKE_PERIOD, int_to_u32]

set_option maxHeartbeats 1000000 in
theorem wake_period_first_use_witness :
    ∃ w1 s1,
      spm_go_to_sleep sampleConsts (sampleHw (fun i => i == 3) sampleTimerWoken) true true 5
          (spm_boot sampleConsts fun _ => 0) = Outcome.ret (WR_PCM_TIMER, w1) s1 ∧
      (events_since s1 (spm_go_to_sleep sampleConsts (sampleHw (fun _ => false) sampleWoken)
          true true (-1) s1).state).filter is_policy_call
        = [Ev.get_dynamic_period 0 SPM_WAKE_PERIOD 1] := by
  have hrun : ∃ w1 s1,
      spm_go_to_sleep sampleConsts (sampleHw (fun i => i == 3) sampleTimerWoken) true true 5
          (spm_boot sampleConsts fun _ => 0) = Outcome.ret (WR_PCM_TIMER, w1) s1 :=
    ⟨_, _, rfl⟩
  obtain ⟨w1, s1, h1⟩ := hrun
  exact ⟨w1, s1, h1, (wake_period_first_use sampleConsts rfl rfl _
    (sampleHw (fun _ => false) sampleWoken) true true true true 5 (-1) (by decide) _ s1
    WR_PCM_TIMER w1 h1).1⟩

/-- C18, counterexample: a cooperative deep-idle transition whose snapshot has
`debug_reg = 0` returns `WR_PCM_TIMER`, not `WR_WAKE_SRC`. -/
theorem sleep_dpidle_not_wake_src :
    WR_PCM_TIMER ≠ WR_WAKE_SRC ∧
    (wake_status_t.mk 0 1 0 0 0 0x100000 0 0).debug_reg = 0 ∧
    uart_acks sampleConsts (sampleHw (fun i => i == 3) sampleTimerWoken) ∧
    ∃ s2, spm_go_to_sleep_dpidle sampleConsts (sampleHw (fun i => i == 3) sampleTimerWoken)
        true 0 5 (spm_boot sampleConsts fun _ => 0)
      = Outcome.ret (WR_PCM_TIMER, some (wake_status_t.mk 0 1 0 0 0 0x100000 0 0)) s2 :=
  ⟨by decide, rfl, ⟨3, by decide, by decide⟩, _, rfl⟩

/-- C18, amended: when quiescing succeeds, `spm_go_to_dpidle` returns
`WR_WAKE_SRC` for every snapshot with `debug_reg = 0` (and `WR_PCM_ASSERT`
otherwise), whatever the other fields hold, whereas `spm_go_to_sleep_dpidle`
returns the detailed classification `spm_output_wake_reason(&wakesta, false)`
of the snapshot.  The snapshot `w` is read from the register file `hw.wake`
left by the sequencer. -/
theorem dpidle_wake_reason (K : SpmConsts) (hw : Hw) (ha : uart_acks K hw) (cpu_pdn : Bool)
    (pwrlevel : Nat) (pwake_time : Int) (s : SpmState) :
    (∃ sZ regs0 s2 w, sZ.regs = hw.wake regs0 ∧ w = (spm_get_wakeup_status sZ).1 ∧
      spm_go_to_dpidle K hw cpu_pdn pwrlevel s
        = Outcome.ret (if w.debug_reg = 0 then WR_WAKE_SRC else WR_PCM_ASSERT, some w) s2) ∧
    (∃ sZ regs0 s2 w, sZ.regs = hw.wake regs0 ∧ w = (spm_get_wakeup_status sZ).1 ∧
      spm_go_to_sleep_dpidle K hw cpu_pdn pwrlevel pwake_time s
        = Outcome.ret ((spm_output_wake_reason K w false).wr, some w) s2) := by
  constructor
  · obtain ⟨sZ, regs0, s2, hr, hc, _⟩ := go_to_dpidle_armed K hw ha cpu_pdn pwrlevel s
    refine ⟨sZ, regs0, s2, _, hr, rfl, ?_⟩
    rw [hc]
    congr 2
    unfold spm_output_wake_reason
    by_cases hd : (spm_get_wakeup_status sZ).1.debug_reg = 0
    · simp [hd]
    · simp [hd]
  · obtain ⟨sZ, regs0, s2, hr, hc⟩ := go_to_sleep_dpidle_armed K hw ha cpu_pdn pwrlevel
      pwake_time s
    exact ⟨sZ, regs0, s2, _, hr, rfl, hc⟩

theorem dpidle_wake_reason_witness :
    uart_acks sampleConsts (sampleHw (fun i => i == 3) sampleTimerWoken) ∧
    (∃ sZ regs0 s2 w, sZ.regs = (sampleHw (fun i => i == 3) sampleTimerWoken).wake regs0 ∧
      w = (spm_get_wakeup_status sZ).1 ∧
      spm_go_to_dpidle sampleConsts (sampleHw (fun i => i == 3) sampleTimerWoken) true 0
          (spm_boot sampleConsts fun _ => 0)
        = Outcome.ret (if w.debug_reg = 0 then WR_WAKE_SRC else WR_PCM_ASSERT, some w) s2) :=
  ⟨⟨3, by decide, by decide⟩,
   (dpidle_wake_reason sampleConsts (sampleHw (fun i => i == 3) sampleTimerWoken)
      ⟨3, by decide, by decide⟩ true 0 5 (spm_boot sampleConsts fun _ => 0)).1⟩

/-- C19: a `spm_go_to_dpidle` call in which quiescing succeeds returns, writes
`SPM_PCM_TIMER_VAL` once, with 6553, writes `SPM_SLEEP_WAKEUP_EVENT_MASK` with
the complement of `WAKE_SRC_FOR_DPIDLE` (less `WAKE_SRC_SYSPWREQ` in a build
with `SPM_BYPASS_SYSPWREQ`) and then, when cleaning up, with the complement of
`WAKE_SRC_THERM`, whatever `spm_sleep_wakesrc` holds, and never writes
`SPM_PCM_WDT_TIMER_VAL`. -/
theorem go_to_dpidle_fixed_arming (K : SpmConsts) (hw : Hw) (ha : uart_acks K hw)
    (cpu_pdn : Bool) (pwrlevel : Nat) (s : SpmState) :
    ∃ r s2, spm_go_to_dpidle K hw cpu_pdn pwrlevel s = Outcome.ret r s2 ∧
      writes_to Reg.SPM_PCM_TIMER_VAL (events_since s s2) = [6553] ∧
      writes_to Reg.SPM_SLEEP_WAKEUP_EVENT_MASK (events_since s s2)
        = [not32 (if SPM_BYPASS_SYSPWREQ K
              then WAKE_SRC_FOR_DPIDLE K &&& not32 K.WAKE_SRC_SYSPWREQ
              else WAKE_SRC_FOR_DPIDLE K),
           not32 K.WAKE_SRC_THERM] ∧
      (K.CONFIG_MTK_LDVT = false →
        writes_to Reg.SPM_SLEEP_WAKEUP_EVENT_MASK (events_since s s2)
          = [not32 (WAKE_SRC_FOR_DPIDLE K), not32 K.WAKE_SRC_THERM]) ∧
      writes_to Reg.SPM_PCM_WDT_TIMER_VAL (events_since s s2) = [] := by
  obtain ⟨sZ, regs0, s2, _, hc, ht⟩ := go_to_dpidle_armed K hw ha cpu_pdn pwrlevel s
  have hev := ht.since
  have hT := writes_to_filter Reg.SPM_PCM_TIMER_VAL (fun _ => rfl) (events_since s s2)
  have hM := writes_to_filter Reg.SPM_SLEEP_WAKEUP_EVENT_MASK (fun _ => rfl) (events_since s s2)
  have hD := writes_to_filter Reg.SPM_PCM_WDT_TIMER_VAL (fun _ => rfl) (events_since s s2)
  rw [hev] at hT hM hD
  have hmask : writes_to Reg.SPM_SLEEP_WAKEUP_EVENT_MASK (events_since s s2)
      = [not32 (if SPM_BYPASS_SYSPWREQ K
            then WAKE_SRC_FOR_DPIDLE K &&& not32 K.WAKE_SRC_SYSPWREQ
            else WAKE_SRC_FOR_DPIDLE K),
         not32 K.WAKE_SRC_THERM] := by
    rw [← hM]
    simp only [writes_to, List.filterMap_cons, List.filterMap_nil, reduceCtorEq, if_false,
      if_true, u32_of_lt _ (not32_lt _)]
  refine ⟨_, s2, hc, ?_, hmask, ?_, ?_⟩
  · rw [← hT]
    rfl
  · intro hL
    rw [hmask]
    simp [SPM_BYPASS_SYSPWREQ, hL]
  · rw [← hD]
    rfl

theorem go_to_dpidle_fixed_arming_witness :
    uart_acks sampleConsts (sampleHw (fun i => i == 3) sampleWoken) ∧
    ∃ r s2, spm_go_to_dpidle sampleConsts (sampleHw (fun i => i == 3) sampleWoken) true 0
        { spm_boot sampleConsts (fun _ => 0) with spm_sleep_wakesrc := 0 } = Outcome.ret r s2 ∧
      writes_to Reg.SPM_PCM_TIMER_VAL
        (events_since { spm_boot sampleConsts (fun _ => 0) with spm_sleep_wakesrc := 0 } s2)
        = [6553] ∧
      writes_to Reg.SPM_PCM_WDT_TIMER_VAL
        (events_since { spm_boot sampleConsts (fun _ => 0) with spm_sleep_wakesrc := 0 } s2)
        = [] := by
  obtain ⟨r, s2, h1, h2, _, _, h5⟩ := go_to_dpidle_fixed_arming sampleConsts
    (sampleHw (fun i => i == 3) sampleWoken) ⟨3, by decide, by decide⟩ true 0
    { spm_boot sampleConsts (fun _ => 0) with spm_sleep_wakesrc := 0 }
  exact ⟨⟨3, by decide, by decide⟩, r, s2, h1, h2, h5⟩

/-! ## C14: the wake-source mask across a transition -/

theorem HwOnly.still (s : SpmState) : HwOnly s s := rfl

theorem HwOnly.andThen {s s2 s3 : SpmState} (h1 : HwOnly s s2) (h2 : HwOnly s2 s3) :
    HwOnly s s3 := by
  cases s; cases s2; cases s3
  simp only [HwOnly, SpmState.mk.injEq] at *
  simp_all

theorem HwOnly.mask {s s2 : SpmState} (h : HwOnly s s2) :
    s2.spm_sleep_wakesrc = s.spm_sleep_wakesrc ∧ s2.force_gpt = s.force_gpt := by
  unfold HwOnly at h
  have h1 := congrArg SpmState.spm_sleep_wakesrc h
  have h2 := congrArg SpmState.force_gpt h
  exact ⟨h1, h2⟩

theorem hw_emit (e : Ev) (s : SpmState) : HwOnly s (emit e s) := rfl

theorem hw_if_emit (c : Prop) [Decidable c] (e : Ev) (s : SpmState) :
    HwOnly s (if c then emit e s else s) := by
  split <;> rfl

theorem hw_sleep_period (K : SpmConsts) (hw : Hw) (pwake_time : Int) (last_wr : wake_reason_t)
    (s : SpmState) : HwOnly s (sleep_period K hw pwake_time last_wr s).2 := by
  unfold sleep_period spm_get_wake_period
  simp only []
  split_ifs <;> rfl

theorem hw_mask_irq (K : SpmConsts) (hw : Hw) (s : SpmState) : HwOnly s (mask_irq K hw s) := rfl

theorem hw_restore_irq (hw : Hw) (s : SpmState) : HwOnly s (restore_irq hw s) := rfl

theorem hw_set_sysclk_settle (s : SpmState) : HwOnly s (spm_set_sysclk_settle s) := rfl

theorem hw_reset_and_init_pcm (K : SpmConsts) (s : SpmState) :
    HwOnly s (spm_reset_and_init_pcm K s) := rfl

theorem hw_kick_pulse (K : SpmConsts) (kick : Nat) (s : SpmState) :
    HwOnly s (kick_pulse K kick s) := rfl

theorem hw_kick_im_to_fetch (K : SpmConsts) (pcmdesc : pcm_desc_t) (s : SpmState) :
    HwOnly s (spm_kick_im_to_fetch K pcmdesc s) := by
  unfold spm_kick_im_to_fetch
  refine HwOnly.andThen ?_ (hw_kick_pulse K _ _)
  simp only []
  split
  · rfl
  · split
    · rfl
    · split <;> rfl

theorem hw_wait_uart_ack (K : SpmConsts) (hw : Hw) (val1 : Nat) :
    ∀ (budget : Nat) (s : SpmState), HwOnly s (wait_uart_ack K hw val1 budget s).2 := by
  intro budget
  induction budget with
  | zero =>
    intro s
    unfold wait_uart_ack
    simp only []
    split <;> rfl
  | succ n ih =>
    intro s
    unfold wait_uart_ack
    simp only []
    split
    · rfl
    · exact HwOnly.andThen (by rfl) (ih _)

theorem hw_request_uart_to_sleep (K : SpmConsts) (hw : Hw) (s : SpmState) :
    HwOnly s (spm_request_uart_to_sleep K hw s).2 := by
  unfold spm_request_uart_to_sleep
  exact HwOnly.andThen (by rfl) (hw_wait_uart_ack K hw _ _ _)

/-- C14: in a build with `CONFIG_AMAZON_METRICS_LOG`, a `spm_go_to_sleep` call
made with `force_gpt = 1` while the UART does not acknowledge returns
`WR_UART_BUSY` and leaves `WAKE_SRC_GPT` or-ed into `spm_sleep_wakesrc`: the
jump to `RESTORE_IRQ` skips the statement that would clear the bit again. -/
theorem go_to_sleep_busy_keeps_gpt (K : SpmConsts) (hw : Hw)
    (hM : K.CONFIG_AMAZON_METRICS_LOG = true) (hE : K.EBUSY ≠ 0) (hn : uart_never_acks K hw)
    (cpu_pdn infra_pdn : Bool) (pwake_time : Int) (s : SpmState) (hf : s.force_gpt = 1) :
    ∃ s2, spm_go_to_sleep K hw cpu_pdn infra_pdn pwake_time s
        = Outcome.ret (WR_UART_BUSY, none) s2 ∧
      s2.spm_sleep_wakesrc = u32 (s.spm_sleep_wakesrc ||| K.WAKE_SRC_GPT) := by
  unfold spm_go_to_sleep
  have hP := hw_sleep_period K hw pwake_time s.last_wr_sleep s
  rcases hp : sleep_period K hw pwake_time s.last_wr_sleep s with ⟨sec, s1⟩
  rw [hp] at hP
  replace hP : HwOnly s s1 := hP
  simp only []
  generalize hG : spm_set_sysclk_settle _ = sG
  have hsG : HwOnly s sG := by
    rw [← hG]
    exact (((hP.andThen (hw_emit Ev.get_wd_api _)).andThen
      (hw_if_emit _ Ev.wd_suspend_notify _)).andThen (hw_mask_irq K hw _)).andThen
      (hw_set_sysclk_settle _)
  have hArm : (force_gpt_arm K sG).spm_sleep_wakesrc
      = u32 (s.spm_sleep_wakesrc ||| K.WAKE_SRC_GPT) := by
    unfold force_gpt_arm
    rw [if_pos (by simp [hM, hsG.mask.2, hf])]
    simp only [emit]
    rw [← hsG.mask.1]
  generalize hA : spm_kick_im_to_fetch K (pcm_suspend K) _ = sA
  have hsA : sA.spm_sleep_wakesrc = u32 (s.spm_sleep_wakesrc ||| K.WAKE_SRC_GPT) := by
    rw [← hA, ← hArm]
    exact (((hw_emit _ (force_gpt_arm K sG)).andThen (hw_reset_and_init_pcm K _)).andThen
      (hw_kick_im_to_fetch K _ _)).mask.1
  obtain ⟨hb, _⟩ := request_uart_busy K hw hn sA
  have hq := (hw_request_uart_to_sleep K hw sA).mask.1
  rcases hR : spm_request_uart_to_sleep K hw sA with ⟨busy, sB⟩
  rw [hR] at hb hq
  replace hb : busy = -K.EBUSY := hb
  replace hq : sB.spm_sleep_wakesrc = sA.spm_sleep_wakesrc := hq
  have hbusy : busy ≠ 0 := by rw [hb]; simpa using hE
  show ∃ s2, (if busy ≠ 0 then _ else _) = _ ∧ _
  rw [if_pos hbusy]
  unfold sleep_tail
  have hl : (restore_irq hw { sB with last_wr_sleep := WR_UART_BUSY }).last_wr_sleep
      = WR_UART_BUSY := rfl
  simp only [hl]
  rw [if_neg (by decide)]
  by_cases hwd : hw.get_wd_api = 0
  · simp only [hwd, if_true]
    exact ⟨_, rfl, hq.trans hsA⟩
  · simp only [hwd, if_false]
    exact ⟨_, rfl, hq.trans hsA⟩

theorem go_to_sleep_busy_keeps_gpt_witness :
    uart_never_acks sampleConsts (sampleHw (fun _ => false) sampleWoken) ∧
    ∃ s2, spm_go_to_sleep sampleConsts (sampleHw (fun _ => false) sampleWoken) true true 5
        { spm_boot sampleConsts (fun _ => 0) with force_gpt := 1 }
        = Outcome.ret (WR_UART_BUSY, none) s2 ∧
      s2.spm_sleep_wakesrc = (spm_boot sampleConsts fun _ => 0).spm_sleep_wakesrc ||| 1 <<< 4 ∧
      s2.spm_sleep_wakesrc ≠ (spm_boot sampleConsts fun _ => 0).spm_sleep_wakesrc := by
  have hn : uart_never_acks sampleConsts (sampleHw (fun _ => false) sampleWoken) := by
    simp [uart_never_acks, sampleHw, u32]
  obtain ⟨s2, h1, h2⟩ := go_to_sleep_busy_keeps_gpt sampleConsts
    (sampleHw (fun _ => false) sampleWoken) rfl (by decide) hn true true 5
    { spm_boot sampleConsts (fun _ => 0) with force_gpt := 1 } rfl
  exact ⟨hn, s2, h1, h2.trans (by decide), by rw [h2]; decide⟩

/-! ## C26, C28: the cause string -/

theorem scan_sources_eq_table (K : SpmConsts) (w : wake_status_t) (s : String × wake_reason_t) :
    scan_sources K w s = table_scan w.r12 (wake_source_table K) s := by
  simp only [scan_sources, strcat_if, table_scan, wake_source_table, List.foldl,
    decide_eq_true_eq]

theorem table_scan_matched (r12 : Nat) :
    ∀ (tbl : List (Nat × String × wake_reason_t)) (s : String × wake_reason_t),
      (table_scan r12 tbl s).1 = s.1 ++ names_of (matched r12 tbl) ∧
      (table_scan r12 tbl s).2 =
        match (matched r12 tbl).getLast? with
        | some e => e.2.2
        | none => s.2 := by
  intro tbl
  induction tbl with
  | nil => intro s; simp [table_scan, matched, names_of]
  | cons e t ih =>
    intro s
    have hstep : table_scan r12 (e :: t) s
        = table_scan r12 t (if r12 &&& e.1 ≠ 0 then (s.1 ++ e.2.1, e.2.2) else s) := rfl
    rw [hstep]
    obtain ⟨h1, h2⟩ := ih (if r12 &&& e.1 ≠ 0 then (s.1 ++ e.2.1, e.2.2) else s)
    rw [h1, h2]
    by_cases hm : r12 &&& e.1 ≠ 0
    · have hf : matched r12 (e :: t) = e :: matched r12 t := by
        simp [matched, List.filter_cons, hm]
      rw [hf, if_pos hm]
      constructor
      · show s.1 ++ e.2.1 ++ names_of (matched r12 t)
          = s.1 ++ (e.2.1 ++ names_of (matched r12 t))
        exact String.append_assoc _ _ _
      · cases hmt : matched r12 t with
        | nil => rfl
        | cons b l =>
          rw [List.getLast?_cons_cons]
          cases hg : (b :: l).getLast? with
          | none => simp at hg
          | some x => rfl
    · have hf : matched r12 (e :: t) = matched r12 t := by
        simp [matched, List.filter_cons, hm]
      rw [hf, if_neg hm]
      exact ⟨rfl, rfl⟩

/-- C26: for a snapshot with `debug_reg = 0` classified with `dpidle = false`,
the reason and the cause string of `spm_output_wake_reason` are those of the
table-driven classification `wake_reason_by_table`: the bit-0 timer rule, one
scan of `wake_source_table` in which every matching entry appends its name and
overwrites the reason, the abort override and the unknown default.  The scan
appends the names of the matched entries in table order and leaves the reason
of the last matched entry. -/
theorem output_wake_reason_by_table (K : SpmConsts) (w : wake_status_t)
    (h : w.debug_reg = 0) :
    (spm_output_wake_reason K w false).wr = (wake_reason_by_table K w).2 ∧
    (spm_output_wake_reason K w false).str = (wake_reason_by_table K w).1 ∧
    (∀ s : String × wake_reason_t,
      (table_scan w.r12 (wake_source_table K) s).1
        = s.1 ++ names_of (matched w.r12 (wake_source_table K)) ∧
      (table_scan w.r12 (wake_source_table K) s).2 =
        match (matched w.r12 (wake_source_table K)).getLast? with
        | some e => e.2.2
        | none => s.2) ∧
    (wake_source_table K).map (fun e => e.2.1)
      = ["TS ", "KP ", "WDT ", "GPT ", "EINT ", "CONN_WDT ", "CEC ", "IRRX ", "LOW_BAT ",
         "CONN ", "PCM_WDT ", "USB_CD ", "USB_PDN ", "DBGSYS ", "UART0 ", "AFE ", "THERM ",
         "CIRQ ", "SYSPWREQ ", "ETHERNET ", "CPU0_IRQ ", "CPU1_IRQ ", "CPU2_IRQ ",
         "CPU3_IRQ "] := by
  refine ⟨?_, ?_, table_scan_matched w.r12 (wake_source_table K), rfl⟩
  · simp only [spm_output_wake_reason, wake_reason_by_table, h, scan_sources_eq_table,
      strcat_if]
    simp
  · simp only [spm_output_wake_reason, wake_reason_by_table, h, scan_sources_eq_table,
      strcat_if]
    simp

theorem output_wake_reason_by_table_witness :
    (wake_status_t.mk 0 0x2021 0 0 0 0x100000 0 0).debug_reg = 0 ∧
    (spm_output_wake_reason sampleConsts (wake_status_t.mk 0 0x2021 0 0 0 0x100000 0 0) false).str
      = (wake_reason_by_table sampleConsts (wake_status_t.mk 0 0x2021 0 0 0 0x100000 0 0)).1 ∧
    (wake_reason_by_table sampleConsts (wake_status_t.mk 0 0x2021 0 0 0 0x100000 0 0))
      = ("PCM_TIMER EINT PCM_WDT ", WR_PCM_WDT) :=
  ⟨rfl, (output_wake_reason_by_table sampleConsts _ rfl).2.1, by decide⟩

theorem table_scan_length (r12 : Nat) :
    ∀ (tbl : List (Nat × String × wake_reason_t)) (s : String × wake_reason_t),
      (table_scan r12 tbl s).1.length ≤ s.1.length + (tbl.map fun e => e.2.1.length).sum := by
  intro tbl
  induction tbl with
  | nil => intro s; simp [table_scan]
  | cons e t ih =>
    intro s
    have hstep : table_scan r12 (e :: t) s
        = table_scan r12 t (if r12 &&& e.1 ≠ 0 then (s.1 ++ e.2.1, e.2.2) else s) := rfl
    rw [hstep]
    have h := ih (if r12 &&& e.1 ≠ 0 then (s.1 ++ e.2.1, e.2.2) else s)
    simp only [List.map_cons, List.sum_cons]
    by_cases hm : r12 &&& e.1 ≠ 0
    · rw [if_pos hm] at h ⊢
      simp only [String.length_append] at h
      omega
    · rw [if_neg hm] at h ⊢
      omega

theorem scan_timer_length (K : SpmConsts) (w : wake_status_t) :
    (scan_timer K w ("", WR_NONE)).1.length ≤ 10 ∧
    ((scan_timer K w ("", WR_NONE)).2 = WR_NONE → (scan_timer K w ("", WR_NONE)).1 = "") := by
  unfold scan_timer strcat_if
  split
  · split
    · exact ⟨by decide, fun h => by simp at h⟩
    · split <;> split <;> simp_all <;> decide
  · exact ⟨by decide, fun _ => rfl⟩

theorem table_scan_none (r12 : Nat) :
    ∀ (tbl : List (Nat × String × wake_reason_t)) (s : String × wake_reason_t),
      (∀ e ∈ tbl, e.2.2 ≠ WR_NONE) → (table_scan r12 tbl s).2 = WR_NONE →
      table_scan r12 tbl s = s := by
  intro tbl
  induction tbl with
  | nil => intro s _ _; rfl
  | cons e t ih =>
    intro s hall hn
    have hstep : table_scan r12 (e :: t) s
        = table_scan r12 t (if r12 &&& e.1 ≠ 0 then (s.1 ++ e.2.1, e.2.2) else s) := rfl
    rw [hstep] at hn ⊢
    have h := ih _ (fun x hx => hall x (List.mem_cons_of_mem _ hx)) hn
    by_cases hm : r12 &&& e.1 ≠ 0
    · rw [if_pos hm] at h hn
      rw [h] at hn
      exact absurd hn (hall e (List.mem_cons_self _ _))
    · rw [if_neg hm] at h ⊢
      exact h

theorem wake_source_table_reasons (K : SpmConsts) :
    ∀ e ∈ wake_source_table K, e.2.2 ≠ WR_NONE := by
  have h : (wake_source_table K).all (fun e => decide (e.2.2 ≠ WR_NONE)) = true := rfl
  exact fun e he => of_decide_eq_true (List.all_eq_true.mp h e he)

/-- C28: the cause string `str` built by `spm_output_wake_reason` has at most
165 characters (all of them one-byte ASCII characters of the string literals of
the source), so with its terminator it fits the 200-byte buffer; 165 is reached
when bit 0 and every scanned bit of `r12` match. -/
theorem cause_string_fits (K : SpmConsts) (w : wake_status_t) (dpidle : Bool) :
    (spm_output_wake_reason K w dpidle).str.length ≤ 165 ∧ 165 + 1 ≤ 200 ∧
    (spm_output_wake_reason sampleConsts
      (wake_status_t.mk 0 0xffffffff 0 0 0 0x100000 0 0) false).str.length = 165 := by
  refine ⟨?_, by norm_num, by rfl⟩
  unfold spm_output_wake_reason
  simp only []
  split
  · exact Nat.zero_le _
  · split
    · exact Nat.zero_le _
    · rw [scan_sources_eq_table]
      have hl := table_scan_length w.r12 (wake_source_table K) (scan_timer K w ("", WR_NONE))
      obtain ⟨ht, hte⟩ := scan_timer_length K w
      have hsum : ((wake_source_table K).map fun e => e.2.1.length).sum = 155 := by
        simp only [wake_source_table, List.map_cons, List.map_nil]
        decide
      rw [hsum] at hl
      have hnone := table_scan_none w.r12 (wake_source_table K)
        (scan_timer K w ("", WR_NONE)) (wake_source_table_reasons K)
      generalize table_scan w.r12 (wake_source_table K) (scan_timer K w ("", WR_NONE)) = r
        at hl hnone ⊢
      unfold strcat_if
      by_cases ha : w.event_reg &&& 0x100000 = 0
      · simp [ha]
        omega
      · simp only [ha, decide_False, Bool.false_eq_true, if_false]
        split
        · rename_i hr
          have hr2 : r.2 = WR_NONE := by simpa using hr
          have hreq := hnone hr2
          have hempty : r.1 = "" := by rw [hreq]; exact hte (by rw [← hreq]; exact hr2)
          rw [hempty]
          decide
        · omega

/-! ## C21, C30: reports to the registry -/

/-- C21: `spm_report_wakeup_event(we, code)` calls `pm_report_resume_irq` once,
with the `irq` of the first table row matching `(we->domain, code)`, when a
table is installed, such a row exists and its `we` is not `WEV_NONE`, and does
not call it otherwise; in every case `we` becomes the active record. -/
theorem report_wakeup_event_accounting (K : SpmConsts) (we : Nat) (code : Int)
    (s : SpmState) :
    resume_reports (events_since s (spm_report_wakeup_event K we code s)) =
      (match s.mt_wake_event_tbl with
       | none => []
       | some tbl =>
         match first_row_for (s.mem we).domain code tbl with
         | some e => if e.we ≠ K.WEV_NONE then [e.irq] else []
         | none => []) ∧
    spm_get_wakeup_event (spm_report_wakeup_event K we code s) = some we := by
  refine ⟨?_, (report_wakeup_event_registry K we code s).1⟩
  unfold spm_report_wakeup_event
  simp only [emit, spm_map_wakeup_event]
  cases htbl : s.mt_wake_event_tbl with
  | none =>
    simp only []
    rw [events_since_append s _ _ (by simp only [List.append_assoc]; rfl)]
    rfl
  | some tbl =>
    simp only [if_true, map_scan_eq]
    cases hrow : first_row_for (s.mem we).domain code tbl with
    | none =>
      simp only []
      rw [events_since_append s _ _ (by simp only [List.append_assoc]; rfl)]
      rfl
    | some e =>
      simp only []
      by_cases hwe : e.we ≠ K.WEV_NONE
      · rw [if_pos hwe, if_pos hwe]
        rw [events_since_append s _ _ (by simp only [List.append_assoc]; rfl)]
        rfl
      · rw [if_neg hwe, if_neg hwe]
        rw [events_since_append s _ _ (by simp only [List.append_assoc]; rfl)]
        rfl

theorem parent_chain_congr (mem mem2 : Nat → mt_wake_event) :
    ∀ (n : Nat) (start : Option Nat),
      (∀ a ∈ parent_chain mem n start, mem2 a = mem a) →
      parent_chain mem2 n start = parent_chain mem n start := by
  intro n
  induction n with
  | zero => intro start _; rfl
  | succ n ih =>
    intro start h
    cases start with
    | none => rfl
    | some a =>
      have ha : mem2 a = mem a := h a (by simp [parent_chain])
      show a :: parent_chain mem2 n (mem2 a).parent = a :: parent_chain mem n (mem a).parent
      rw [ha, ih _ (fun b hb => h b (by simp [parent_chain, hb]))]

theorem report_all_chain (K : SpmConsts) :
    ∀ (l : List (Nat × Int)) (s : SpmState) (c0 : List Nat),
      (∀ n, c0.length < n → parent_chain s.mem n s.mt_wake_event_comm = c0) →
      (∀ a ∈ l.map Prod.fst, a ∉ c0) → (l.map Prod.fst).Nodup →
      ∀ n, c0.length + l.length < n →
        parent_chain (report_all K l s).mem n (report_all K l s).mt_wake_event_comm
          = (l.map Prod.fst).reverse ++ c0 := by
  intro l
  induction l with
  | nil =>
    intro s c0 h0 _ _ n hn
    simpa [report_all] using h0 n (by simpa using hn)
  | cons p l ih =>
    intro s c0 h0 hnot hnd n hn
    have hstep : report_all K (p :: l) s
        = report_all K l (spm_report_wakeup_event K p.1 p.2 s) := rfl
    rw [hstep]
    obtain ⟨hcomm, hmem, _⟩ := report_wakeup_event_registry K p.1 p.2 s
    have hp : p.1 ∉ c0 := hnot p.1 (List.mem_cons_self _ _)
    have hnd2 : p.1 ∉ l.map Prod.fst ∧ (l.map Prod.fst).Nodup := List.nodup_cons.mp hnd
    have h1 : ∀ m, (p.1 :: c0).length < m →
        parent_chain (spm_report_wakeup_event K p.1 p.2 s).mem m
          (spm_report_wakeup_event K p.1 p.2 s).mt_wake_event_comm = p.1 :: c0 := by
      intro m hm
      cases m with
      | zero => simp at hm
      | succ m =>
        rw [hcomm]
        show p.1 :: parent_chain _ m ((spm_report_wakeup_event K p.1 p.2 s).mem p.1).parent = _
        rw [hmem]
        simp only []
        have hm2 : c0.length < m := by simpa using hm
        rw [parent_chain_congr s.mem _ m s.mt_wake_event_comm (by
          intro a ha
          rw [h0 m hm2] at ha
          exact report_wakeup_event_other K p.1 p.2 s a (fun h => hp (h ▸ ha)))]
        rw [h0 m hm2]
    have h2 := ih (spm_report_wakeup_event K p.1 p.2 s) (p.1 :: c0) h1
      (by
        intro a ha hin
        rcases List.mem_cons.mp hin with h | h
        · exact hnd2.1 (h ▸ ha)
        · exact hnot a (List.mem_cons_of_mem _ ha) h)
      hnd2.2 n (by simp at hn ⊢; omega)
    rw [h2]
    simp

/-- C30: reporting a record `A` that is already the active record leaves `A`
active with `A.parent = A`, so the parent chain from the active record never
ends (it yields `A` at every step); whereas reports of pairwise distinct
records, starting from an empty registry, leave a chain that lists the records
in reverse report order and then ends. -/
theorem parent_chain_shape (K : SpmConsts) :
    (∀ (A : Nat) (c : Int) (s : SpmState), s.mt_wake_event_comm = some A →
      spm_get_wakeup_event (spm_report_wakeup_event K A c s) = some A ∧
      ((spm_report_wakeup_event K A c s).mem A).parent = some A ∧
      ∀ n, parent_chain (spm_report_wakeup_event K A c s).mem n
        (spm_get_wakeup_event (spm_report_wakeup_event K A c s)) = List.replicate n A) ∧
    (∀ (l : List (Nat × Int)) (s : SpmState), s.mt_wake_event_comm = none →
      (l.map Prod.fst).Nodup →
      ∀ n, l.length < n →
        parent_chain (report_all K l s).mem n (spm_get_wakeup_event (report_all K l s))
          = (l.map Prod.fst).reverse) := by
  constructor
  · intro A c s hs
    obtain ⟨hcomm, hmem, _⟩ := report_wakeup_event_registry K A c s
    have hpar : ((spm_report_wakeup_event K A c s).mem A).parent = some A := by
      rw [hmem, hs]
    refine ⟨hcomm, hpar, ?_⟩
    intro n
    unfold spm_get_wakeup_event
    rw [hcomm]
    induction n with
    | zero => rfl
    | succ n ih =>
      show A :: parent_chain _ n ((spm_report_wakeup_event K A c s).mem A).parent = _
      rw [hpar, ih]
      rfl
  · intro l s hs hnd n hn
    have h := report_all_chain K l s [] (by
      intro m _
      rw [hs]
      cases m <;> rfl) (by simp) hnd n (by simpa using hn)
    simpa [spm_get_wakeup_event] using h

theorem parent_chain_shape_witness :
    (spm_report_wakeup_event sampleConsts 7 1 (spm_boot sampleConsts fun _ => 0)).mt_wake_event_comm
      = some 7 ∧
    parent_chain
      (spm_report_wakeup_event sampleConsts 7 2
        (spm_report_wakeup_event sampleConsts 7 1 (spm_boot sampleConsts fun _ => 0))).mem 5
      (spm_get_wakeup_event (spm_report_wakeup_event sampleConsts 7 2
        (spm_report_wakeup_event sampleConsts 7 1 (spm_boot sampleConsts fun _ => 0))))
      = [7, 7, 7, 7, 7] ∧
    parent_chain (report_all sampleConsts [(7, 1), (8, 2), (9, 3)]
        (spm_boot sampleConsts fun _ => 0)).mem 5
      (spm_get_wakeup_event (report_all sampleConsts [(7, 1), (8, 2), (9, 3)]
        (spm_boot sampleConsts fun _ => 0)))
      = [9, 8, 7] :=
  ⟨rfl,
   ((parent_chain_shape sampleConsts).1 7 2
      (spm_report_wakeup_event sampleConsts 7 1 (spm_boot sampleConsts fun _ => 0)) rfl).2.2 5,
   (parent_chain_shape sampleConsts).2 [(7, 1), (8, 2), (9, 3)]
      (spm_boot sampleConsts fun _ => 0) rfl (by decide) 5 (by decide)⟩

/-! ## C23, C24: quiescing the UART, cleaning up after wake-up -/

theorem u32_or (a b : Nat) : u32 (a ||| b) = u32 a ||| u32 b := by
  apply Nat.eq_of_testBit_eq
  intro i
  simp only [u32, Nat.testBit_or, Nat.testBit_mod_two_pow]
  cases decide (i < 32) <;> simp

theorem u32_and_not32 (a m : Nat) : u32 (u32 a &&& not32 m) = u32 a &&& not32 m :=
  u32_of_lt _ (lt_of_le_of_lt Nat.and_le_right (not32_lt m))

theorem and_and_eq_zero (a p q : Nat) (h : p &&& q = 0) : (a &&& p) &&& q = 0 := by
  apply Nat.eq_of_testBit_eq
  intro i
  have h1 := congrArg (fun n => n.testBit i) h
  simp only [Nat.testBit_and, Nat.zero_testBit] at h1 ⊢
  cases a.testBit i <;> cases hp : p.testBit i <;> cases hq : q.testBit i <;> simp_all

theorem or_and_of_disjoint (x k p : Nat) (hk : k &&& p = 0) : (k ||| x) &&& p = x &&& p := by
  apply Nat.eq_of_testBit_eq
  intro i
  have h1 := congrArg (fun n => n.testBit i) hk
  simp only [Nat.testBit_and, Nat.testBit_or, Nat.zero_testBit] at h1 ⊢
  cases x.testBit i <;> cases hkk : k.testBit i <;> cases hp : p.testBit i <;> simp_all

theorem and_not32_and_of_disjoint (x m p : Nat) (hm : m &&& p = 0) (hp : p < 2 ^ 32) :
    (x &&& not32 m) &&& p = x &&& p := by
  apply Nat.eq_of_testBit_eq
  intro i
  have h1 := congrArg (fun n => n.testBit i) hm
  have h2 : i ≥ 32 → p.testBit i = false := fun hi =>
    Nat.testBit_lt_two_pow (lt_of_lt_of_le hp (Nat.pow_le_pow_right (by norm_num) hi))
  simp only [not32, Nat.testBit_and, Nat.testBit_xor, Nat.testBit_two_pow_sub_one,
    Nat.testBit_mod_two_pow, Nat.zero_testBit] at h1 ⊢
  by_cases hi : i < 32
  · cases x.testBit i <;> cases hmm : m.testBit i <;> cases hpp : p.testBit i <;> simp_all
  · rw [h2 (by omega)]
    simp

theorem u32_and (a p : Nat) : u32 a &&& u32 p = u32 (a &&& p) := by
  apply Nat.eq_of_testBit_eq
  intro i
  simp only [u32, Nat.testBit_and, Nat.testBit_mod_two_pow]
  cases decide (i < 32) <;> simp

/-- C24: after `spm_clean_after_wakeup`, `SPM_SLEEP_WAKEUP_EVENT_MASK` holds the
complement of `WAKE_SRC_THERM`, `SPM_SLEEP_CPU_WAKEUP_EVENT` and
`SPM_PCM_PWR_IO_EN` hold 0, `SPM_POWER_ON_VAL1` is its prior value with
`R7_UART_CLK_OFF_REQ` cleared, `CON1_PCM_TIMER_EN` is clear in `SPM_PCM_CON1`,
`CON1_PCM_WDT_EN` is clear there when `pcmwdt_en` is true in a build with
`SPM_PCMWDT_EN` and as before otherwise (so also when `pcmwdt_en` is false),
and the `ISR_TWAM` bit of `SPM_SLEEP_ISR_MASK` is as before.  The fields
`CON1_CFG_KEY`, `CON1_PCM_TIMER_EN`, `CON1_PCM_WDT_EN` are taken to be pairwise
disjoint 32-bit fields and `ISRM_ALL_EXC_TWAM` to exclude `ISR_TWAM`. -/
theorem clean_after_wakeup_regs (K : SpmConsts) (pcmwdt_en : Bool) (s : SpmState)
    (hKT : K.CON1_CFG_KEY &&& K.CON1_PCM_TIMER_EN = 0)
    (hKW : K.CON1_CFG_KEY &&& K.CON1_PCM_WDT_EN = 0)
    (hTW : K.CON1_PCM_TIMER_EN &&& K.CON1_PCM_WDT_EN = 0)
    (hW32 : K.CON1_PCM_WDT_EN < 2 ^ 32)
    (hIT : K.ISRM_ALL_EXC_TWAM &&& K.ISR_TWAM = 0) :
    (spm_clean_after_wakeup K pcmwdt_en s).regs Reg.SPM_SLEEP_WAKEUP_EVENT_MASK
      = not32 K.WAKE_SRC_THERM ∧
    (spm_clean_after_wakeup K pcmwdt_en s).regs Reg.SPM_SLEEP_CPU_WAKEUP_EVENT = 0 ∧
    (spm_clean_after_wakeup K pcmwdt_en s).regs Reg.SPM_PCM_PWR_IO_EN = 0 ∧
    (spm_clean_after_wakeup K pcmwdt_en s).regs Reg.SPM_POWER_ON_VAL1
      = u32 (s.regs Reg.SPM_POWER_ON_VAL1) &&& not32 K.R7_UART_CLK_OFF_REQ ∧
    (spm_clean_after_wakeup K pcmwdt_en s).regs Reg.SPM_PCM_CON1 &&& K.CON1_PCM_TIMER_EN = 0 ∧
    ((SPM_PCMWDT_EN K && pcmwdt_en) = true →
      (spm_clean_after_wakeup K pcmwdt_en s).regs Reg.SPM_PCM_CON1 &&& K.CON1_PCM_WDT_EN = 0) ∧
    ((SPM_PCMWDT_EN K && pcmwdt_en) = false →
      (spm_clean_after_wakeup K pcmwdt_en s).regs Reg.SPM_PCM_CON1 &&& K.CON1_PCM_WDT_EN
        = u32 (s.regs Reg.SPM_PCM_CON1) &&& K.CON1_PCM_WDT_EN) ∧
    (SPM_PCMWDT_EN K = !K.CONFIG_MTK_LDVT) ∧
    (spm_clean_after_wakeup K pcmwdt_en s).regs Reg.SPM_SLEEP_ISR_MASK &&& K.ISR_TWAM
      = u32 (s.regs Reg.SPM_SLEEP_ISR_MASK) &&& K.ISR_TWAM := by
  by_cases hc : (SPM_PCMWDT_EN K && pcmwdt_en) = true
  · simp only [spm_clean_after_wakeup, spm_read, spm_write, emit, hc, if_false, reduceCtorEq,
      if_true]
    refine ⟨u32_of_lt _ (not32_lt _), rfl, rfl, u32_and_not32 _ _, ?_, ?_, ?_, rfl, ?_⟩
    · exact u32_and_eq_zero _ _ (or_and_eq_zero _ _ _ hKT (and_not32_self _ _))
    · intro _
      rw [← u32_of_lt _ hW32, u32_and, or_and_of_disjoint _ _ _ hKW,
        and_not32_and_of_disjoint _ _ _ hTW hW32, u32_u32, ← u32_and, u32_u32, u32_of_lt _ hW32]
      exact u32_and_eq_zero _ _ (or_and_eq_zero _ _ _ hKW (and_not32_self _ _))
    · intro h; exact absurd h (by simp)
    · rw [u32_or, u32_u32, Nat.or_comm,
        or_and_of_disjoint _ _ _ (u32_and_eq_zero _ _ hIT)]
  · simp only [spm_clean_after_wakeup, spm_read, spm_write, emit, hc, Bool.false_eq_true,
      if_false, reduceCtorEq, if_true]
    refine ⟨u32_of_lt _ (not32_lt _), rfl, rfl, u32_and_not32 _ _, ?_, ?_, ?_, rfl, ?_⟩
    · exact u32_and_eq_zero _ _ (or_and_eq_zero _ _ _ hKT (and_not32_self _ _))
    · intro h; exact h.elim
    · intro _
      rw [← u32_of_lt _ hW32, u32_and, or_and_of_disjoint _ _ _ hKW,
        and_not32_and_of_disjoint _ _ _ hTW hW32, ← u32_and, u32_u32]
    · rw [u32_or, u32_u32, Nat.or_comm,
        or_and_of_disjoint _ _ _ (u32_and_eq_zero _ _ hIT)]

theorem clean_after_wakeup_regs_witness :
    (spm_clean_after_wakeup sampleConsts true
        (spm_boot sampleConsts fun _ => 0xffffffff)).regs Reg.SPM_SLEEP_WAKEUP_EVENT_MASK
      = not32 (1 <<< 21) ∧
    (spm_clean_after_wakeup sampleConsts true
        (spm_boot sampleConsts fun _ => 0xffffffff)).regs Reg.SPM_POWER_ON_VAL1 = 0xfffffffe :=
  ⟨(clean_after_wakeup_regs sampleConsts true (spm_boot sampleConsts fun _ => 0xffffffff)
      (by decide) (by decide) (by decide) (by decide) (by decide)).1,
   ((clean_after_wakeup_regs sampleConsts true (spm_boot sampleConsts fun _ => 0xffffffff)
      (by decide) (by decide) (by decide) (by decide) (by decide)).2.2.2.1).trans
      (by decide)⟩

theorem wait_uart_ack_bounds (K : SpmConsts) (hw : Hw) (val1 : Nat) :
    ∀ (budget : Nat) (s : SpmState),
      ∃ evs, (wait_uart_ack K hw val1 budget s).2.trace = s.trace ++ evs ∧
        (evs.filter is_uart_poll).length ≤ budget + 1 ∧
        (evs.filter is_uart_delay).length ≤ budget := by
  intro budget
  induction budget with
  | zero =>
    intro s
    unfold wait_uart_ack
    simp only [spm_read_uart_ack, spm_read, spm_write, emit]
    split
    · exact ⟨_, rfl, by simp [is_uart_poll], by simp [is_uart_delay]⟩
    · exact ⟨_, by simp only [List.append_assoc]; rfl, by simp [is_uart_poll],
        by simp [is_uart_delay]⟩
  | succ n ih =>
    intro s
    unfold wait_uart_ack
    simp only [spm_read_uart_ack]
    split
    · exact ⟨_, rfl, by simp [is_uart_poll], by simp [is_uart_delay]⟩
    · obtain ⟨evs, ht, hp, hd⟩ := ih (emit (Ev.udelay 10)
        { s with
          regs := fun x => if x = Reg.SPM_PCM_REG13_DATA
            then u32 (hw.uart_ack (WAIT_UART_ACK_TIMES - (n + 1))) else s.regs x
          trace := s.trace ++ [Ev.spm_read Reg.SPM_PCM_REG13_DATA
            (u32 (hw.uart_ack (WAIT_UART_ACK_TIMES - (n + 1))))] })
      refine ⟨Ev.spm_read Reg.SPM_PCM_REG13_DATA
        (u32 (hw.uart_ack (WAIT_UART_ACK_TIMES - (n + 1)))) :: Ev.udelay 10 :: evs, ?_, ?_, ?_⟩
      · rw [ht]
        simp [emit]
      · simp [is_uart_poll, List.filter_cons]
        omega
      · simp [is_uart_delay, is_uart_poll, List.filter_cons]
        omega

theorem wait_uart_ack_acked (K : SpmConsts) (hw : Hw) (val1 : Nat) :
    ∀ (budget : Nat) (s : SpmState), budget ≤ WAIT_UART_ACK_TIMES →
      (∃ i, WAIT_UART_ACK_TIMES - budget ≤ i ∧ i ≤ WAIT_UART_ACK_TIMES ∧
        u32 (hw.uart_ack i) &&& K.R13_UART_CLK_OFF_ACK ≠ 0) →
      (wait_uart_ack K hw val1 budget s).2.regs Reg.SPM_POWER_ON_VAL1
        = s.regs Reg.SPM_POWER_ON_VAL1 := by
  intro budget
  induction budget with
  | zero =>
    intro s _ ⟨i, h1, h2, h3⟩
    have hi : i = WAIT_UART_ACK_TIMES - 0 := by omega
    subst hi
    simp only [wait_uart_ack, spm_read_uart_ack, h3, ne_eq, not_false_eq_true, if_true,
      reduceCtorEq, if_false]
  | succ n ih =>
    intro s hb ⟨i, h1, h2, h3⟩
    unfold wait_uart_ack
    simp only [spm_read_uart_ack]
    by_cases hc : u32 (hw.uart_ack (WAIT_UART_ACK_TIMES - (n + 1))) &&& K.R13_UART_CLK_OFF_ACK ≠ 0
    · simp only [hc, ne_eq, not_false_eq_true, if_true, reduceCtorEq, if_false]
    · simp only [hc, ne_eq, if_false]
      rw [ih _ (by omega) ⟨i, by
        rcases Nat.eq_or_lt_of_le h1 with h | h
        · subst h; exact absurd h3 hc
        · omega, h2, h3⟩]
      simp only [emit, reduceCtorEq, if_false]

theorem wait_uart_ack_never (K : SpmConsts) (hw : Hw) (hn : uart_never_acks K hw) (val1 : Nat) :
    ∀ (budget : Nat) (s : SpmState), budget ≤ WAIT_UART_ACK_TIMES →
      ∃ evs, (wait_uart_ack K hw val1 budget s).2.trace = s.trace ++ evs ∧
        (evs.filter is_uart_poll).length = budget + 1 ∧
        (evs.filter is_uart_delay).length = budget ∧
        writes_to Reg.SPM_POWER_ON_VAL1 evs = [u32 val1] ∧
        (wait_uart_ack K hw val1 budget s).2.regs Reg.SPM_POWER_ON_VAL1 = u32 val1 := by
  intro budget
  induction budget with
  | zero =>
    intro s _
    have h0 := hn (WAIT_UART_ACK_TIMES - 0) (Nat.sub_le _ _)
    simp only [wait_uart_ack, spm_read_uart_ack, h0, ne_eq, not_true_eq_false, if_false,
      spm_read, spm_write, emit, reduceCtorEq, if_true]
    exact ⟨_, by simp only [List.append_assoc]; rfl, by simp [is_uart_poll],
      by simp [is_uart_delay], by simp [writes_to], trivial⟩
  | succ n ih =>
    intro s hb
    have h0 := hn (WAIT_UART_ACK_TIMES - (n + 1)) (Nat.sub_le _ _)
    unfold wait_uart_ack
    simp only [spm_read_uart_ack, h0, ne_eq, not_true_eq_false, if_false]
    obtain ⟨evs, ht, hp, hd, hw1, hr⟩ := ih (emit (Ev.udelay 10)
        { s with
          regs := fun x => if x = Reg.SPM_PCM_REG13_DATA
            then u32 (hw.uart_ack (WAIT_UART_ACK_TIMES - (n + 1))) else s.regs x
          trace := s.trace ++ [Ev.spm_read Reg.SPM_PCM_REG13_DATA
            (u32 (hw.uart_ack (WAIT_UART_ACK_TIMES - (n + 1))))] }) (by omega)
    refine ⟨Ev.spm_read Reg.SPM_PCM_REG13_DATA
        (u32 (hw.uart_ack (WAIT_UART_ACK_TIMES - (n + 1)))) :: Ev.udelay 10 :: evs, ?_, ?_, ?_, ?_, hr⟩
    · rw [ht]
      simp [emit]
    · simp [is_uart_poll, List.filter_cons, hp]
    · simp [is_uart_delay, is_uart_poll, List.filter_cons, hd]
    · simpa [writes_to] using hw1

/-- C23: `spm_request_uart_to_sleep` polls `SPM_PCM_REG13_DATA` at most
`WAIT_UART_ACK_TIMES + 1 = 11` times with at most 10 delays `udelay(10)`,
whatever the acknowledge bit does.  When the bit is seen on one of the 11 polls
the result is 0 and `SPM_POWER_ON_VAL1` holds the value read at entry with
`R7_UART_CLK_OFF_REQ` or-ed in; when it is clear on all 11 polls the result is
`-EBUSY` after exactly 11 polls and 10 delays, and `SPM_POWER_ON_VAL1` was
written twice, last with the value read at entry, which it holds. -/
theorem request_uart_to_sleep_bounded (K : SpmConsts) (hw : Hw) (s : SpmState) :
    ((events_since s (spm_request_uart_to_sleep K hw s).2).filter is_uart_poll).length
      ≤ WAIT_UART_ACK_TIMES + 1 ∧
    WAIT_UART_ACK_TIMES + 1 = 11 ∧
    ((events_since s (spm_request_uart_to_sleep K hw s).2).filter is_uart_delay).length ≤ 10 ∧
    (uart_acks K hw →
      (spm_request_uart_to_sleep K hw s).1 = 0 ∧
      (spm_request_uart_to_sleep K hw s).2.regs Reg.SPM_POWER_ON_VAL1
        = u32 (u32 (s.regs Reg.SPM_POWER_ON_VAL1) ||| K.R7_UART_CLK_OFF_REQ)) ∧
    (uart_never_acks K hw →
      (spm_request_uart_to_sleep K hw s).1 = -K.EBUSY ∧
      ((events_since s (spm_request_uart_to_sleep K hw s).2).filter is_uart_poll).length = 11 ∧
      ((events_since s (spm_request_uart_to_sleep K hw s).2).filter is_uart_delay).length = 10 ∧
      writes_to Reg.SPM_POWER_ON_VAL1 (events_since s (spm_request_uart_to_sleep K hw s).2)
        = [u32 (u32 (s.regs Reg.SPM_POWER_ON_VAL1) ||| K.R7_UART_CLK_OFF_REQ),
           u32 (s.regs Reg.SPM_POWER_ON_VAL1)] ∧
      (spm_request_uart_to_sleep K hw s).2.regs Reg.SPM_POWER_ON_VAL1
        = u32 (s.regs Reg.SPM_POWER_ON_VAL1)) := by
  unfold spm_request_uart_to_sleep
  simp only [spm_read]
  generalize hs1 : spm_write Reg.SPM_POWER_ON_VAL1 _ _ = s1
  have ht1 : s1.trace = s.trace ++ [Ev.spm_read Reg.SPM_POWER_ON_VAL1
      (u32 (s.regs Reg.SPM_POWER_ON_VAL1)),
      Ev.spm_write Reg.SPM_POWER_ON_VAL1
        (u32 (u32 (s.regs Reg.SPM_POWER_ON_VAL1) ||| K.R7_UART_CLK_OFF_REQ))] := by
    rw [← hs1]
    simp [spm_write, emit]
  have hr1 : s1.regs Reg.SPM_POWER_ON_VAL1
      = u32 (u32 (s.regs Reg.SPM_POWER_ON_VAL1) ||| K.R7_UART_CLK_OFF_REQ) := by
    rw [← hs1]
    simp [spm_write, emit]
  obtain ⟨evs, hte, hp, hd⟩ := wait_uart_ack_bounds K hw (u32 (s.regs Reg.SPM_POWER_ON_VAL1))
    WAIT_UART_ACK_TIMES s1
  have hev := events_since_append s _ ([Ev.spm_read Reg.SPM_POWER_ON_VAL1 (u32 (s.regs Reg.SPM_POWER_ON_VAL1)),
      Ev.spm_write Reg.SPM_POWER_ON_VAL1
        (u32 (u32 (s.regs Reg.SPM_POWER_ON_VAL1) ||| K.R7_UART_CLK_OFF_REQ))] ++ evs) (by rw [hte, ht1, List.append_assoc])
  refine ⟨?_, rfl, ?_, ?_, ?_⟩
  · rw [hev]
    simpa [is_uart_poll] using hp
  · rw [hev]
    simpa [is_uart_delay, WAIT_UART_ACK_TIMES] using hd
  · intro ha
    obtain ⟨i, hi, hack⟩ := ha
    refine ⟨wait_uart_ack_ok K hw _ _ _ (Nat.le_refl _) ⟨i, by omega, hi, hack⟩, ?_⟩
    rw [wait_uart_ack_acked K hw _ _ _ (Nat.le_refl _) ⟨i, by omega, hi, hack⟩, hr1]
  · intro hn
    obtain ⟨evs2, hte2, hp2, hd2, hw2, hr2⟩ := wait_uart_ack_never K hw hn
      (u32 (s.regs Reg.SPM_POWER_ON_VAL1)) WAIT_UART_ACK_TIMES s1 (Nat.le_refl _)
    have hev2 := events_since_append s _ ([Ev.spm_read Reg.SPM_POWER_ON_VAL1 (u32 (s.regs Reg.SPM_POWER_ON_VAL1)),
      Ev.spm_write Reg.SPM_POWER_ON_VAL1
        (u32 (u32 (s.regs Reg.SPM_POWER_ON_VAL1) ||| K.R7_UART_CLK_OFF_REQ))] ++ evs2) (by rw [hte2, ht1, List.append_assoc])
    refine ⟨(wait_uart_ack_busy K hw hn _ _ _ (Nat.le_refl _)).1, ?_, ?_, ?_, ?_⟩
    · rw [hev2]
      simpa [is_uart_poll, WAIT_UART_ACK_TIMES] using hp2
    · rw [hev2]
      simpa [is_uart_delay, WAIT_UART_ACK_TIMES] using hd2
    · rw [hev2, writes_to_append, hw2, u32_u32]
      simp [writes_to]
    · rw [hr2, u32_u32]

theorem request_uart_to_sleep_bounded_witness :
    uart_never_acks sampleConsts (sampleHw (fun _ => false) sampleWoken) ∧
    (spm_request_uart_to_sleep sampleConsts (sampleHw (fun _ => false) sampleWoken)
      (spm_boot sampleConsts fun _ => 6)).1 = -16 ∧
    writes_to Reg.SPM_POWER_ON_VAL1 (events_since (spm_boot sampleConsts fun _ => 6)
      (spm_request_uart_to_sleep sampleConsts (sampleHw (fun _ => false) sampleWoken)
        (spm_boot sampleConsts fun _ => 6)).2) = [7, 6] := by
  have hn : uart_never_acks sampleConsts (sampleHw (fun _ => false) sampleWoken) := by
    simp [uart_never_acks, sampleHw, u32]
  have h := (request_uart_to_sleep_bounded sampleConsts (sampleHw (fun _ => false) sampleWoken)
    (spm_boot sampleConsts fun _ => 6)).2.2.2.2 hn
  exact ⟨hn, h.1, h.2.2.2.1.trans (by decide)⟩

/-! ## C22: the kick pulses -/

theorem writes_to_keep (keep : Ev → Bool) (r : Reg) (h : ∀ v, keep (Ev.spm_write r v) = true) :
    ∀ evs : List Ev, writes_to r (evs.filter keep) = writes_to r evs := by
  intro evs
  induction evs with
  | nil => rfl
  | cons e t ih =>
    have hc : writes_to r (e :: t) = writes_to r [e] ++ writes_to r t :=
      writes_to_append r [e] t
    by_cases he : keep e = true
    · rw [List.filter_cons_of_pos he, hc, ← ih]
      exact writes_to_append r [e] _
    · rw [List.filter_cons_of_neg he, hc, ih]
      have : writes_to r [e] = [] := by
        cases e with
        | spm_write r2 v =>
          by_cases hr : r2 = r
          · subst hr
            exact absurd (h v) he
          · simp [writes_to, hr]
        | _ => rfl
      rw [this]
      rfl

theorem kick_pulse_con0 (K : SpmConsts) (kick : Nat) (s : SpmState) :
    Tracked con0_write s (kick_pulse K kick s)
      [Ev.spm_write Reg.SPM_PCM_CON0
         (u32 (u32 (s.regs Reg.SPM_PCM_CON0) &&& not32 (K.CON0_IM_KICK ||| K.CON0_PCM_KICK) |||
           K.CON0_CFG_KEY ||| kick)),
       Ev.spm_write Reg.SPM_PCM_CON0
         (u32 (u32 (s.regs Reg.SPM_PCM_CON0) &&& not32 (K.CON0_IM_KICK ||| K.CON0_PCM_KICK) |||
           K.CON0_CFG_KEY))] ∧
    (kick_pulse K kick s).regs Reg.SPM_PCM_CON0
      = u32 (u32 (s.regs Reg.SPM_PCM_CON0) &&& not32 (K.CON0_IM_KICK ||| K.CON0_PCM_KICK) |||
          K.CON0_CFG_KEY) := by
  simp only [kick_pulse, spm_read, spm_write, emit, if_true]
  exact ⟨⟨_, by simp only [List.append_assoc]; rfl, by rfl⟩, trivial⟩

theorem kick_im_to_fetch_shape (K : SpmConsts) (pcmdesc : pcm_desc_t) (s : SpmState) :
    ∃ sX, spm_kick_im_to_fetch K pcmdesc s = kick_pulse K K.CON0_IM_KICK sX ∧
      Tracked con0_write s sX [] := by
  unfold spm_kick_im_to_fetch
  refine ⟨_, rfl, ?_⟩
  simp only [spm_read, spm_write, emit]
  split
  · exact ⟨_, by simp only [List.append_assoc]; rfl, by rfl⟩
  · split
    · exact ⟨_, by simp only [List.append_assoc]; rfl, by rfl⟩
    · split
      · exact ⟨_, by simp only [List.append_assoc]; rfl, by rfl⟩
      · exact ⟨_, by simp only [List.append_assoc]; rfl, by rfl⟩

theorem ite_outcome {α : Type} {c : Prop} [Decidable c] (a b : Outcome α)
    (P : Outcome α → Prop) (ha : P a) (hb : P b) : P (if c then a else b) := by
  split <;> assumption

theorem kick_pcm_to_run_shape (K : SpmConsts) (cpu_pdn infra_pdn pcmwdt_en : Bool)
    (s : SpmState) :
    (∃ sX, spm_kick_pcm_to_run K cpu_pdn infra_pdn pcmwdt_en s
        = Outcome.ret () (kick_pulse K K.CON0_PCM_KICK sX) ∧ Tracked con0_write s sX []) ∨
    (∃ sB, spm_kick_pcm_to_run K cpu_pdn infra_pdn pcmwdt_en s = Outcome.bug sB ∧
      Tracked con0_write s sB []) := by
  unfold spm_kick_pcm_to_run
  simp only [spm_read]
  by_cases hc : (SPM_PCMWDT_EN K && pcmwdt_en) = true
  · simp only [hc, if_true]
    refine ite_outcome _ _ (fun o => (∃ sX, o = Outcome.ret () (kick_pulse K K.CON0_PCM_KICK sX) ∧
      Tracked con0_write s sX []) ∨ (∃ sB, o = Outcome.bug sB ∧ Tracked con0_write s sB []))
      ?_ ?_
    · exact Or.inr ⟨_, rfl, _, by simp only [trace_write, trace_emit, List.append_assoc]; rfl,
        by rfl⟩
    · exact Or.inl ⟨_, rfl, _, by simp only [trace_write, trace_emit, List.append_assoc]; rfl,
        by rfl⟩
  · simp only [hc, Bool.false_eq_true, if_false]
    exact Or.inl ⟨_, rfl, _, by simp only [trace_write, trace_emit, List.append_assoc]; rfl,
      by rfl⟩

theorem pulse_bits (K : SpmConsts) (hKI : K.CON0_CFG_KEY &&& K.CON0_IM_KICK = 0)
    (hKP : K.CON0_CFG_KEY &&& K.CON0_PCM_KICK = 0) (v : Nat) :
    u32 (v &&& not32 (K.CON0_IM_KICK ||| K.CON0_PCM_KICK) ||| K.CON0_CFG_KEY)
        &&& K.CON0_IM_KICK = 0 ∧
    u32 (v &&& not32 (K.CON0_IM_KICK ||| K.CON0_PCM_KICK) ||| K.CON0_CFG_KEY)
        &&& K.CON0_PCM_KICK = 0 := by
  constructor
  · refine u32_and_eq_zero _ _ (or_and_eq_zero _ _ _ ?_ hKI)
    have h : (v &&& not32 (K.CON0_IM_KICK ||| K.CON0_PCM_KICK)) &&&
        (K.CON0_PCM_KICK ||| K.CON0_IM_KICK) = 0 := by
      rw [Nat.lor_comm K.CON0_PCM_KICK]
      exact and_not32_self _ _
    exact and_eq_zero_of_or _ _ _ h
  · refine u32_and_eq_zero _ _ (or_and_eq_zero _ _ _ ?_ hKP)
    exact and_eq_zero_of_or _ _ _ (and_not32_self v (K.CON0_IM_KICK ||| K.CON0_PCM_KICK))

theorem pulse_of_tracked (K : SpmConsts) (hKI : K.CON0_CFG_KEY &&& K.CON0_IM_KICK = 0)
    (hKP : K.CON0_CFG_KEY &&& K.CON0_PCM_KICK = 0)
    (hIP : K.CON0_IM_KICK &&& K.CON0_PCM_KICK = 0)
    (kick other : Nat) (hk : kick < 2 ^ 32)
    (hko : (kick = K.CON0_IM_KICK ∧ other = K.CON0_PCM_KICK) ∨
      (kick = K.CON0_PCM_KICK ∧ other = K.CON0_IM_KICK))
    (s sX : SpmState) (hX : Tracked con0_write s sX []) :
    is_pulse (writes_to Reg.SPM_PCM_CON0 (events_since s (kick_pulse K kick sX))) kick other
      ((kick_pulse K kick sX).regs Reg.SPM_PCM_CON0) := by
  obtain ⟨ht, hr⟩ := kick_pulse_con0 K kick sX
  have hev := (hX.nil ht).since
  have hw := writes_to_keep con0_write Reg.SPM_PCM_CON0 (fun _ => rfl)
    (events_since s (kick_pulse K kick sX))
  rw [hev] at hw
  obtain ⟨b1, b2⟩ := pulse_bits K hKI hKP (u32 (sX.regs Reg.SPM_PCM_CON0))
  have hko2 : kick &&& other = 0 := by
    rcases hko with ⟨h1, h2⟩ | ⟨h1, h2⟩
    · rw [h1, h2]; exact hIP
    · rw [h1, h2, Nat.land_comm]; exact hIP
  have hbk : u32 (u32 (sX.regs Reg.SPM_PCM_CON0) &&&
      not32 (K.CON0_IM_KICK ||| K.CON0_PCM_KICK) ||| K.CON0_CFG_KEY) &&& kick = 0 := by
    rcases hko with ⟨h1, _⟩ | ⟨h1, _⟩ <;> rw [h1] <;> assumption
  have hbo : u32 (u32 (sX.regs Reg.SPM_PCM_CON0) &&&
      not32 (K.CON0_IM_KICK ||| K.CON0_PCM_KICK) ||| K.CON0_CFG_KEY) &&& other = 0 := by
    rcases hko with ⟨_, h2⟩ | ⟨_, h2⟩ <;> rw [h2] <;> assumption
  refine ⟨_, ?_, hbk, hbo, ?_, or_and_eq_zero _ _ _ hbo hko2, hr⟩
  · rw [← hw]
    simp only [writes_to, List.filterMap_cons, List.filterMap_nil, if_true]
    rw [u32_or _ kick, u32_of_lt kick hk]
  · apply Nat.eq_of_testBit_eq
    intro i
    simp only [Nat.testBit_and, Nat.testBit_or]
    cases kick.testBit i <;> simp

/-- C22: with `CON0_CFG_KEY`, `CON0_IM_KICK` and `CON0_PCM_KICK` pairwise
disjoint 32-bit fields, whatever `SPM_PCM_CON0` held before:
`spm_kick_im_to_fetch` writes `SPM_PCM_CON0` exactly twice, first a value with
`CON0_IM_KICK` set and `CON0_PCM_KICK` clear, then the same value with
`CON0_IM_KICK` cleared, which the register keeps; `spm_kick_pcm_to_run`, when
it returns, does the same with `CON0_PCM_KICK`; when it stops in `BUG_ON`
instead it has not written `SPM_PCM_CON0`; and it returns unless the watchdog
is armed with a timer value above `PCM_TIMER_MAX_FOR_WDT`. -/
theorem kick_pulses (K : SpmConsts) (hKI : K.CON0_CFG_KEY &&& K.CON0_IM_KICK = 0)
    (hKP : K.CON0_CFG_KEY &&& K.CON0_PCM_KICK = 0)
    (hIP : K.CON0_IM_KICK &&& K.CON0_PCM_KICK = 0)
    (hI : K.CON0_IM_KICK < 2 ^ 32) (hP : K.CON0_PCM_KICK < 2 ^ 32)
    (pcmdesc : pcm_desc_t) (cpu_pdn infra_pdn pcmwdt_en : Bool) (s : SpmState) :
    is_pulse
      (writes_to Reg.SPM_PCM_CON0 (events_since s (spm_kick_im_to_fetch K pcmdesc s)))
      K.CON0_IM_KICK K.CON0_PCM_KICK
      ((spm_kick_im_to_fetch K pcmdesc s).regs Reg.SPM_PCM_CON0) ∧
    (∀ s2, spm_kick_pcm_to_run K cpu_pdn infra_pdn pcmwdt_en s = Outcome.ret () s2 →
      is_pulse (writes_to Reg.SPM_PCM_CON0 (events_since s s2))
        K.CON0_PCM_KICK K.CON0_IM_KICK (s2.regs Reg.SPM_PCM_CON0)) ∧
    (∀ s2, spm_kick_pcm_to_run K cpu_pdn infra_pdn pcmwdt_en s = Outcome.bug s2 →
      writes_to Reg.SPM_PCM_CON0 (events_since s s2) = []) ∧
    (∀ s2, spm_kick_pcm_to_run K cpu_pdn infra_pdn pcmwdt_en s ≠ Outcome.uninit s2) ∧
    (((SPM_PCMWDT_EN K && pcmwdt_en) = true →
        u32 (s.regs Reg.SPM_PCM_TIMER_VAL) ≤ PCM_TIMER_MAX_FOR_WDT) →
      ∃ s2, spm_kick_pcm_to_run K cpu_pdn infra_pdn pcmwdt_en s = Outcome.ret () s2) := by
  refine ⟨?_, ?_, ?_, ?_, ?_⟩
  · obtain ⟨sX, hX, hT⟩ := kick_im_to_fetch_shape K pcmdesc s
    rw [hX]
    exact pulse_of_tracked K hKI hKP hIP _ _ hI (Or.inl ⟨rfl, rfl⟩) s sX hT
  · intro s2 h2
    rcases kick_pcm_to_run_shape K cpu_pdn infra_pdn pcmwdt_en s with ⟨sX, hX, hT⟩ | ⟨sB, hB, _⟩
    · rw [hX] at h2
      injection h2 with _ h3
      rw [← h3]
      exact pulse_of_tracked K hKI hKP hIP _ _ hP (Or.inr ⟨rfl, rfl⟩) s sX hT
    · rw [hB] at h2
      exact Outcome.noConfusion h2
  · intro s2 h2
    rcases kick_pcm_to_run_shape K cpu_pdn infra_pdn pcmwdt_en s with ⟨sX, hX, _⟩ | ⟨sB, hB, hT⟩
    · rw [hX] at h2
      exact Outcome.noConfusion h2
    · rw [hB] at h2
      injection h2 with h3
      rw [← h3]
      have hw := writes_to_keep con0_write Reg.SPM_PCM_CON0 (fun _ => rfl) (events_since s sB)
      rw [hT.since] at hw
      exact hw.symm
  · intro s2 h2
    rcases kick_pcm_to_run_shape K cpu_pdn infra_pdn pcmwdt_en s with ⟨sX, hX, _⟩ | ⟨sB, hB, _⟩
    · rw [hX] at h2
      exact Outcome.noConfusion h2
    · rw [hB] at h2
      exact Outcome.noConfusion h2
  · intro ht
    obtain ⟨s2, h, _⟩ := kick_pcm_to_run_ret K cpu_pdn infra_pdn pcmwdt_en s ht
    exact ⟨s2, h⟩

theorem kick_pulses_witness :
    is_pulse
      (writes_to Reg.SPM_PCM_CON0 (events_since (spm_boot sampleConsts fun _ => 0xffffffff)
        (spm_kick_im_to_fetch sampleConsts (pcm_suspend sampleConsts)
          (spm_boot sampleConsts fun _ => 0xffffffff))))
      (1 <<< 1) (1 <<< 0)
      ((spm_kick_im_to_fetch sampleConsts (pcm_suspend sampleConsts)
        (spm_boot sampleConsts fun _ => 0xffffffff)).regs Reg.SPM_PCM_CON0) :=
  (kick_pulses sampleConsts (by decide) (by decide) (by decide) (by decide) (by decide)
    (pcm_suspend sampleConsts) true true true (spm_boot sampleConsts fun _ => 0xffffffff)).1

/-! ## Whole-transition traces -/

theorem audited_watched (e : Ev) (h : audited e = true) : watched e = true := by
  simp [watched, h]

theorem irq_call_watched (e : Ev) (h : irq_call e = true) : watched e = true := by
  simp [watched, h]

theorem watched_emit (e : Ev) (s : SpmState) (h : watched e = false) :
    Tracked watched s (emit e s) [] :=
  ⟨[e], rfl, by simp [h]⟩

theorem watched_read (r : Reg) (s : SpmState) : Tracked watched s (spm_read r s).2 [] :=
  ⟨[_], rfl, rfl⟩

theorem watched_set_sysclk_settle (s : SpmState) :
    Tracked watched s (spm_set_sysclk_settle s) [] := by
  exact ⟨_, by simp only [spm_set_sysclk_settle, spm_read, spm_write, emit, List.append_assoc]; rfl, by rfl⟩

theorem watched_reset_and_init_pcm (K : SpmConsts) (s : SpmState) :
    Tracked watched s (spm_reset_and_init_pcm K s) [] := by
  exact ⟨_, by simp only [spm_reset_and_init_pcm, spm_read, spm_write, emit, List.append_assoc]; rfl, by rfl⟩

theorem watched_kick_pulse (K : SpmConsts) (kick : Nat) (s : SpmState) :
    Tracked watched s (kick_pulse K kick s) [] := by
  exact ⟨_, by simp only [kick_pulse, spm_read, spm_write, emit, List.append_assoc]; rfl, by rfl⟩

theorem watched_kick_im_to_fetch (K : SpmConsts) (pcmdesc : pcm_desc_t) (s : SpmState) :
    Tracked watched s (spm_kick_im_to_fetch K pcmdesc s) [] := by
  unfold spm_kick_im_to_fetch
  refine Tracked.nil ?_ (watched_kick_pulse K _ _)
  simp only [spm_read, spm_write, emit]
  split
  · exact ⟨_, by simp only [List.append_assoc]; rfl, by rfl⟩
  · split
    · exact ⟨_, by simp only [List.append_assoc]; rfl, by rfl⟩
    · split
      · exact ⟨_, by simp only [List.append_assoc]; rfl, by rfl⟩
      · exact ⟨_, by simp only [List.append_assoc]; rfl, by rfl⟩

theorem watched_wait_uart_ack (K : SpmConsts) (hw : Hw) (val1 : Nat) :
    ∀ (budget : Nat) (s : SpmState),
      Tracked watched s (wait_uart_ack K hw val1 budget s).2 [] := by
  intro budget
  induction budget with
  | zero =>
    intro s
    unfold wait_uart_ack
    simp only [spm_read_uart_ack, spm_read, spm_write, emit]
    split
    · exact ⟨_, by simp only [List.append_assoc]; rfl, by rfl⟩
    · exact ⟨_, by simp only [List.append_assoc]; rfl, by rfl⟩
  | succ n ih =>
    intro s
    unfold wait_uart_ack
    simp only [spm_read_uart_ack]
    split
    · exact ⟨_, rfl, by rfl⟩
    · refine Tracked.nil ?_ (ih _)
      exact ⟨_, by simp only [emit, List.append_assoc]; rfl, by rfl⟩

theorem watched_request_uart_to_sleep (K : SpmConsts) (hw : Hw) (s : SpmState) :
    Tracked watched s (spm_request_uart_to_sleep K hw s).2 [] := by
  unfold spm_request_uart_to_sleep
  refine Tracked.nil ?_ (watched_wait_uart_ack K hw _ _ _)
  exact ⟨_, by simp only [spm_read, spm_write, emit, List.append_assoc]; rfl, by rfl⟩

theorem watched_init_pcm_register (K : SpmConsts) (s : SpmState) :
    Tracked watched s (spm_init_pcm_register K s) [] := by
  exact ⟨_, by simp only [spm_init_pcm_register, spm_read, spm_write, emit, List.append_assoc]; rfl, by rfl⟩

theorem watched_init_event_vector (pcmdesc : pcm_desc_t) (s : SpmState) :
    Tracked watched s (spm_init_event_vector pcmdesc s) [] := by
  exact ⟨_, by simp only [spm_init_event_vector, spm_read, spm_write, emit, List.append_assoc]; rfl, by rfl⟩

theorem watched_set_pwrctl_for_sleep (s : SpmState) :
    Tracked watched s (spm_set_pwrctl_for_sleep s) [] := by
  exact ⟨_, by simp only [spm_set_pwrctl_for_sleep, set_standby_and_wfi_sel, spm_read, spm_write, emit,
      List.append_assoc]; rfl, by rfl⟩

theorem watched_set_pwrctl_for_dpidle (pwrlevel : Nat) (s : SpmState) :
    Tracked watched s (spm_set_pwrctl_for_dpidle pwrlevel s) [] := by
  exact ⟨_, by simp only [spm_set_pwrctl_for_dpidle, set_standby_and_wfi_sel, spm_read, spm_write, emit,
      List.append_assoc]; rfl, by rfl⟩

theorem watched_set_wakeup_event (K : SpmConsts) (timer_val wake_src : Nat) (s : SpmState) :
    Tracked watched s (spm_set_wakeup_event K timer_val wake_src s)
      [Ev.spm_write Reg.SPM_PCM_TIMER_VAL
         (u32 (if timer_val ≠ 0 then timer_val else PCM_TIMER_MAX_FOR_WDT)),
       Ev.spm_write Reg.SPM_SLEEP_WAKEUP_EVENT_MASK
         (u32 (not32 (if SPM_BYPASS_SYSPWREQ K then wake_src &&& not32 K.WAKE_SRC_SYSPWREQ
                      else wake_src)))] := by
  exact ⟨_, by simp only [spm_set_wakeup_event, spm_read, spm_write, emit, List.append_assoc]; rfl, by rfl⟩

theorem watched_kick_pcm_to_run_quiet (K : SpmConsts) (cpu_pdn infra_pdn : Bool) (s : SpmState) :
    ∃ s2, spm_kick_pcm_to_run K cpu_pdn infra_pdn false s = Outcome.ret () s2 ∧
      Tracked watched s s2 [] := by
  unfold spm_kick_pcm_to_run
  simp only [Bool.and_false, Bool.false_eq_true, if_false]
  exact ⟨_, rfl, _, by simp only [kick_pulse, spm_read, spm_write, emit, List.append_assoc]; rfl,
    by rfl⟩

theorem watched_trigger_wfi (hw : Hw) (cpu_pdn : Bool) (mode : Nat) (s : SpmState) :
    Tracked watched s (trigger_wfi hw cpu_pdn mode s) [] ∧
      (trigger_wfi hw cpu_pdn mode s).regs = hw.wake s.regs := by
  unfold trigger_wfi
  simp only [emit, cpu_sleeps]
  split
  · split
    · exact ⟨⟨_, by simp only [List.append_assoc]; rfl, by rfl⟩, rfl⟩
    · exact ⟨⟨_, by simp only [List.append_assoc]; rfl, by rfl⟩, rfl⟩
  · exact ⟨⟨_, by simp only [List.append_assoc]; rfl, by rfl⟩, rfl⟩

theorem watched_trigger_wfi_for_sleep (K : SpmConsts) (hw : Hw) (cpu_pdn infra_pdn : Bool)
    (s : SpmState) : Tracked watched s (spm_trigger_wfi_for_sleep K hw cpu_pdn infra_pdn s) [] := by
  unfold spm_trigger_wfi_for_sleep
  split
  · exact (watched_trigger_wfi hw cpu_pdn _ s).1.nil (watched_emit _ _ rfl)
  · exact (watched_trigger_wfi hw cpu_pdn _ s).1

theorem watched_get_wakeup_status (s : SpmState) :
    Tracked watched s (spm_get_wakeup_status s).2 [] := by
  exact ⟨_, by simp only [spm_get_wakeup_status, spm_read, spm_write, emit, List.append_assoc]; rfl,
    by rfl⟩

theorem watched_clean_after_wakeup (K : SpmConsts) (pcmwdt_en : Bool) (s : SpmState) :
    Tracked watched s (spm_clean_after_wakeup K pcmwdt_en s)
      [Ev.spm_write Reg.SPM_SLEEP_WAKEUP_EVENT_MASK (u32 (not32 K.WAKE_SRC_THERM))] := by
  unfold spm_clean_after_wakeup
  simp only [spm_read, spm_write, emit]
  by_cases hc : (SPM_PCMWDT_EN K && pcmwdt_en) = true
  · simp only [hc, if_true]
    exact ⟨_, by simp only [List.append_assoc]; rfl, by rfl⟩
  · simp only [hc, if_false]
    exact ⟨_, by simp only [List.append_assoc]; rfl, by rfl⟩

theorem output_wake_reason_watched (K : SpmConsts) (w : wake_status_t) (dpidle : Bool) :
    (spm_output_wake_reason K w dpidle).evs.filter watched = [] := by
  unfold spm_output_wake_reason
  simp only []
  split
  · simp [watched, audited, irq_call]
  · split
    · simp
    · simp only [List.filter_append]
      split <;> split <;> simp [watched, audited, irq_call]

theorem watched_force_gpt_arm (K : SpmConsts) (s : SpmState) :
    Tracked watched s (force_gpt_arm K s) [] := by
  unfold force_gpt_arm
  split
  · exact ⟨_, by simp only [emit, List.append_assoc]; rfl, by rfl⟩
  · exact Tracked.idle _ _

theorem watched_force_gpt_ack (K : SpmConsts) (hw : Hw) (s : SpmState) :
    Tracked watched s (force_gpt_ack K hw s) [] := by
  unfold force_gpt_ack
  simp only [emit]
  split
  · split
    · exact ⟨_, by simp only [List.append_assoc]; rfl, by rfl⟩
    · exact ⟨_, by simp only [List.append_assoc]; rfl, by rfl⟩
  · exact Tracked.idle _ _

theorem watched_sleep_period (K : SpmConsts) (hw : Hw) (pwake_time : Int)
    (last_wr : wake_reason_t) (s : SpmState) :
    Tracked watched s (sleep_period K hw pwake_time last_wr s).2
      (period_calls K pwake_time last_wr) := by
  unfold sleep_period spm_get_wake_period period_calls
  simp only [emit]
  by_cases h1 : SPM_PWAKE_EN K = true
  · by_cases h2 : K.MTK_ALPS_BOX_SUPPORT = true
    · simp only [h1, h2, if_true, Bool.not_true, Bool.false_eq_true, if_false, Bool.and_false,
        Bool.false_and]
      split
      · exact Tracked.idle _ _
      · exact Tracked.idle _ _
    · have h2f : K.MTK_ALPS_BOX_SUPPORT = false := by simpa using h2
      by_cases h3 : pwake_time < 0
      · simp only [h1, h2f, h3, if_true, Bool.not_false, Bool.and_self, decide_True, Bool.and_true]
        split <;> split <;>
          exact ⟨_, by simp only [List.append_assoc]; rfl, by rfl⟩
      · simp only [h1, h2f, h3, if_true, if_false, Bool.not_false, Bool.and_self,
          decide_False, Bool.and_false, Bool.false_eq_true]
        exact ⟨_, rfl, by rfl⟩
  · simp only [h1, if_false, Bool.false_and, Bool.false_eq_true]
    split
    · exact Tracked.idle _ _
    · exact Tracked.idle _ _

theorem watched_if_emit (c : Prop) [Decidable c] (e : Ev) (s : SpmState) (h : watched e = false) :
    Tracked watched s (if c then emit e s else s) [] := by
  split
  · exact watched_emit e s h
  · exact Tracked.idle _ _

theorem watched_log (fmt str : String) (args : List Int) (s : SpmState) :
    Tracked watched s (emit (Ev.log fmt str args) s) [] :=
  watched_emit _ _ rfl

theorem watched_trigger_wfi_for_dpidle (K : SpmConsts) (hw : Hw) (cpu_pdn : Bool) (s : SpmState) :
    (spm_trigger_wfi_for_dpidle K hw cpu_pdn s).regs = hw.wake s.regs ∧
      Tracked watched s (spm_trigger_wfi_for_dpidle K hw cpu_pdn s) [] := by
  unfold spm_trigger_wfi_for_dpidle
  exact ⟨(watched_trigger_wfi hw cpu_pdn _ s).2, (watched_trigger_wfi hw cpu_pdn _ s).1⟩

theorem watched_mask_irq (K : SpmConsts) (hw : Hw) (s : SpmState) :
    Tracked watched s (mask_irq K hw s) (irq_prologue hw.irq_mask K.MT_SPM_IRQ_ID) :=
  ⟨_, by simp only [mask_irq, emit, List.append_assoc]; rfl, by rfl⟩

theorem watched_restore_irq (hw : Hw) (s : SpmState) :
    Tracked watched s (restore_irq hw s) (irq_epilogue hw.irq_mask) :=
  ⟨_, by simp only [restore_irq, emit, List.append_assoc]; rfl, by rfl⟩

theorem watched_report_wakeup_event (K : SpmConsts) (we : Nat) (code : Int) (s : SpmState) :
    Tracked watched s (spm_report_wakeup_event K we code s)
      [Ev.spin_lock_irqsave, Ev.spin_unlock_irqrestore] := by
  unfold spm_report_wakeup_event
  simp only [emit]
  split
  · exact ⟨_, by simp only [List.append_assoc]; rfl, by rfl⟩
  · split
    · exact ⟨_, by simp only [List.append_assoc]; rfl, by rfl⟩
    · exact ⟨_, by simp only [List.append_assoc]; rfl, by rfl⟩

theorem wake_source_loop_zero :
    wake_source_loop 32 { event := -1, mask := 0, event_count := 0 }
      = { event := -1, mask := 0, event_count := 0 } := rfl

theorem watched_report_wake_source (K : SpmConsts) (event_mask : Nat) (s : SpmState) :
    Tracked watched s (spm_report_wake_source K event_mask s)
      (if event_mask ≠ 0 then [Ev.spin_lock_irqsave, Ev.spin_unlock_irqrestore] else []) := by
  unfold spm_report_wake_source
  by_cases hm : event_mask = 0
  · subst hm
    rw [wake_source_loop_zero]
    simp only [ne_eq, not_true_eq_false, if_false]
    exact Tracked.idle _ _
  · rw [wake_source_loop_once event_mask hm]
    simp only [ne_eq, hm, not_false_eq_true, if_true]
    have h1 : Tracked watched s
        (if event_mask &&& not32 (1 <<< __ffs event_mask) ≠ 0
          then emit (Ev.log "%s: multiple wakeup events detected: %08X" "" [event_mask]) s
          else s) [] := by
      split
      · exact watched_emit _ _ rfl
      · exact Tracked.idle _ _
    rw [if_pos (Int.natCast_nonneg _)]
    exact h1.nil (watched_report_wakeup_event K _ _ _)

theorem watched_sleep_tail (K : SpmConsts) (hw : Hw) (wd_ret : Int)
    (wakesta : Option wake_status_t) (s : SpmState) :
    Tracked watched s (sleep_tail K hw wd_ret wakesta s).state
      (irq_epilogue hw.irq_mask ++ report_calls s.last_wr_sleep wakesta) := by
  unfold sleep_tail report_calls
  simp only []
  have hl : (restore_irq hw s).last_wr_sleep = s.last_wr_sleep := rfl
  rw [hl]
  have h1 := watched_restore_irq hw s
  have hres : ∀ s2 : SpmState, Tracked watched s2
      (if wd_ret = 0 then emit Ev.wd_resume_notify s2 else s2) [] := by
    intro s2
    split
    · exact watched_emit _ _ rfl
    · exact Tracked.idle _ _
  by_cases hc : s.last_wr_sleep = WR_WAKE_SRC ∨ s.last_wr_sleep = WR_PCM_ABORT
  · rw [if_pos hc, if_pos hc]
    cases wakesta with
    | none => simpa using h1
    | some w => exact h1.cat ((watched_report_wake_source K _ _).then_nil (hres _))
  · rw [if_neg hc, if_neg hc]
    simpa using h1.then_nil (hres _)

/-- When the armed timer value is within the watchdog limit (or the watchdog is
not compiled in), `spm_kick_pcm_to_run` with `pcmwdt_en = true` returns, having
written `SPM_PCM_WDT_TIMER_VAL` once, with the timer value plus
`PCM_WDT_TIMEOUT`, if the watchdog is compiled in. -/
theorem watched_kick_pcm_to_run_wdt (K : SpmConsts) (cpu_pdn infra_pdn : Bool) (s : SpmState)
    (ht : SPM_PCMWDT_EN K = true → u32 (s.regs Reg.SPM_PCM_TIMER_VAL) ≤ PCM_TIMER_MAX_FOR_WDT) :
    ∃ s2, spm_kick_pcm_to_run K cpu_pdn infra_pdn true s = Outcome.ret () s2 ∧
      Tracked watched s s2
        (if SPM_PCMWDT_EN K then
          [Ev.spm_write Reg.SPM_PCM_WDT_TIMER_VAL
            (u32 (u32 (s.regs Reg.SPM_PCM_TIMER_VAL) + PCM_WDT_TIMEOUT))]
         else []) := by
  unfold spm_kick_pcm_to_run
  simp only [kick_pulse, spm_read, spm_write, emit]
  by_cases hc : SPM_PCMWDT_EN K = true
  · have h2 := ht hc
    simp only [hc, Bool.and_true, if_true, reduceCtorEq, if_false]
    rw [if_neg (by omega)]
    exact ⟨_, rfl, _, by simp only [List.append_assoc]; rfl, by rfl⟩
  · simp only [hc, Bool.false_and, Bool.false_eq_true, if_false]
    exact ⟨_, rfl, _, by simp only [List.append_assoc]; rfl, by rfl⟩

theorem wdt_no_wrap (tv : Nat) (h : tv ≤ PCM_TIMER_MAX_FOR_WDT) :
    tv + PCM_WDT_TIMEOUT < 2 ^ 32 := by
  have h1 : PCM_TIMER_MAX_FOR_WDT = 4293984255 := by decide
  have h2 : PCM_WDT_TIMEOUT = 983040 := by decide
  rw [h1] at h
  rw [h2]
  omega

/-- Every `spm_go_to_sleep` call returns, in one of two ways: after a refused
UART request, or after a completed transition whose snapshot is read from the
state `sZ` in which the CPU resumed. -/
theorem go_to_sleep_run (K : SpmConsts) (hw : Hw) (cpu_pdn infra_pdn : Bool)
    (pwake_time : Int) (s : SpmState) :
    (∃ s2, spm_go_to_sleep K hw cpu_pdn infra_pdn pwake_time s
        = Outcome.ret (WR_UART_BUSY, none) s2 ∧
      Tracked watched s s2 (period_calls K pwake_time s.last_wr_sleep ++
        (irq_prologue hw.irq_mask K.MT_SPM_IRQ_ID ++ irq_epilogue hw.irq_mask))) ∨
    (∃ sZ s2 tv mv regs0, sZ.regs = hw.wake regs0 ∧
      spm_go_to_sleep K hw cpu_pdn infra_pdn pwake_time s
        = Outcome.ret ((spm_output_wake_reason K (spm_get_wakeup_status sZ).1 false).wr,
            some (spm_get_wakeup_status sZ).1) s2 ∧
      (SPM_PCMWDT_EN K = true → tv ≤ PCM_TIMER_MAX_FOR_WDT) ∧
      Tracked watched s sZ (period_calls K pwake_time s.last_wr_sleep ++
        (irq_prologue hw.irq_mask K.MT_SPM_IRQ_ID ++
          ([Ev.spm_write Reg.SPM_PCM_TIMER_VAL tv, Ev.spm_write Reg.SPM_SLEEP_WAKEUP_EVENT_MASK mv]
            ++ (if SPM_PCMWDT_EN K
                then [Ev.spm_write Reg.SPM_PCM_WDT_TIMER_VAL (tv + PCM_WDT_TIMEOUT)] else [])))) ∧
      Tracked watched (spm_clean_after_wakeup K true (spm_get_wakeup_status sZ).2) s2
        (irq_epilogue hw.irq_mask ++
          report_calls (spm_output_wake_reason K (spm_get_wakeup_status sZ).1 false).wr
            (some (spm_get_wakeup_status sZ).1))) := by
  unfold spm_go_to_sleep
  have hP := watched_sleep_period K hw pwake_time s.last_wr_sleep s
  have hT := sleep_timer_ok K hw pwake_time s.last_wr_sleep s
  rcases hp : sleep_period K hw pwake_time s.last_wr_sleep s with ⟨sec, s1⟩
  rw [hp] at hP hT
  replace hP : Tracked watched s s1 (period_calls K pwake_time s.last_wr_sleep) := hP
  simp only [] at hT ⊢
  generalize hG : mask_irq K hw _ = sG
  have hsG : Tracked watched s sG (period_calls K pwake_time s.last_wr_sleep ++
      irq_prologue hw.irq_mask K.MT_SPM_IRQ_ID) := by
    rw [← hG]
    exact hP.cat (((watched_emit Ev.get_wd_api s1 rfl).nil
      (watched_if_emit _ Ev.wd_suspend_notify _ rfl)).nil (watched_mask_irq K hw _))
  generalize hA : spm_kick_im_to_fetch K (pcm_suspend K) _ = sA
  have hsA : Tracked watched sG sA [] := by
    rw [← hA]
    exact ((((watched_set_sysclk_settle _).nil
      (watched_force_gpt_arm K _)).nil (watched_log _ _ _ _)).nil
      (watched_reset_and_init_pcm K _)).nil (watched_kick_im_to_fetch K _ _)
  have hq := watched_request_uart_to_sleep K hw sA
  rcases hR : spm_request_uart_to_sleep K hw sA with ⟨busy, sB⟩
  rw [hR] at hq
  replace hq : Tracked watched sA sB [] := hq
  have hsB := hsG.then_nil (hsA.nil hq)
  show (∃ s2, (if busy ≠ 0 then _ else _) = _ ∧ _) ∨
    (∃ sZ s2 tv mv regs0, _ ∧ (if busy ≠ 0 then _ else _) = _ ∧ _)
  by_cases hb : busy ≠ 0
  · rw [if_pos hb]
    left
    have h1 : Tracked watched sB { sB with last_wr_sleep := WR_UART_BUSY } [] :=
      ⟨[], by simp, rfl⟩
    have htail := watched_sleep_tail K hw hw.get_wd_api none
      { sB with last_wr_sleep := WR_UART_BUSY }
    obtain ⟨sF, hF, _⟩ := sleep_tail_busy K hw hw.get_wd_api sB
    rw [hF] at htail ⊢
    refine ⟨sF, rfl, ?_⟩
    have hall := (hsB.then_nil h1).cat htail
    simpa [report_calls, Outcome.state, List.append_assoc] using hall
  · rw [if_neg hb]
    right
    have h1 : Tracked watched sB { sB with mt_wake_event_comm := none } [] :=
      ⟨[], by simp, rfl⟩
    generalize hI : spm_set_pwrctl_for_sleep _ = sI
    have hsI : Tracked watched sB sI [] := by
      rw [← hI]
      exact ((h1.nil (watched_init_pcm_register K _)).nil
        (watched_init_event_vector _ _)).nil (watched_set_pwrctl_for_sleep _)
    have hW := watched_set_wakeup_event K (u32 (sec * 32768)) sI.spm_sleep_wakesrc sI
    have hWt := set_wakeup_event_timer_reg K (u32 (sec * 32768)) sI.spm_sleep_wakesrc sI
    generalize spm_set_wakeup_event K (u32 (sec * 32768)) sI.spm_sleep_wakesrc sI = sW
      at hW hWt ⊢
    have hle : SPM_PCMWDT_EN K = true →
        u32 (if u32 (sec * 32768) ≠ 0 then u32 (sec * 32768) else PCM_TIMER_MAX_FOR_WDT)
          ≤ PCM_TIMER_MAX_FOR_WDT := hT
    obtain ⟨sK, hK1, hK2⟩ := watched_kick_pcm_to_run_wdt K cpu_pdn infra_pdn sW (by
      intro hc
      rw [hWt, u32_u32]
      exact hle hc)
    rw [hK1]
    simp only []
    have hZr : (spm_trigger_wfi_for_sleep K hw cpu_pdn infra_pdn sK).regs = hw.wake sK.regs := by
      unfold spm_trigger_wfi_for_sleep
      split
      · exact (watched_trigger_wfi hw cpu_pdn _ sK).2
      · exact (watched_trigger_wfi hw cpu_pdn _ sK).2
    have hZ := watched_trigger_wfi_for_sleep K hw cpu_pdn infra_pdn sK
    generalize spm_trigger_wfi_for_sleep K hw cpu_pdn infra_pdn sK = sZ at hZ hZr ⊢
    have htail := watched_sleep_tail K hw hw.get_wd_api (some (spm_get_wakeup_status sZ).1)
      (force_gpt_ack K hw
        { spm_clean_after_wakeup K true (spm_get_wakeup_status sZ).2 with
          last_wr_sleep := (spm_output_wake_reason K (spm_get_wakeup_status sZ).1 false).wr
          trace := (spm_clean_after_wakeup K true (spm_get_wakeup_status sZ).2).trace ++
            (spm_output_wake_reason K (spm_get_wakeup_status sZ).1 false).evs })
    have hlw := (force_gpt_ack_fields K hw
        { spm_clean_after_wakeup K true (spm_get_wakeup_status sZ).2 with
          last_wr_sleep := (spm_output_wake_reason K (spm_get_wakeup_status sZ).1 false).wr
          trace := (spm_clean_after_wakeup K true (spm_get_wakeup_status sZ).2).trace ++
            (spm_output_wake_reason K (spm_get_wakeup_status sZ).1 false).evs }).1
    obtain ⟨sF, hF, _⟩ := sleep_tail_some K hw hw.get_wd_api (spm_get_wakeup_status sZ).1
      (force_gpt_ack K hw
        { spm_clean_after_wakeup K true (spm_get_wakeup_status sZ).2 with
          last_wr_sleep := (spm_output_wake_reason K (spm_get_wakeup_status sZ).1 false).wr
          trace := (spm_clean_after_wakeup K true (spm_get_wakeup_status sZ).2).trace ++
            (spm_output_wake_reason K (spm_get_wakeup_status sZ).1 false).evs })
    rw [hlw] at hF htail
    rw [hF] at htail
    have hO : Tracked watched (spm_clean_after_wakeup K true (spm_get_wakeup_status sZ).2)
        { spm_clean_after_wakeup K true (spm_get_wakeup_status sZ).2 with
          last_wr_sleep := (spm_output_wake_reason K (spm_get_wakeup_status sZ).1 false).wr
          trace := (spm_clean_after_wakeup K true (spm_get_wakeup_status sZ).2).trace ++
            (spm_output_wake_reason K (spm_get_wakeup_status sZ).1 false).evs } [] :=
      ⟨_, rfl, output_wake_reason_watched K _ false⟩
    refine ⟨sZ, sF,
      u32 (if u32 (sec * 32768) ≠ 0 then u32 (sec * 32768) else PCM_TIMER_MAX_FOR_WDT),
      u32 (not32 (if SPM_BYPASS_SYSPWREQ K
        then sI.spm_sleep_wakesrc &&& not32 K.WAKE_SRC_SYSPWREQ else sI.spm_sleep_wakesrc)),
      sK.regs, hZr, hF, hle, ?_, ?_⟩
    · have hall := (hsB.then_nil hsI).cat ((hW.cat hK2).then_nil hZ)
      rw [hWt, u32_u32] at hall
      generalize u32 (if u32 (sec * 32768) ≠ 0 then u32 (sec * 32768)
        else PCM_TIMER_MAX_FOR_WDT) = tv at hle hall ⊢
      by_cases hc : SPM_PCMWDT_EN K = true
      · have hle2 := hle hc
        have hnw : u32 (tv + PCM_WDT_TIMEOUT) = tv + PCM_WDT_TIMEOUT :=
          u32_of_lt _ (wdt_no_wrap tv hle2)
        rw [hnw] at hall
        simp only [List.append_assoc] at hall ⊢
        exact hall
      · simp only [hc, Bool.false_eq_true, if_false, List.append_assoc, List.append_nil]
          at hall ⊢
        exact hall
    · exact (hO.nil (watched_force_gpt_ack K hw _)).nil htail

theorem Tracked.irq {s s2 : SpmState} {L L2 : List Ev} (h : Tracked watched s s2 L)
    (hL : L.filter irq_call = L2) : Tracked irq_call s s2 L2 := by
  have := h.weaken irq_call_watched
  rwa [hL] at this

theorem Tracked.split {keep : Ev → Bool} {a b c : SpmState} {L1 L2 : List Ev}
    (h1 : Tracked keep a b L1) (h2 : Tracked keep b c L2) :
    events_since a c = events_since a b ++ events_since b c := by
  obtain ⟨e1, t1, _⟩ := h1
  obtain ⟨e2, t2, _⟩ := h2
  rw [events_since_append a b e1 t1, events_since_append b c e2 t2,
    events_since_append a c (e1 ++ e2) (by rw [t2, t1, List.append_assoc])]

theorem period_calls_irq (K : SpmConsts) (pwake_time : Int) (last_wr : wake_reason_t) :
    (period_calls K pwake_time last_wr).filter irq_call = [] := by
  unfold period_calls
  split <;> rfl

theorem watched_sleep_dpidle_tail (hw : Hw) (wd_ret : Int) (wakesta : Option wake_status_t)
    (s : SpmState) :
    ∃ s2, sleep_dpidle_tail hw wd_ret wakesta s
        = Outcome.ret (s.last_wr_sleep_dpidle, wakesta) s2 ∧
      Tracked watched s s2 (irq_epilogue hw.irq_mask) := by
  unfold sleep_dpidle_tail
  by_cases hwd : wd_ret = 0
  · simp only [hwd, if_true]
    exact ⟨_, rfl, (watched_restore_irq hw s).then_nil (watched_emit _ _ rfl)⟩
  · simp only [hwd, if_false]
    exact ⟨_, rfl, watched_restore_irq hw s⟩

theorem watched_dpidle_tail (hw : Hw) (wr : wake_reason_t) (wakesta : Option wake_status_t)
    (s : SpmState) :
    ∃ s2, dpidle_tail hw wr wakesta s = Outcome.ret (wr, wakesta) s2 ∧
      Tracked watched s s2 (irq_epilogue hw.irq_mask) :=
  ⟨_, rfl, (watched_restore_irq hw s).then_nil (watched_emit _ _ rfl)⟩

/-- Every `spm_go_to_sleep_dpidle` call returns, after a refused UART request
or after a completed transition whose snapshot is read from the state `sZ` in
which the CPU resumed. -/
theorem go_to_sleep_dpidle_run (K : SpmConsts) (hw : Hw) (cpu_pdn : Bool) (pwrlevel : Nat)
    (pwake_time : Int) (s : SpmState) :
    (∃ s2, spm_go_to_sleep_dpidle K hw cpu_pdn pwrlevel pwake_time s
        = Outcome.ret (WR_UART_BUSY, none) s2 ∧
      Tracked irq_call s s2
        (irq_prologue hw.irq_mask K.MT_SPM_IRQ_ID ++ irq_epilogue hw.irq_mask)) ∨
    (∃ sZ s2 regs0, sZ.regs = hw.wake regs0 ∧
      spm_go_to_sleep_dpidle K hw cpu_pdn pwrlevel pwake_time s
        = Outcome.ret ((spm_output_wake_reason K (spm_get_wakeup_status sZ).1 false).wr,
            some (spm_get_wakeup_status sZ).1) s2 ∧
      Tracked irq_call s sZ (irq_prologue hw.irq_mask K.MT_SPM_IRQ_ID) ∧
      Tracked irq_call (spm_clean_after_wakeup K false (spm_get_wakeup_status sZ).2) s2
        (irq_epilogue hw.irq_mask)) := by
  unfold spm_go_to_sleep_dpidle
  have hP := (watched_sleep_period K hw pwake_time s.last_wr_sleep_dpidle s).irq
    (period_calls_irq _ _ _)
  rcases hp : sleep_period K hw pwake_time s.last_wr_sleep_dpidle s with ⟨sec, s1⟩
  rw [hp] at hP
  replace hP : Tracked irq_call s s1 [] := hP
  simp only []
  generalize hG : mask_irq K hw _ = sG
  have hsG : Tracked irq_call s sG (irq_prologue hw.irq_mask K.MT_SPM_IRQ_ID) := by
    rw [← hG]
    exact hP.nil ((((watched_emit Ev.get_wd_api s1 rfl).nil
      (watched_if_emit _ Ev.wd_suspend_notify _ rfl)).cat (watched_mask_irq K hw _)).irq rfl)
  generalize hA : spm_kick_im_to_fetch K (pcm_dpidle K) _ = sA
  have hsA : Tracked irq_call sG sA [] := by
    rw [← hA]
    exact (((watched_log _ _ _ _).nil
      (watched_reset_and_init_pcm K _)).nil (watched_kick_im_to_fetch K _ _)).irq rfl
  have hq := (watched_request_uart_to_sleep K hw sA).irq rfl
  rcases hR : spm_request_uart_to_sleep K hw sA with ⟨busy, sB⟩
  rw [hR] at hq
  replace hq : Tracked irq_call sA sB [] := hq
  have hsB := hsG.then_nil (hsA.nil hq)
  show (∃ s2, (if busy ≠ 0 then _ else _) = _ ∧ _) ∨
    (∃ sZ s2 regs0, _ ∧ (if busy ≠ 0 then _ else _) = _ ∧ _)
  by_cases hb : busy ≠ 0
  · rw [if_pos hb]
    left
    have h1 : Tracked irq_call sB { sB with last_wr_sleep_dpidle := WR_UART_BUSY } [] :=
      ⟨[], by simp, rfl⟩
    obtain ⟨sF, hF, hT⟩ := watched_sleep_dpidle_tail hw hw.get_wd_api none
      { sB with last_wr_sleep_dpidle := WR_UART_BUSY }
    exact ⟨sF, hF, (hsB.then_nil h1).cat (hT.irq rfl)⟩
  · rw [if_neg hb]
    right
    generalize hI : spm_set_pwrctl_for_dpidle pwrlevel _ = sI
    have hsI : Tracked irq_call sB sI [] := by
      rw [← hI]
      exact (((watched_init_pcm_register K _).nil
        (watched_init_event_vector _ _)).nil (watched_set_pwrctl_for_dpidle _ _)).irq rfl
    have hW := (watched_set_wakeup_event K (u32 (sec * 32768)) sI.spm_sleep_wakesrc sI).irq rfl
    generalize spm_set_wakeup_event K (u32 (sec * 32768)) sI.spm_sleep_wakesrc sI = sW at hW ⊢
    obtain ⟨sK, hK1, hK2⟩ := watched_kick_pcm_to_run_quiet K cpu_pdn false sW
    rw [hK1]
    simp only []
    obtain ⟨hZr, hZ⟩ := watched_trigger_wfi_for_dpidle K hw cpu_pdn sK
    generalize spm_trigger_wfi_for_dpidle K hw cpu_pdn sK = sZ at hZ hZr ⊢
    have hO : Tracked watched (spm_clean_after_wakeup K false (spm_get_wakeup_status sZ).2)
        { spm_clean_after_wakeup K false (spm_get_wakeup_status sZ).2 with
          last_wr_sleep_dpidle := (spm_output_wake_reason K (spm_get_wakeup_status sZ).1 false).wr
          trace := (spm_clean_after_wakeup K false (spm_get_wakeup_status sZ).2).trace ++
            (spm_output_wake_reason K (spm_get_wakeup_status sZ).1 false).evs } [] :=
      ⟨_, rfl, output_wake_reason_watched K _ false⟩
    obtain ⟨sF, hF, hT⟩ := watched_sleep_dpidle_tail hw hw.get_wd_api
      (some (spm_get_wakeup_status sZ).1)
      { spm_clean_after_wakeup K false (spm_get_wakeup_status sZ).2 with
          last_wr_sleep_dpidle := (spm_output_wake_reason K (spm_get_wakeup_status sZ).1 false).wr
          trace := (spm_clean_after_wakeup K false (spm_get_wakeup_status sZ).2).trace ++
            (spm_output_wake_reason K (spm_get_wakeup_status sZ).1 false).evs }
    exact ⟨sZ, sF, sK.regs, hZr, hF,
      (((hsB.then_nil hsI).then_nil hW).then_nil (hK2.irq rfl)).then_nil (hZ.irq rfl),
      (hO.nil hT).irq rfl⟩

/-- Every `spm_go_to_dpidle` call returns, after a refused UART request or
after a completed transition whose snapshot is read from the state `sZ`. -/
theorem go_to_dpidle_run (K : SpmConsts) (hw : Hw) (cpu_pdn : Bool) (pwrlevel : Nat)
    (s : SpmState) :
    (∃ s2, spm_go_to_dpidle K hw cpu_pdn pwrlevel s = Outcome.ret (WR_UART_BUSY, none) s2 ∧
      Tracked irq_call s s2
        (irq_prologue hw.irq_mask K.MT_SPM_IRQ_ID ++ irq_epilogue hw.irq_mask)) ∨
    (∃ sZ s2 regs0, sZ.regs = hw.wake regs0 ∧
      spm_go_to_dpidle K hw cpu_pdn pwrlevel s
        = Outcome.ret ((spm_output_wake_reason K (spm_get_wakeup_status sZ).1 true).wr,
            some (spm_get_wakeup_status sZ).1) s2 ∧
      Tracked irq_call s sZ (irq_prologue hw.irq_mask K.MT_SPM_IRQ_ID) ∧
      Tracked irq_call (spm_clean_after_wakeup K false (spm_get_wakeup_status sZ).2) s2
        (irq_epilogue hw.irq_mask)) := by
  unfold spm_go_to_dpidle
  simp only []
  generalize hG : mask_irq K hw _ = sG
  have hsG : Tracked irq_call s sG (irq_prologue hw.irq_mask K.MT_SPM_IRQ_ID) := by
    rw [← hG]
    exact ((watched_emit (Ev.aee_rr_rec_deepidle_val 0x1) s rfl).cat
      (watched_mask_irq K hw _)).irq rfl
  generalize hA : emit (Ev.aee_rr_rec_deepidle_val 0x3) _ = sA
  have hsA : Tracked irq_call sG sA [] := by
    rw [← hA]
    exact (((watched_reset_and_init_pcm K _).nil (watched_kick_im_to_fetch K _ _)).nil
      (watched_emit (Ev.aee_rr_rec_deepidle_val 0x3) _ rfl)).irq rfl
  have hq := (watched_request_uart_to_sleep K hw sA).irq rfl
  rcases hR : spm_request_uart_to_sleep K hw sA with ⟨busy, sB⟩
  rw [hR] at hq
  replace hq : Tracked irq_call sA sB [] := hq
  have hsB := hsG.then_nil (hsA.nil hq)
  show (∃ s2, (if busy ≠ 0 then _ else _) = _ ∧ _) ∨
    (∃ sZ s2 regs0, _ ∧ (if busy ≠ 0 then _ else _) = _ ∧ _)
  by_cases hb : busy ≠ 0
  · rw [if_pos hb]
    left
    obtain ⟨sF, hF, hT⟩ := watched_dpidle_tail hw WR_UART_BUSY none sB
    exact ⟨sF, hF, hsB.cat (hT.irq rfl)⟩
  · rw [if_neg hb]
    right
    generalize hI : spm_set_pwrctl_for_dpidle pwrlevel _ = sI
    have hsI : Tracked irq_call sB sI [] := by
      rw [← hI]
      exact (((watched_init_pcm_register K _).nil
        (watched_init_event_vector _ _)).nil (watched_set_pwrctl_for_dpidle _ _)).irq rfl
    have hW := (watched_set_wakeup_event K 6553 (WAKE_SRC_FOR_DPIDLE K) sI).irq rfl
    generalize spm_set_wakeup_event K 6553 (WAKE_SRC_FOR_DPIDLE K) sI = sW at hW ⊢
    obtain ⟨sK, hK1, hK2⟩ := watched_kick_pcm_to_run_quiet K cpu_pdn false sW
    rw [hK1]
    simp only []
    obtain ⟨hZr, hZt⟩ := watched_trigger_wfi_for_dpidle K hw cpu_pdn
      (emit (Ev.aee_rr_rec_deepidle_val 0x7) (emit Ev.spm_dpidle_before_wfi sK))
    generalize hZ : emit Ev.spm_dpidle_after_wfi _ = sZ
    have hsZ : Tracked irq_call sK sZ [] := by
      rw [← hZ]
      exact (((((watched_emit Ev.spm_dpidle_before_wfi sK rfl).nil
        (watched_emit (Ev.aee_rr_rec_deepidle_val 0x7) _ rfl)).nil hZt).nil
        (watched_emit (Ev.aee_rr_rec_deepidle_val 0xF) _ rfl)).nil
        (watched_emit Ev.spm_dpidle_after_wfi _ rfl)).irq rfl
    have hZregs : sZ.regs = hw.wake sK.regs := by
      rw [← hZ]
      exact hZr
    have hO : Tracked watched (spm_clean_after_wakeup K false (spm_get_wakeup_status sZ).2)
        { spm_clean_after_wakeup K false (spm_get_wakeup_status sZ).2 with
          trace := (spm_clean_after_wakeup K false (spm_get_wakeup_status sZ).2).trace ++
            (spm_output_wake_reason K (spm_get_wakeup_status sZ).1 true).evs } [] :=
      ⟨_, rfl, output_wake_reason_watched K _ true⟩
    obtain ⟨sF, hF, hT⟩ := watched_dpidle_tail hw
      (spm_output_wake_reason K (spm_get_wakeup_status sZ).1 true).wr
      (some (spm_get_wakeup_status sZ).1)
      { spm_clean_after_wakeup K false (spm_get_wakeup_status sZ).2 with
          trace := (spm_clean_after_wakeup K false (spm_get_wakeup_status sZ).2).trace ++
            (spm_output_wake_reason K (spm_get_wakeup_status sZ).1 true).evs }
    exact ⟨sZ, sF, sK.regs, hZregs, hF,
      (((hsB.then_nil hsI).then_nil hW).then_nil (hK2.irq rfl)).then_nil hsZ,
      (hO.nil hT).irq rfl⟩

/-! ## C25, C27, C29: whole transitions -/

theorem report_calls_irq (wr : wake_reason_t) (w : Option wake_status_t) :
    (report_calls wr w).filter irq_call = report_calls wr w := by
  unfold report_calls
  split
  · cases w with
    | none => rfl
    | some w => simp only []; split <;> rfl
  · rfl

theorem report_calls_writes (r : Reg) (wr : wake_reason_t) (w : Option wake_status_t) :
    writes_to r (report_calls wr w) = [] := by
  unfold report_calls
  split
  · cases w with
    | none => rfl
    | some w => simp only []; split <;> rfl
  · rfl

theorem period_calls_writes (r : Reg) (K : SpmConsts) (pwake_time : Int)
    (last_wr : wake_reason_t) : writes_to r (period_calls K pwake_time last_wr) = [] := by
  unfold period_calls
  split <;> rfl

theorem status_then_clean_of (K : SpmConsts) (en : Bool) {keep : Ev → Bool}
    {s sZ s2 : SpmState} {L1 L2 : List Ev} (h1 : Tracked keep s sZ L1)
    (h2 : Tracked keep (spm_clean_after_wakeup K en (spm_get_wakeup_status sZ).2) s2 L2) :
    status_then_clean K en (events_since s s2) := by
  have hS : Tracked watched sZ (spm_get_wakeup_status sZ).2 [] := watched_get_wakeup_status sZ
  have hC := watched_clean_after_wakeup K en (spm_get_wakeup_status sZ).2
  obtain ⟨e1, t1, _⟩ := h1
  obtain ⟨e2, t2, _⟩ := hS
  obtain ⟨e3, t3, _⟩ := hC
  obtain ⟨e4, t4, _⟩ := h2
  refine ⟨sZ, e1, e4, ?_⟩
  rw [events_since_append _ _ e2 t2, events_since_append _ _ e3 t3,
    events_since_append s s2 (e1 ++ (e2 ++ (e3 ++ e4))) (by
      rw [t4, t3, t2, t1]; simp only [List.append_assoc])]

/-- The trace of a `spm_go_to_sleep` call, which always returns: the watched
events of a refused request, or those of a completed transition. -/
theorem go_to_sleep_trace (K : SpmConsts) (hw : Hw) (cpu_pdn infra_pdn : Bool)
    (pwake_time : Int) (s : SpmState) :
    (∃ s2, spm_go_to_sleep K hw cpu_pdn infra_pdn pwake_time s
        = Outcome.ret (WR_UART_BUSY, none) s2 ∧
      Tracked watched s s2 (period_calls K pwake_time s.last_wr_sleep ++
        (irq_prologue hw.irq_mask K.MT_SPM_IRQ_ID ++ irq_epilogue hw.irq_mask))) ∨
    (∃ wr w s2 tv mv, wr = (spm_output_wake_reason K w false).wr ∧
      spm_go_to_sleep K hw cpu_pdn infra_pdn pwake_time s = Outcome.ret (wr, some w) s2 ∧
      (SPM_PCMWDT_EN K = true → tv ≤ PCM_TIMER_MAX_FOR_WDT) ∧
      Tracked watched s s2 (period_calls K pwake_time s.last_wr_sleep ++
        (irq_prologue hw.irq_mask K.MT_SPM_IRQ_ID ++
          ([Ev.spm_write Reg.SPM_PCM_TIMER_VAL tv, Ev.spm_write Reg.SPM_SLEEP_WAKEUP_EVENT_MASK mv]
            ++ ((if SPM_PCMWDT_EN K
                then [Ev.spm_write Reg.SPM_PCM_WDT_TIMER_VAL (tv + PCM_WDT_TIMEOUT)] else []) ++
              ([Ev.spm_write Reg.SPM_SLEEP_WAKEUP_EVENT_MASK (u32 (not32 K.WAKE_SRC_THERM))] ++
                (irq_epilogue hw.irq_mask ++ report_calls wr (some w))))))) ∧
      status_then_clean K true (events_since s s2)) := by
  rcases go_to_sleep_run K hw cpu_pdn infra_pdn pwake_time s with
    ⟨s2, h, ht⟩ | ⟨sZ, s2, tv, mv, regs0, _, h, hle, h1, h2⟩
  · exact Or.inl ⟨s2, h, ht⟩
  · refine Or.inr ⟨_, _, s2, tv, mv, rfl, h, hle, ?_, status_then_clean_of K true h1 h2⟩
    have hall := (h1.then_nil (watched_get_wakeup_status sZ)).cat
      ((watched_clean_after_wakeup K true (spm_get_wakeup_status sZ).2).cat h2)
    simp only [List.append_assoc] at hall ⊢
    exact hall

set_option maxRecDepth 100000 in
/-- C25, as stated, fails: a completed `spm_go_to_sleep` transition woken by a
wake source takes and releases the driver lock a second time, after the
epilogue, inside `spm_report_wakeup_event`, so the lock calls do not occur once
each and the calls of the interrupt discipline do not end with the epilogue.
Nor is the lock acquire the first call or the lock release the last one: the
call starts with a diagnostic line, `get_wd_api` and `wd_suspend_notify`, and
it ends with `wd_resume_notify`. -/
theorem go_to_sleep_locks_twice :
    ∃ s2, spm_go_to_sleep sampleConsts (sampleHw (fun i => i == 3) sampleWoken) true true 5
        (spm_boot sampleConsts fun _ => 0)
      = Outcome.ret (WR_WAKE_SRC, some (wake_status_t.mk 0 (2 ^ 5) 0 0 0 0x100000 0 0)) s2 ∧
    (events_since (spm_boot sampleConsts fun _ => 0) s2).filter irq_call
      = [Ev.spin_lock_irqsave, Ev.mt_irq_mask_all 0, Ev.mt_irq_unmask_for_sleep 197,
         Ev.mt_cirq_clone_gic, Ev.mt_cirq_enable, Ev.mt_cirq_flush, Ev.mt_cirq_disable,
         Ev.mt_irq_mask_restore 0, Ev.spin_unlock_irqrestore,
         Ev.spin_lock_irqsave, Ev.spin_unlock_irqrestore] ∧
    (events_since (spm_boot sampleConsts fun _ => 0) s2).take 4
      = [Ev.log "pwake = %d" "" [5], Ev.get_wd_api, Ev.wd_suspend_notify,
         Ev.spin_lock_irqsave] ∧
    (events_since (spm_boot sampleConsts fun _ => 0) s2).getLast? = some Ev.wd_resume_notify :=
  ⟨_, rfl, rfl, rfl, rfl⟩

theorem get_wakeup_status_reads (sZ : SpmState) :
    events_since sZ (spm_get_wakeup_status sZ).2
      = [Ev.spm_read Reg.SPM_PCM_REG_DATA_INI (u32 (sZ.regs Reg.SPM_PCM_REG_DATA_INI)),
         Ev.spm_read Reg.SPM_PCM_REG9_DATA (u32 (sZ.regs Reg.SPM_PCM_REG9_DATA)),
         Ev.spm_read Reg.SPM_SLEEP_ISR_RAW_STA (u32 (sZ.regs Reg.SPM_SLEEP_ISR_RAW_STA)),
         Ev.spm_read Reg.SPM_SLEEP_CPU_WAKEUP_EVENT
           (u32 (sZ.regs Reg.SPM_SLEEP_CPU_WAKEUP_EVENT)),
         Ev.spm_read Reg.SPM_PCM_TIMER_OUT (u32 (sZ.regs Reg.SPM_PCM_TIMER_OUT)),
         Ev.spm_read Reg.SPM_PCM_EVENT_REG_STA (u32 (sZ.regs Reg.SPM_PCM_EVENT_REG_STA)),
         Ev.spm_read Reg.SPM_SLEEP_ISR_STATUS (u32 (sZ.regs Reg.SPM_SLEEP_ISR_STATUS)),
         Ev.spm_read Reg.SPM_PCM_REG13_DATA (u32 (sZ.regs Reg.SPM_PCM_REG13_DATA))] :=
  events_since_append sZ _ _ (by
    simp only [spm_get_wakeup_status, spm_read, emit, List.append_assoc]; rfl)

/-! ## The interrupt bracket of a transition -/

theorem irq_call_guarded (e : Ev) (h : irq_call e = true) : guarded e = true := by
  cases e <;> simp_all [irq_call, guarded, outside_call]

theorem outside_not_irq (e : Ev) (h : outside_call e = true) : irq_call e = false := by
  cases e <;> simp_all [irq_call, outside_call]

theorem guarded_emit (e : Ev) (s : SpmState) (h : guarded e = false) :
    Tracked guarded s (emit e s) [] :=
  ⟨[e], rfl, by simp [h]⟩

theorem guarded_if_emit (c : Prop) [Decidable c] (e : Ev) (s : SpmState)
    (h : guarded e = false) : Tracked guarded s (if c then emit e s else s) [] := by
  split
  · exact guarded_emit e s h
  · exact Tracked.idle _ _

theorem guarded_sleep_period (K : SpmConsts) (hw : Hw) (pwake_time : Int)
    (last_wr : wake_reason_t) (s : SpmState) :
    Tracked guarded s (sleep_period K hw pwake_time last_wr s).2 [] := by
  unfold sleep_period spm_get_wake_period
  simp only [emit]
  by_cases h1 : SPM_PWAKE_EN K = true
  · by_cases h2 : K.MTK_ALPS_BOX_SUPPORT = true
    · simp only [h1, h2, if_true, Bool.not_true, Bool.false_eq_true, if_false]
      split
      · exact Tracked.idle _ _
      · exact Tracked.idle _ _
    · have h2f : K.MTK_ALPS_BOX_SUPPORT = false := by simpa using h2
      by_cases h3 : pwake_time < 0
      · simp only [h1, h2f, h3, if_true, Bool.not_false]
        split <;> split <;>
          exact ⟨_, by simp only [List.append_assoc]; rfl, by rfl⟩
      · simp only [h1, h2f, h3, if_true, if_false, Bool.not_false]
        exact ⟨_, rfl, by rfl⟩
  · simp only [h1, if_false, Bool.false_eq_true]
    split
    · exact Tracked.idle _ _
    · exact Tracked.idle _ _

theorem guarded_report_wakeup_event (K : SpmConsts) (we : Nat) (code : Int) (s : SpmState) :
    Tracked guarded s (spm_report_wakeup_event K we code s)
      [Ev.spin_lock_irqsave, Ev.spin_unlock_irqrestore] := by
  unfold spm_report_wakeup_event
  simp only [emit]
  split
  · exact ⟨_, by simp only [List.append_assoc]; rfl, by rfl⟩
  · split
    · exact ⟨_, by simp only [List.append_assoc]; rfl, by rfl⟩
    · exact ⟨_, by simp only [List.append_assoc]; rfl, by rfl⟩

theorem guarded_report_wake_source (K : SpmConsts) (event_mask : Nat) (s : SpmState) :
    Tracked guarded s (spm_report_wake_source K event_mask s)
      (if event_mask ≠ 0 then [Ev.spin_lock_irqsave, Ev.spin_unlock_irqrestore] else []) := by
  unfold spm_report_wake_source
  by_cases hm : event_mask = 0
  · subst hm
    rw [wake_source_loop_zero]
    simp only [ne_eq, not_true_eq_false, if_false]
    exact Tracked.idle _ _
  · rw [wake_source_loop_once event_mask hm]
    simp only [ne_eq, hm, not_false_eq_true, if_true]
    have h1 : Tracked guarded s
        (if event_mask &&& not32 (1 <<< __ffs event_mask) ≠ 0
          then emit (Ev.log "%s: multiple wakeup events detected: %08X" "" [event_mask]) s
          else s) [] := by
      split
      · exact guarded_emit _ _ rfl
      · exact Tracked.idle _ _
    rw [if_pos (Int.natCast_nonneg _)]
    exact h1.nil (guarded_report_wakeup_event K _ _ _)

/-- After the epilogue, `sleep_tail` makes only outside calls and the lock
calls of the report. -/
theorem guarded_sleep_tail (K : SpmConsts) (hw : Hw) (wd_ret : Int)
    (wakesta : Option wake_status_t) (s : SpmState) :
    Tracked guarded (restore_irq hw s) (sleep_tail K hw wd_ret wakesta s).state
      (report_calls s.last_wr_sleep wakesta) := by
  unfold sleep_tail report_calls
  simp only []
  have hl : (restore_irq hw s).last_wr_sleep = s.last_wr_sleep := rfl
  rw [hl]
  have hres : ∀ s2 : SpmState, Tracked guarded s2
      (if wd_ret = 0 then emit Ev.wd_resume_notify s2 else s2) [] := by
    intro s2
    split
    · exact guarded_emit _ _ rfl
    · exact Tracked.idle _ _
  by_cases hc : s.last_wr_sleep = WR_WAKE_SRC ∨ s.last_wr_sleep = WR_PCM_ABORT
  · rw [if_pos hc, if_pos hc]
    cases wakesta with
    | none => exact Tracked.idle _ _
    | some w => exact (guarded_report_wake_source K _ _).then_nil (hres _)
  · rw [if_neg hc, if_neg hc]
    exact hres _

theorem mask_irq_trace (K : SpmConsts) (hw : Hw) (s : SpmState) :
    (mask_irq K hw s).trace = s.trace ++ irq_prologue hw.irq_mask K.MT_SPM_IRQ_ID := by
  simp only [mask_irq, emit, List.append_assoc]; rfl

theorem restore_irq_trace (hw : Hw) (s : SpmState) :
    (restore_irq hw s).trace = s.trace ++ irq_epilogue hw.irq_mask := by
  simp only [restore_irq, emit, List.append_assoc]; rfl

/-- The trace of a call that makes outside calls up to `sP`, then `mask_irq`,
then no call of the interrupt discipline up to `sX`, then `restore_irq`, then
outside calls and the calls `L` of the interrupt discipline, is bracketed. -/
theorem bracket_of (K : SpmConsts) (hw : Hw) {s sP sX s2 : SpmState} {L : List Ev}
    (h1 : Tracked guarded s sP []) (h2 : Tracked irq_call (mask_irq K hw sP) sX [])
    (h3 : Tracked guarded (restore_irq hw sX) s2 L) (hL : ∀ e ∈ L, irq_call e = true) :
    ∃ pre post, bracketed hw.irq_mask K.MT_SPM_IRQ_ID (events_since s s2) pre
        (events_since (mask_irq K hw sP) sX) post ∧
      post.filter irq_call = L := by
  obtain ⟨pre, t1, f1⟩ := h1
  obtain ⟨mid, t2, f2⟩ := h2
  obtain ⟨post, t3, f3⟩ := h3
  have hmid : events_since (mask_irq K hw sP) sX = mid := events_since_append _ _ _ t2
  have hall : events_since s s2 = pre ++ (irq_prologue hw.irq_mask K.MT_SPM_IRQ_ID ++
      (mid ++ (irq_epilogue hw.irq_mask ++ post))) :=
    events_since_append _ _ _ (by
      rw [t3, restore_irq_trace, t2, mask_irq_trace, t1]
      simp only [List.append_assoc])
  rw [hmid]
  refine ⟨pre, post, ⟨hall, ?_, ?_, ?_⟩, ?_⟩
  · intro e he
    have := (List.filter_eq_nil_iff.mp f1) e he
    simpa [guarded] using this
  · intro e he
    have := (List.filter_eq_nil_iff.mp f2) e he
    simpa using this
  · intro e he
    by_cases hg : guarded e = true
    · right
      exact hL e (by rw [← f3]; exact List.mem_filter.mpr ⟨he, hg⟩)
    · left
      simpa [guarded] using hg
  · have h4 : post.filter irq_call = (post.filter guarded).filter irq_call := by
      rw [List.filter_filter]
      congr 1
      funext e
      by_cases hi : irq_call e = true
      · simp [hi, irq_call_guarded e hi]
      · simp [hi]
    rw [h4, f3]
    exact List.filter_eq_self.mpr hL

/-- In a bracketed trace the calls of the interrupt discipline are those of the
prologue, those of the epilogue and those of `post`. -/
theorem bracketed_irq_calls {m irq : Nat} {evs pre mid post : List Ev}
    (h : bracketed m irq evs pre mid post) :
    evs.filter irq_call = irq_prologue m irq ++ irq_epilogue m ++ post.filter irq_call := by
  obtain ⟨he, hpre, hmid, _⟩ := h
  have h1 : pre.filter irq_call = [] :=
    List.filter_eq_nil_iff.mpr fun e hin => by simp [outside_not_irq e (hpre e hin)]
  have h2 : mid.filter irq_call = [] :=
    List.filter_eq_nil_iff.mpr fun e hin => by simp [hmid e hin]
  have h3 : (irq_prologue m irq).filter irq_call = irq_prologue m irq := rfl
  have h4 : (irq_epilogue m).filter irq_call = irq_epilogue m := rfl
  rw [he]
  simp only [List.filter_append, h1, h2, h3, h4, List.nil_append, List.append_assoc]

theorem report_calls_all_irq (wr : wake_reason_t) (w : Option wake_status_t) :
    ∀ e ∈ report_calls wr w, irq_call e = true := by
  have h := report_calls_irq wr w
  intro e he
  rw [← h] at he
  exact (List.mem_filter.mp he).2

theorem snapshot_then_clean_of (K : SpmConsts) (en : Bool) {keep : Ev → Bool}
    {s sZ s2 : SpmState} {L1 L2 : List Ev} (h1 : Tracked keep s sZ L1)
    (h2 : Tracked keep (spm_clean_after_wakeup K en (spm_get_wakeup_status sZ).2) s2 L2) :
    snapshot_then_clean K en (spm_get_wakeup_status sZ).1 (events_since s s2) := by
  have hS : Tracked watched sZ (spm_get_wakeup_status sZ).2 [] := watched_get_wakeup_status sZ
  have hC := watched_clean_after_wakeup K en (spm_get_wakeup_status sZ).2
  obtain ⟨e1, t1, _⟩ := h1
  obtain ⟨e2, t2, _⟩ := hS
  obtain ⟨e3, t3, _⟩ := hC
  obtain ⟨e4, t4, _⟩ := h2
  refine ⟨sZ, e1, e4, rfl, ?_⟩
  rw [events_since_append _ _ e2 t2, events_since_append _ _ e3 t3,
    events_since_append s s2 (e1 ++ (e2 ++ (e3 ++ e4))) (by
      rw [t4, t3, t2, t1]; simp only [List.append_assoc])]

/-- Every `spm_go_to_dpidle` call returns, having made outside calls up to the
state `sP`, then `mask_irq`, then no call of the interrupt discipline up to the
state `sX`, then `restore_irq`, then outside calls only. -/
theorem go_to_dpidle_bracket (K : SpmConsts) (hw : Hw) (cpu_pdn : Bool) (pwrlevel : Nat)
    (s : SpmState) :
    ∃ wr w s2 sP sX, spm_go_to_dpidle K hw cpu_pdn pwrlevel s = Outcome.ret (wr, w) s2 ∧
      Tracked guarded s sP [] ∧ Tracked irq_call (mask_irq K hw sP) sX [] ∧
      Tracked guarded (restore_irq hw sX) s2 [] ∧
      (∀ w0, w = some w0 →
        snapshot_then_clean K false w0 (events_since (mask_irq K hw sP) sX)) := by
  unfold spm_go_to_dpidle
  simp only []
  have hsP : Tracked guarded s (emit (Ev.aee_rr_rec_deepidle_val 0x1) s) [] :=
    guarded_emit _ _ rfl
  generalize hG : mask_irq K hw _ = sG at *
  generalize hA : emit (Ev.aee_rr_rec_deepidle_val 0x3) _ = sA
  have hsA : Tracked irq_call sG sA [] := by
    rw [← hA]
    exact (((watched_reset_and_init_pcm K _).nil (watched_kick_im_to_fetch K _ _)).nil
      (watched_emit (Ev.aee_rr_rec_deepidle_val 0x3) _ rfl)).irq rfl
  have hq := (watched_request_uart_to_sleep K hw sA).irq rfl
  rcases hR : spm_request_uart_to_sleep K hw sA with ⟨busy, sB⟩
  rw [hR] at hq
  replace hq : Tracked irq_call sA sB [] := hq
  have hsB := hsA.nil hq
  show ∃ wr w s2 sP sX, (if busy ≠ 0 then _ else _) = _ ∧ _
  by_cases hb : busy ≠ 0
  · rw [if_pos hb]
    refine ⟨_, _, _, emit (Ev.aee_rr_rec_deepidle_val 0x1) s, sB, rfl, hsP, ?_,
      guarded_emit _ _ rfl, fun w0 h => by cases h⟩
    rw [hG]
    exact hsB
  · rw [if_neg hb]
    generalize hI : spm_set_pwrctl_for_dpidle pwrlevel _ = sI
    have hsI : Tracked irq_call sB sI [] := by
      rw [← hI]
      exact (((watched_init_pcm_register K _).nil
        (watched_init_event_vector _ _)).nil (watched_set_pwrctl_for_dpidle _ _)).irq rfl
    have hW := (watched_set_wakeup_event K 6553 (WAKE_SRC_FOR_DPIDLE K) sI).irq rfl
    generalize spm_set_wakeup_event K 6553 (WAKE_SRC_FOR_DPIDLE K) sI = sW at hW ⊢
    obtain ⟨sK, hK1, hK2⟩ := watched_kick_pcm_to_run_quiet K cpu_pdn false sW
    rw [hK1]
    simp only []
    obtain ⟨_, hZt⟩ := watched_trigger_wfi_for_dpidle K hw cpu_pdn
      (emit (Ev.aee_rr_rec_deepidle_val 0x7) (emit Ev.spm_dpidle_before_wfi sK))
    generalize hZ : emit Ev.spm_dpidle_after_wfi _ = sZ
    have hsZ : Tracked irq_call sK sZ [] := by
      rw [← hZ]
      exact (((((watched_emit Ev.spm_dpidle_before_wfi sK rfl).nil
        (watched_emit (Ev.aee_rr_rec_deepidle_val 0x7) _ rfl)).nil hZt).nil
        (watched_emit (Ev.aee_rr_rec_deepidle_val 0xF) _ rfl)).nil
        (watched_emit Ev.spm_dpidle_after_wfi _ rfl)).irq rfl
    have hO : Tracked irq_call (spm_clean_after_wakeup K false (spm_get_wakeup_status sZ).2)
        { spm_clean_after_wakeup K false (spm_get_wakeup_status sZ).2 with
          trace := (spm_clean_after_wakeup K false (spm_get_wakeup_status sZ).2).trace ++
            (spm_output_wake_reason K (spm_get_wakeup_status sZ).1 true).evs } [] :=
      Tracked.irq ⟨_, rfl, output_wake_reason_watched K _ true⟩ rfl
    have hGZ : Tracked irq_call sG sZ [] :=
      (((hsB.then_nil hsI).then_nil hW).then_nil (hK2.irq rfl)).then_nil hsZ
    have hmid : Tracked irq_call sG
        { spm_clean_after_wakeup K false (spm_get_wakeup_status sZ).2 with
          trace := (spm_clean_after_wakeup K false (spm_get_wakeup_status sZ).2).trace ++
            (spm_output_wake_reason K (spm_get_wakeup_status sZ).1 true).evs } [] :=
      ((hGZ.then_nil ((watched_get_wakeup_status sZ).irq rfl)).then_nil
        ((watched_clean_after_wakeup K false (spm_get_wakeup_status sZ).2).irq rfl)).then_nil hO
    have hsnap := snapshot_then_clean_of K false hGZ hO
    refine ⟨_, _, _, emit (Ev.aee_rr_rec_deepidle_val 0x1) s, _, rfl, hsP, ?_,
      guarded_emit _ _ rfl, ?_⟩
    · rw [hG]
      exact hmid
    · intro w0 h
      rw [hG]
      cases h
      exact hsnap

/-- After the epilogue, `sleep_dpidle_tail` makes only outside calls. -/
theorem guarded_sleep_dpidle_tail (hw : Hw) (wd_ret : Int) (wakesta : Option wake_status_t)
    (s : SpmState) :
    ∃ s2, sleep_dpidle_tail hw wd_ret wakesta s
        = Outcome.ret (s.last_wr_sleep_dpidle, wakesta) s2 ∧
      Tracked guarded (restore_irq hw s) s2 [] := by
  unfold sleep_dpidle_tail
  by_cases hwd : wd_ret = 0
  · simp only [hwd, if_true]
    exact ⟨_, rfl, guarded_emit _ _ rfl⟩
  · simp only [hwd, if_false]
    exact ⟨_, rfl, Tracked.idle _ _⟩

/-- Every `spm_go_to_sleep_dpidle` call returns, having made outside calls up
to the state `sP`, then `mask_irq`, then no call of the interrupt discipline up
to the state `sX`, then `restore_irq`, then outside calls only. -/
theorem go_to_sleep_dpidle_bracket (K : SpmConsts) (hw : Hw) (cpu_pdn : Bool) (pwrlevel : Nat)
    (pwake_time : Int) (s : SpmState) :
    ∃ wr w s2 sP sX, spm_go_to_sleep_dpidle K hw cpu_pdn pwrlevel pwake_time s
        = Outcome.ret (wr, w) s2 ∧
      Tracked guarded s sP [] ∧ Tracked irq_call (mask_irq K hw sP) sX [] ∧
      Tracked guarded (restore_irq hw sX) s2 [] ∧
      (∀ w0, w = some w0 →
        snapshot_then_clean K false w0 (events_since (mask_irq K hw sP) sX)) := by
  unfold spm_go_to_sleep_dpidle
  have hP := guarded_sleep_period K hw pwake_time s.last_wr_sleep_dpidle s
  rcases hp : sleep_period K hw pwake_time s.last_wr_sleep_dpidle s with ⟨sec, s1⟩
  rw [hp] at hP
  replace hP : Tracked guarded s s1 [] := hP
  simp only []
  generalize hQ : (if hw.get_wd_api = 0 then emit Ev.wd_suspend_notify (emit Ev.get_wd_api s1)
    else emit Ev.get_wd_api s1) = sP
  have hsP : Tracked guarded s sP [] := by
    rw [← hQ]
    exact hP.nil ((guarded_emit Ev.get_wd_api s1 rfl).nil
      (guarded_if_emit _ Ev.wd_suspend_notify _ rfl))
  generalize hA : spm_kick_im_to_fetch K (pcm_dpidle K) _ = sA
  have hsA : Tracked irq_call (mask_irq K hw sP) sA [] := by
    rw [← hA]
    exact (((watched_log _ _ _ _).nil
      (watched_reset_and_init_pcm K _)).nil (watched_kick_im_to_fetch K _ _)).irq rfl
  have hq := (watched_request_uart_to_sleep K hw sA).irq rfl
  rcases hR : spm_request_uart_to_sleep K hw sA with ⟨busy, sB⟩
  rw [hR] at hq
  replace hq : Tracked irq_call sA sB [] := hq
  have hsB := hsA.nil hq
  show ∃ wr w s2 sP sX, (if busy ≠ 0 then _ else _) = _ ∧ _
  by_cases hb : busy ≠ 0
  · rw [if_pos hb]
    have h1 : Tracked irq_call sB { sB with last_wr_sleep_dpidle := WR_UART_BUSY } [] :=
      ⟨[], by simp, rfl⟩
    obtain ⟨sF, hF, hT⟩ := guarded_sleep_dpidle_tail hw hw.get_wd_api none
      { sB with last_wr_sleep_dpidle := WR_UART_BUSY }
    exact ⟨_, _, sF, sP, _, hF, hsP, hsB.then_nil h1, hT, fun w0 h => by cases h⟩
  · rw [if_neg hb]
    generalize hI : spm_set_pwrctl_for_dpidle pwrlevel _ = sI
    have hsI : Tracked irq_call sB sI [] := by
      rw [← hI]
      exact (((watched_init_pcm_register K _).nil
        (watched_init_event_vector _ _)).nil (watched_set_pwrctl_for_dpidle _ _)).irq rfl
    have hW := (watched_set_wakeup_event K (u32 (sec * 32768)) sI.spm_sleep_wakesrc sI).irq rfl
    generalize spm_set_wakeup_event K (u32 (sec * 32768)) sI.spm_sleep_wakesrc sI = sW at hW ⊢
    obtain ⟨sK, hK1, hK2⟩ := watched_kick_pcm_to_run_quiet K cpu_pdn false sW
    rw [hK1]
    simp only []
    obtain ⟨_, hZ⟩ := watched_trigger_wfi_for_dpidle K hw cpu_pdn sK
    generalize spm_trigger_wfi_for_dpidle K hw cpu_pdn sK = sZ at hZ ⊢
    have hO : Tracked irq_call (spm_clean_after_wakeup K false (spm_get_wakeup_status sZ).2)
        { spm_clean_after_wakeup K false (spm_get_wakeup_status sZ).2 with
          last_wr_sleep_dpidle := (spm_output_wake_reason K (spm_get_wakeup_status sZ).1 false).wr
          trace := (spm_clean_after_wakeup K false (spm_get_wakeup_status sZ).2).trace ++
            (spm_output_wake_reason K (spm_get_wakeup_status sZ).1 false).evs } [] :=
      Tracked.irq ⟨_, rfl, output_wake_reason_watched K _ false⟩ rfl
    have hGZ : Tracked irq_call (mask_irq K hw sP) sZ [] :=
      (((hsB.then_nil hsI).then_nil hW).then_nil (hK2.irq rfl)).then_nil (hZ.irq rfl)
    have hmid := ((hGZ.then_nil ((watched_get_wakeup_status sZ).irq rfl)).then_nil
      ((watched_clean_after_wakeup K false (spm_get_wakeup_status sZ).2).irq rfl)).then_nil hO
    have hsnap := snapshot_then_clean_of K false hGZ hO
    obtain ⟨sF, hF, hT⟩ := guarded_sleep_dpidle_tail hw hw.get_wd_api
      (some (spm_get_wakeup_status sZ).1)
      { spm_clean_after_wakeup K false (spm_get_wakeup_status sZ).2 with
          last_wr_sleep_dpidle := (spm_output_wake_reason K (spm_get_wakeup_status sZ).1 false).wr
          trace := (spm_clean_after_wakeup K false (spm_get_wakeup_status sZ).2).trace ++
            (spm_output_wake_reason K (spm_get_wakeup_status sZ).1 false).evs }
    refine ⟨_, _, sF, sP, _, hF, hsP, hmid, hT, ?_⟩
    intro w0 h
    cases h
    exact hsnap

/-- Every `spm_go_to_sleep` call returns, having made outside calls up to the
state `sP`, then `mask_irq`, then no call of the interrupt discipline up to the
state `sX`, then `restore_irq`, then outside calls and the lock calls of the
report. -/
theorem go_to_sleep_bracket (K : SpmConsts) (hw : Hw) (cpu_pdn infra_pdn : Bool)
    (pwake_time : Int) (s : SpmState) :
    ∃ wr w s2 sP sX, spm_go_to_sleep K hw cpu_pdn infra_pdn pwake_time s
        = Outcome.ret (wr, w) s2 ∧
      Tracked guarded s sP [] ∧ Tracked irq_call (mask_irq K hw sP) sX [] ∧
      Tracked guarded (restore_irq hw sX) s2 (report_calls wr w) ∧
      (∀ w0, w = some w0 →
        snapshot_then_clean K true w0 (events_since (mask_irq K hw sP) sX)) := by
  unfold spm_go_to_sleep
  have hP := guarded_sleep_period K hw pwake_time s.last_wr_sleep s
  have hT := sleep_timer_ok K hw pwake_time s.last_wr_sleep s
  rcases hp : sleep_period K hw pwake_time s.last_wr_sleep s with ⟨sec, s1⟩
  rw [hp] at hP hT
  replace hP : Tracked guarded s s1 [] := hP
  simp only [] at hT ⊢
  generalize hQ : (if hw.get_wd_api = 0 then emit Ev.wd_suspend_notify (emit Ev.get_wd_api s1)
    else emit Ev.get_wd_api s1) = sP
  have hsP : Tracked guarded s sP [] := by
    rw [← hQ]
    exact hP.nil ((guarded_emit Ev.get_wd_api s1 rfl).nil
      (guarded_if_emit _ Ev.wd_suspend_notify _ rfl))
  generalize hA : spm_kick_im_to_fetch K (pcm_suspend K) _ = sA
  have hsA : Tracked irq_call (mask_irq K hw sP) sA [] := by
    rw [← hA]
    exact (((((watched_set_sysclk_settle _).nil
      (watched_force_gpt_arm K _)).nil (watched_log _ _ _ _)).nil
      (watched_reset_and_init_pcm K _)).nil (watched_kick_im_to_fetch K _ _)).irq rfl
  have hq := (watched_request_uart_to_sleep K hw sA).irq rfl
  rcases hR : spm_request_uart_to_sleep K hw sA with ⟨busy, sB⟩
  rw [hR] at hq
  replace hq : Tracked irq_call sA sB [] := hq
  have hsB := hsA.nil hq
  show ∃ wr w s2 sP sX, (if busy ≠ 0 then _ else _) = _ ∧ _
  by_cases hb : busy ≠ 0
  · rw [if_pos hb]
    have h1 : Tracked irq_call sB { sB with last_wr_sleep := WR_UART_BUSY } [] :=
      ⟨[], by simp, rfl⟩
    have htail := guarded_sleep_tail K hw hw.get_wd_api none
      { sB with last_wr_sleep := WR_UART_BUSY }
    obtain ⟨sF, hF, _⟩ := sleep_tail_busy K hw hw.get_wd_api sB
    rw [hF] at htail
    exact ⟨_, _, sF, sP, _, hF, hsP, hsB.then_nil h1, htail, fun w0 h => by cases h⟩
  · rw [if_neg hb]
    have h1 : Tracked irq_call sB { sB with mt_wake_event_comm := none } [] :=
      ⟨[], by simp, rfl⟩
    generalize hI : spm_set_pwrctl_for_sleep _ = sI
    have hsI : Tracked irq_call sB sI [] := by
      rw [← hI]
      exact (h1.nil ((((watched_init_pcm_register K _).nil
        (watched_init_event_vector _ _)).nil (watched_set_pwrctl_for_sleep _)).irq rfl))
    have hW := (watched_set_wakeup_event K (u32 (sec * 32768)) sI.spm_sleep_wakesrc sI).irq rfl
    have hWt := set_wakeup_event_timer_reg K (u32 (sec * 32768)) sI.spm_sleep_wakesrc sI
    generalize spm_set_wakeup_event K (u32 (sec * 32768)) sI.spm_sleep_wakesrc sI = sW
      at hW hWt ⊢
    have hle : SPM_PCMWDT_EN K = true →
        u32 (if u32 (sec * 32768) ≠ 0 then u32 (sec * 32768) else PCM_TIMER_MAX_FOR_WDT)
          ≤ PCM_TIMER_MAX_FOR_WDT := hT
    obtain ⟨sK, hK1, hK2⟩ := watched_kick_pcm_to_run_wdt K cpu_pdn infra_pdn sW (by
      intro hc
      rw [hWt, u32_u32]
      exact hle hc)
    replace hK2 : Tracked irq_call sW sK [] := by
      refine hK2.irq ?_
      split <;> rfl
    rw [hK1]
    simp only []
    have hZ := (watched_trigger_wfi_for_sleep K hw cpu_pdn infra_pdn sK).irq rfl
    generalize spm_trigger_wfi_for_sleep K hw cpu_pdn infra_pdn sK = sZ at hZ ⊢
    have htail := guarded_sleep_tail K hw hw.get_wd_api (some (spm_get_wakeup_status sZ).1)
      (force_gpt_ack K hw
        { spm_clean_after_wakeup K true (spm_get_wakeup_status sZ).2 with
          last_wr_sleep := (spm_output_wake_reason K (spm_get_wakeup_status sZ).1 false).wr
          trace := (spm_clean_after_wakeup K true (spm_get_wakeup_status sZ).2).trace ++
            (spm_output_wake_reason K (spm_get_wakeup_status sZ).1 false).evs })
    have hlw := (force_gpt_ack_fields K hw
        { spm_clean_after_wakeup K true (spm_get_wakeup_status sZ).2 with
          last_wr_sleep := (spm_output_wake_reason K (spm_get_wakeup_status sZ).1 false).wr
          trace := (spm_clean_after_wakeup K true (spm_get_wakeup_status sZ).2).trace ++
            (spm_output_wake_reason K (spm_get_wakeup_status sZ).1 false).evs }).1
    obtain ⟨sF, hF, _⟩ := sleep_tail_some K hw hw.get_wd_api (spm_get_wakeup_status sZ).1
      (force_gpt_ack K hw
        { spm_clean_after_wakeup K true (spm_get_wakeup_status sZ).2 with
          last_wr_sleep := (spm_output_wake_reason K (spm_get_wakeup_status sZ).1 false).wr
          trace := (spm_clean_after_wakeup K true (spm_get_wakeup_status sZ).2).trace ++
            (spm_output_wake_reason K (spm_get_wakeup_status sZ).1 false).evs })
    rw [hlw] at hF htail
    rw [hF] at htail
    have hO : Tracked irq_call (spm_clean_after_wakeup K true (spm_get_wakeup_status sZ).2)
        (force_gpt_ack K hw
          { spm_clean_after_wakeup K true (spm_get_wakeup_status sZ).2 with
            last_wr_sleep := (spm_output_wake_reason K (spm_get_wakeup_status sZ).1 false).wr
            trace := (spm_clean_after_wakeup K true (spm_get_wakeup_status sZ).2).trace ++
              (spm_output_wake_reason K (spm_get_wakeup_status sZ).1 false).evs }) [] :=
      (Tracked.nil ⟨_, rfl, output_wake_reason_watched K _ false⟩
        (watched_force_gpt_ack K hw _)).irq rfl
    have hGZ : Tracked irq_call (mask_irq K hw sP) sZ [] :=
      (((hsB.then_nil hsI).then_nil hW).then_nil hK2).then_nil hZ
    have hmid := ((hGZ.then_nil ((watched_get_wakeup_status sZ).irq rfl)).then_nil
      ((watched_clean_after_wakeup K true (spm_get_wakeup_status sZ).2).irq rfl)).then_nil hO
    have hsnap := snapshot_then_clean_of K true hGZ hO
    refine ⟨_, _, sF, sP, _, hF, hsP, hmid, htail, ?_⟩
    intro w0 h
    cases h
    exact hsnap

/-- C25, amended: each of the three entry points returns, on a refused request
and on a completed transition alike, and its trace is bracketed by the
interrupt discipline.  Before the prologue (lock acquire, `mt_irq_mask_all`,
`mt_irq_unmask_for_sleep(MT_SPM_IRQ_ID)`, `mt_cirq_clone_gic`,
`mt_cirq_enable`) it makes only outside calls (watchdog API, duration policy,
deep-idle record, diagnostics); between the prologue and the epilogue
(`mt_cirq_flush`, `mt_cirq_disable`, `mt_irq_mask_restore` with the mask saved
by `mt_irq_mask_all`, lock release) lies everything else, with no call of the
interrupt discipline; after the epilogue the two deep-idle entry points make
only outside calls, while `spm_go_to_sleep` also acquires and releases the lock
once more when it reports a wake source (`report_calls`).  So every call of
the interrupt discipline occurs once, apart from that second lock pair.  On a
completed transition the eight reads of `spm_get_wakeup_status` that captured
the returned snapshot are followed, inside the bracket, by the events of
`spm_clean_after_wakeup`. -/
theorem irq_discipline (K : SpmConsts) (hw : Hw) (cpu_pdn infra_pdn : Bool) (pwrlevel : Nat)
    (pwake_time : Int) (s : SpmState) :
    (∃ wr w s2 pre mid post,
      spm_go_to_sleep K hw cpu_pdn infra_pdn pwake_time s = Outcome.ret (wr, w) s2 ∧
      bracketed hw.irq_mask K.MT_SPM_IRQ_ID (events_since s s2) pre mid post ∧
      post.filter irq_call = report_calls wr w ∧
      (events_since s s2).filter irq_call
        = irq_prologue hw.irq_mask K.MT_SPM_IRQ_ID ++ irq_epilogue hw.irq_mask ++
            report_calls wr w ∧
      (∀ w0, w = some w0 → snapshot_then_clean K true w0 mid)) ∧
    (∃ wr w s2 pre mid post,
      spm_go_to_sleep_dpidle K hw cpu_pdn pwrlevel pwake_time s = Outcome.ret (wr, w) s2 ∧
      bracketed hw.irq_mask K.MT_SPM_IRQ_ID (events_since s s2) pre mid post ∧
      (∀ e ∈ post, outside_call e = true) ∧
      (events_since s s2).filter irq_call
        = irq_prologue hw.irq_mask K.MT_SPM_IRQ_ID ++ irq_epilogue hw.irq_mask ∧
      (∀ w0, w = some w0 → snapshot_then_clean K false w0 mid)) ∧
    (∃ wr w s2 pre mid post,
      spm_go_to_dpidle K hw cpu_pdn pwrlevel s = Outcome.ret (wr, w) s2 ∧
      bracketed hw.irq_mask K.MT_SPM_IRQ_ID (events_since s s2) pre mid post ∧
      (∀ e ∈ post, outside_call e = true) ∧
      (events_since s s2).filter irq_call
        = irq_prologue hw.irq_mask K.MT_SPM_IRQ_ID ++ irq_epilogue hw.irq_mask ∧
      (∀ w0, w = some w0 → snapshot_then_clean K false w0 mid)) ∧
    (∀ sZ : SpmState, (events_since sZ (spm_get_wakeup_status sZ).2).length = 8 ∧
      ∀ e ∈ events_since sZ (spm_get_wakeup_status sZ).2, ∃ r v, e = Ev.spm_read r v) := by
  have hpost : ∀ post : List Ev, (∀ e ∈ post, outside_call e = true ∨ irq_call e = true) →
      post.filter irq_call = [] → ∀ e ∈ post, outside_call e = true := by
    intro post h1 h2 e he
    rcases h1 e he with h | h
    · exact h
    · exact absurd h (List.filter_eq_nil_iff.mp h2 e he)
  refine ⟨?_, ?_, ?_, ?_⟩
  · obtain ⟨wr, w, s2, sP, sX, hc, h1, h2, h3, h4⟩ :=
      go_to_sleep_bracket K hw cpu_pdn infra_pdn pwake_time s
    obtain ⟨pre, post, hb, hf⟩ := bracket_of K hw h1 h2 h3 (report_calls_all_irq wr w)
    refine ⟨wr, w, s2, pre, _, post, hc, hb, hf, ?_, h4⟩
    rw [bracketed_irq_calls hb, hf]
  · obtain ⟨wr, w, s2, sP, sX, hc, h1, h2, h3, h4⟩ :=
      go_to_sleep_dpidle_bracket K hw cpu_pdn pwrlevel pwake_time s
    obtain ⟨pre, post, hb, hf⟩ := bracket_of K hw h1 h2 h3 (by simp)
    refine ⟨wr, w, s2, pre, _, post, hc, hb, hpost post hb.2.2.2 hf, ?_, h4⟩
    rw [bracketed_irq_calls hb, hf, List.append_nil]
  · obtain ⟨wr, w, s2, sP, sX, hc, h1, h2, h3, h4⟩ :=
      go_to_dpidle_bracket K hw cpu_pdn pwrlevel s
    obtain ⟨pre, post, hb, hf⟩ := bracket_of K hw h1 h2 h3 (by simp)
    refine ⟨wr, w, s2, pre, _, post, hc, hb, hpost post hb.2.2.2 hf, ?_, h4⟩
    rw [bracketed_irq_calls hb, hf, List.append_nil]
  · intro sZ
    rw [get_wakeup_status_reads]
    refine ⟨rfl, ?_⟩
    intro e he
    simp only [List.mem_cons, List.mem_singleton, List.not_mem_nil, or_false] at he
    rcases he with h | h | h | h | h | h | h | h <;> exact ⟨_, _, h⟩

set_option maxRecDepth 100000 in
theorem irq_discipline_witness :
    ∃ s2 pre mid post,
      spm_go_to_dpidle sampleConsts (sampleHw (fun i => i == 3) sampleWoken) true 0
          (spm_boot sampleConsts fun _ => 0)
        = Outcome.ret (WR_WAKE_SRC, some (wake_status_t.mk 0 (2 ^ 5) 0 0 0 0x100000 0 0)) s2 ∧
      bracketed 0 197 (events_since (spm_boot sampleConsts fun _ => 0) s2) pre mid post ∧
      (∀ e ∈ post, outside_call e = true) ∧
      snapshot_then_clean sampleConsts false (wake_status_t.mk 0 (2 ^ 5) 0 0 0 0x100000 0 0)
        mid := by
  obtain ⟨wr, w, s2, pre, mid, post, h1, h2, h3, _, h5⟩ := (irq_discipline sampleConsts
    (sampleHw (fun i => i == 3) sampleWoken) true true 0 5
    (spm_boot sampleConsts fun _ => 0)).2.2.1
  have hev : ∃ sF, spm_go_to_dpidle sampleConsts (sampleHw (fun i => i == 3) sampleWoken) true 0
      (spm_boot sampleConsts fun _ => 0)
        = Outcome.ret (WR_WAKE_SRC, some (wake_status_t.mk 0 (2 ^ 5) 0 0 0 0x100000 0 0)) sF :=
    ⟨_, rfl⟩
  obtain ⟨sF, hF⟩ := hev
  have hE := h1.symm.trans hF
  injection hE with hr hs
  injection hr with hwr hw
  subst hs
  exact ⟨s2, pre, mid, post, hF, h2, h3, h5 _ hw⟩

/-- C27: `spm_go_to_sleep` always returns, so the `BUG_ON` of
`spm_kick_pcm_to_run` is never reached from it; in a build with the watchdog
(`SPM_PCMWDT_EN`) every value it writes to `SPM_PCM_TIMER_VAL` is at most
`PCM_TIMER_MAX_FOR_WDT = 0xffffffff - 30 * 32768` and every value it writes to
`SPM_PCM_WDT_TIMER_VAL` is the timer value plus `30 * 32768`, computed without
wrapping. -/
theorem bug_on_unreachable (K : SpmConsts) (hw : Hw) (cpu_pdn infra_pdn : Bool)
    (pwake_time : Int) (s : SpmState) :
    ∃ r s2, spm_go_to_sleep K hw cpu_pdn infra_pdn pwake_time s = Outcome.ret r s2 ∧
      (SPM_PCMWDT_EN K = true →
        (∀ v ∈ writes_to Reg.SPM_PCM_TIMER_VAL (events_since s s2),
          v ≤ PCM_TIMER_MAX_FOR_WDT) ∧
        (∀ v ∈ writes_to Reg.SPM_PCM_WDT_TIMER_VAL (events_since s s2),
          v < 2 ^ 32 ∧
          ∃ t ∈ writes_to Reg.SPM_PCM_TIMER_VAL (events_since s s2),
            v = t + PCM_WDT_TIMEOUT)) ∧
      PCM_TIMER_MAX_FOR_WDT = 0xffffffff - 30 * 32768 ∧ PCM_WDT_TIMEOUT = 30 * 32768 := by
  rcases go_to_sleep_trace K hw cpu_pdn infra_pdn pwake_time s with
    ⟨s2, h, ht⟩ | ⟨wr, w, s2, tv, mv, _, h, hle, ht, _⟩
  · refine ⟨_, s2, h, ?_, rfl, rfl⟩
    intro _
    have hT := writes_to_keep watched Reg.SPM_PCM_TIMER_VAL (fun _ => rfl) (events_since s s2)
    have hD := writes_to_keep watched Reg.SPM_PCM_WDT_TIMER_VAL (fun _ => rfl)
      (events_since s s2)
    rw [ht.since] at hT hD
    rw [← hT, ← hD]
    simp only [writes_to_append, period_calls_writes, List.nil_append]
    constructor
    · intro v hv
      exact absurd hv (by simp [writes_to, irq_prologue, irq_epilogue])
    · intro v hv
      exact absurd hv (by simp [writes_to, irq_prologue, irq_epilogue])
  · refine ⟨_, s2, h, ?_, rfl, rfl⟩
    intro hen
    have hT := writes_to_keep watched Reg.SPM_PCM_TIMER_VAL (fun _ => rfl) (events_since s s2)
    have hD := writes_to_keep watched Reg.SPM_PCM_WDT_TIMER_VAL (fun _ => rfl)
      (events_since s s2)
    rw [ht.since] at hT hD
    rw [← hT, ← hD]
    simp only [writes_to_append, period_calls_writes, report_calls_writes, List.nil_append,
      List.append_nil, hen, if_true]
    have h1 : writes_to Reg.SPM_PCM_TIMER_VAL (irq_prologue hw.irq_mask K.MT_SPM_IRQ_ID) = [] :=
      rfl
    have h2 : writes_to Reg.SPM_PCM_TIMER_VAL (irq_epilogue hw.irq_mask) = [] := rfl
    have h3 : writes_to Reg.SPM_PCM_WDT_TIMER_VAL (irq_prologue hw.irq_mask K.MT_SPM_IRQ_ID)
        = [] := rfl
    have h4 : writes_to Reg.SPM_PCM_WDT_TIMER_VAL (irq_epilogue hw.irq_mask) = [] := rfl
    rw [h1, h2, h3, h4]
    simp only [writes_to, List.filterMap_cons, List.filterMap_nil, reduceCtorEq, if_false,
      if_true, List.nil_append, List.append_nil, List.singleton_append, List.mem_singleton]
    refine ⟨fun v hv => hv ▸ hle hen, fun v hv => ⟨hv ▸ wdt_no_wrap tv (hle hen), tv, rfl, hv⟩⟩

theorem bug_on_unreachable_witness :
    ∃ r s2, spm_go_to_sleep sampleConsts (sampleHw (fun i => i == 3) sampleWoken) true true
        (-1) (spm_boot sampleConsts fun _ => 0) = Outcome.ret r s2 ∧
      ∀ v ∈ writes_to Reg.SPM_PCM_TIMER_VAL (events_since (spm_boot sampleConsts fun _ => 0) s2),
        v ≤ PCM_TIMER_MAX_FOR_WDT := by
  obtain ⟨r, s2, h1, h2, _⟩ := bug_on_unreachable sampleConsts
    (sampleHw (fun i => i == 3) sampleWoken) true true (-1) (spm_boot sampleConsts fun _ => 0)
  exact ⟨r, s2, h1, (h2 rfl).1⟩

theorem scan_timer_snd_ne_busy (K : SpmConsts) (w : wake_status_t)
    (s : String × wake_reason_t) (hs : s.2 ≠ WR_UART_BUSY) :
    (scan_timer K w s).2 ≠ WR_UART_BUSY := by
  unfold scan_timer
  split
  · split
    · simp
    · exact strcat_if_snd_ne _ _ _ _ _ (by decide) (strcat_if_snd_ne _ _ _ _ _ (by decide) hs)
  · exact hs

theorem scan_sources_snd_ne_busy (K : SpmConsts) (w : wake_status_t)
    (s : String × wake_reason_t) (hs : s.2 ≠ WR_UART_BUSY) :
    (scan_sources K w s).2 ≠ WR_UART_BUSY := by
  unfold scan_sources
  repeat (apply strcat_if_snd_ne _ _ _ _ _ (by decide))
  exact hs

theorem output_wake_reason_ne (K : SpmConsts) (w : wake_status_t) (dpidle : Bool) :
    (spm_output_wake_reason K w dpidle).wr ≠ WR_NONE ∧
    (spm_output_wake_reason K w dpidle).wr ≠ WR_UART_BUSY := by
  by_cases hd : w.debug_reg = 0
  · cases dpidle
    · rw [wake_reason_wr K w hd]
      have hb := scan_sources_snd_ne_busy K w (scan_timer K w ("", WR_NONE))
        (scan_timer_snd_ne_busy K w _ (by decide))
      generalize (scan_sources K w (scan_timer K w ("", WR_NONE))).2 = r at hb
      split
      · exact ⟨by decide, by decide⟩
      · split
        · exact ⟨by decide, by decide⟩
        · rename_i h
          exact ⟨h, hb⟩
    · simp [spm_output_wake_reason, hd]
  · simp [spm_output_wake_reason, hd]

/-- C29: `spm_output_wake_reason` returns one of `WR_PCM_ASSERT`,
`WR_WAKE_SRC`, `WR_PCM_TIMER`, `WR_PCM_WDT`, `WR_PCM_ABORT`, `WR_UNKNOWN`, never
`WR_NONE` or `WR_UART_BUSY`; `spm_go_to_sleep` always returns, never with
`WR_NONE`, never after reading a snapshot that was not captured, and whenever
it returns without a snapshot its reason is `WR_UART_BUSY`, for which it makes
no report. -/
theorem wake_reason_range (K : SpmConsts) (w : wake_status_t) (dpidle : Bool) (hw : Hw)
    (cpu_pdn infra_pdn : Bool) (pwake_time : Int) (s : SpmState) :
    (spm_output_wake_reason K w dpidle).wr ∈
      [WR_PCM_ASSERT, WR_WAKE_SRC, WR_PCM_TIMER, WR_PCM_WDT, WR_PCM_ABORT, WR_UNKNOWN] ∧
    (∃ wr ws s2, spm_go_to_sleep K hw cpu_pdn infra_pdn pwake_time s = Outcome.ret (wr, ws) s2 ∧
      wr ≠ WR_NONE ∧ (ws = none → wr = WR_UART_BUSY) ∧
      ((wr = WR_WAKE_SRC ∨ wr = WR_PCM_ABORT) → ws ≠ none) ∧
      (ws = none → report_calls wr ws = [])) ∧
    (∀ sU, spm_go_to_sleep K hw cpu_pdn infra_pdn pwake_time s ≠ Outcome.uninit sU) ∧
    (∀ sU, spm_go_to_sleep K hw cpu_pdn infra_pdn pwake_time s ≠ Outcome.bug sU) := by
  have hrun : ∃ wr ws s2,
      spm_go_to_sleep K hw cpu_pdn infra_pdn pwake_time s = Outcome.ret (wr, ws) s2 ∧
      wr ≠ WR_NONE ∧ (ws = none → wr = WR_UART_BUSY) ∧
      ((wr = WR_WAKE_SRC ∨ wr = WR_PCM_ABORT) → ws ≠ none) ∧
      (ws = none → report_calls wr ws = []) := by
    rcases go_to_sleep_trace K hw cpu_pdn infra_pdn pwake_time s with
      ⟨s2, h, _⟩ | ⟨wr, w2, s2, tv, mv, hwr, h, _, _, _⟩
    · refine ⟨_, _, s2, h, by decide, fun _ => rfl, ?_, fun _ => rfl⟩
      intro hc
      rcases hc with hc | hc <;> exact absurd hc (by decide)
    · refine ⟨_, _, s2, h, ?_, fun hn => absurd hn (by simp), fun _ => by simp,
        fun hn => absurd hn (by simp)⟩
      rw [hwr]
      exact (output_wake_reason_ne K w2 false).1
  refine ⟨?_, hrun, ?_, ?_⟩
  · obtain ⟨h1, h2⟩ := output_wake_reason_ne K w dpidle
    generalize (spm_output_wake_reason K w dpidle).wr = r at h1 h2
    cases r <;> simp at h1 h2 ⊢
  · intro sU hU
    obtain ⟨wr, ws, s2, h, _⟩ := hrun
    rw [h] at hU
    exact Outcome.noConfusion hU
  · intro sU hU
    obtain ⟨wr, ws, s2, h, _⟩ := hrun
    rw [h] at hU
    exact Outcome.noConfusion hU

theorem wake_reason_range_witness :
    ∃ wr ws s2, spm_go_to_sleep sampleConsts (sampleHw (fun _ => false) sampleWoken) true true 5
        (spm_boot sampleConsts fun _ => 0) = Outcome.ret (wr, ws) s2 ∧ wr ≠ WR_NONE ∧
      (ws = none → wr = WR_UART_BUSY) := by
  obtain ⟨wr, ws, s2, h1, h2, h3, _⟩ := (wake_reason_range sampleConsts
    (wake_status_t.mk 0 1 0 0 0 0x100000 0 0) false (sampleHw (fun _ => false) sampleWoken)
    true true 5 (spm_boot sampleConsts fun _ => 0)).2.1
  exact ⟨wr, ws, s2, h1, h2, h3⟩

end Spm
